import Mathlib

/-!
# Drawing editor (`src/components/conva.jsx`): document, history and gestures

A shallow embedding of the editor component `KonvaApp` and of the crop
confirmation of the modal cropper (`src/components/image-cropper.jsx`).

* A JavaScript number is modelled as an exact rational (`ℚ`); the rounding of
  floating point arithmetic is outside the model.  Counters that the code only
  ever uses as array indices or lengths are natural numbers.
* A JavaScript object is a record whose fields are optional: `none` stands for
  a field that is absent (`undefined`) or, for a number, is `NaN`.
* The component state (every `useState` cell and every `useRef` cell that the
  handlers read) is one record, `State`.  A handler runs on the state of the
  render it was created in and yields the state of the next render; the
  updates it queues are applied together.
* An in-place write to a shape object (`shape.width = ...` in
  `handleMouseMove`) is modelled as replacing that shape in the live Document;
  a history snapshot that shares the object is not updated with it.
* A slot that an array write past the end leaves empty is the value `hole`.
  A spread copy of such an array holds `undefined` in that slot, which the
  model does not tell from the hole; the render of a Document that holds
  `undefined` throws (`shape.type` in the callback of `shapes.map`), so where a
  handler runs, the empty slots of the live Document are holes.
* Where a statement needs the mathematical cosine and sine, the formula of the
  code is read over the real numbers (`sprayCentre`).
-/

namespace KonvaApp

/-- The values of `shape.type`: the strings `"rect"`, `"square"`, `"circle"`,
`"triangle"`, `"line"`, `"eraser"`, `"straightLine"` and `"image"`. -/
inductive ShapeType where
  | rect | square | circle | triangle | line | eraser | straightLine | image
  deriving DecidableEq, Repr

/-- The values of the `tool` state: `"rectangle"`, `"square"`, `"circle"`,
`"triangle"`, `"line"`, `"straightLine"`, `"eraser"`, `"move"`, `"cropImage"`. -/
inductive Tool where
  | rectangle | square | circle | triangle | line | straightLine | eraser | move | cropImage
  deriving DecidableEq, Repr

/-- The values of the `brushType` state: `"normal"`, `"watercolor"`, `"spray"`. -/
inductive BrushType where
  | normal | watercolor | spray
  deriving DecidableEq, Repr

/-- A decoded bitmap (an `Image` element): its encoded source and intrinsic size. -/
structure Bitmap where
  src : String
  width : ℚ
  height : ℚ
  deriving DecidableEq, Repr

/-- A slot of the `shapes` array: a shape object, or the hole that a write past
the end of the array leaves (see `hole`).  Every field of the object is
optional, as in the JavaScript records: the object literals of the editor set
different fields for different kinds of shape.  `vacant` is set in `hole` only;
it is no field of the JavaScript object. -/
structure Shape where
  type : Option ShapeType := none
  x : Option ℚ := none
  y : Option ℚ := none
  width : Option ℚ := none
  height : Option ℚ := none
  size : Option ℚ := none
  radius : Option ℚ := none
  sides : Option ℕ := none
  points : Option (List ℚ) := none
  fill : Option String := none
  stroke : Option String := none
  strokeWidth : Option ℚ := none
  brushType : Option BrushType := none
  opacity : Option ℚ := none
  tension : Option ℚ := none
  lineCap : Option String := none
  lineJoin : Option String := none
  offsetX : Option ℚ := none
  offsetY : Option ℚ := none
  rotation : Option ℚ := none
  scaleX : Option ℚ := none
  scaleY : Option ℚ := none
  image : Option Bitmap := none
  originalWidth : Option ℚ := none
  originalHeight : Option ℚ := none
  originalSrc : Option String := none
  vacant : Bool := false
  deriving DecidableEq, Repr

/-- The Document: the `shapes` array, in z-order. -/
abbrev Document := List Shape

/-- An array slot that holds no object: the hole that `arr[i] = v` with `i`
past the end leaves in each slot between the old end and `i`.  It is not the
object with no field, `{}`.  `filter` and `map` skip a hole, reading the slot
gives `undefined` (so reading a field of it throws a `TypeError`), and
`JSON.stringify` writes it as `null`.  A hole is never the last slot of an
array. -/
def hole : Shape := { vacant := true }

/-- A point `{ x, y }`. -/
structure Point where
  x : ℚ
  y : ℚ
  deriving DecidableEq, Repr

/-- The state of the component: one field per `useState` / `useRef` cell of
`KonvaApp` that the handlers read or write. -/
structure State where
  shapes : Document
  tool : Tool
  brushType : BrushType
  isDrawing : Bool
  lineStart : Point
  color : String
  brushSize : ℕ
  opacity : ℚ
  selectedShapeIndex : Option ℕ
  stageWidth : ℚ
  stageHeight : ℚ
  isCropping : Bool
  cropStartPoint : Point
  cropEndPoint : Point
  cropRectVisible : Bool
  sprayTimer : Bool
  history : List Document
  historyStep : ℕ
  isPerformingAction : Bool
  showCropModal : Bool
  cropImageData : Option String
  cropImageIndex : Option ℕ
  deriving DecidableEq, Repr

/-- The state of the first render: the initial value of every cell
(`useState([])`, `useState("rectangle")`, ..., `useState([[]])`, `useState(0)`,
`useRef(false)`). -/
def initialState : State where
  shapes := []
  tool := Tool.rectangle
  brushType := BrushType.normal
  isDrawing := false
  lineStart := ⟨0, 0⟩
  color := "#000000"
  brushSize := 4
  opacity := 1
  selectedShapeIndex := none
  stageWidth := 800
  stageHeight := 500
  isCropping := false
  cropStartPoint := ⟨0, 0⟩
  cropEndPoint := ⟨0, 0⟩
  cropRectVisible := false
  sprayTimer := false
  history := [[]]
  historyStep := 0
  isPerformingAction := false
  showCropModal := false
  cropImageData := none
  cropImageIndex := none

/-! ## History -/

/-- `addToHistory(newShapes)`: nothing while `isPerformingAction.current` is
set; otherwise `history.slice(0, historyStep + 1)` with a copy of `newShapes`
pushed, and the cursor on the last index. -/
def addToHistory (newShapes : Document) (s : State) : State :=
  if s.isPerformingAction then s
  else
    let newHistory := s.history.take (s.historyStep + 1) ++ [newShapes]
    { s with history := newHistory, historyStep := newHistory.length - 1 }

/-- `handleUndo`.  When `history[newStep]` is missing the spread
`[...history[newStep]]` throws after the flag is set and the cursor update is
queued: the Document is then left as it was. -/
def handleUndo (s : State) : State :=
  if s.historyStep > 0 then
    let newStep := s.historyStep - 1
    match s.history[newStep]? with
    | some doc => { s with isPerformingAction := true, historyStep := newStep, shapes := doc }
    | none => { s with isPerformingAction := true, historyStep := newStep }
  else s

/-- `handleRedo`.  The guard `historyStep < history.length - 1` is compared over
the integers, as `history.length - 1` is `-1` for an empty array. -/
def handleRedo (s : State) : State :=
  if (s.historyStep : ℤ) < (s.history.length : ℤ) - 1 then
    let newStep := s.historyStep + 1
    match s.history[newStep]? with
    | some doc => { s with isPerformingAction := true, historyStep := newStep, shapes := doc }
    | none => { s with isPerformingAction := true, historyStep := newStep }
  else s

/-- The callback that `handleUndo` and `handleRedo` pass to `setTimeout`:
`isPerformingAction.current = false`. -/
def releaseGuard (s : State) : State :=
  { s with isPerformingAction := false }

/-- The history invariant `0 <= historyStep < history.length`. -/
def historyInv (s : State) : Prop :=
  0 ≤ s.historyStep ∧ s.historyStep < s.history.length

instance (s : State) : Decidable (historyInv s) :=
  inferInstanceAs (Decidable (0 ≤ s.historyStep ∧ s.historyStep < s.history.length))

/-- The statement pair `setShapes(newShapes); addToHistory(newShapes);` found
at the close of `handleImageUpload`, `handleLoad` and `handleDeleteSelected`:
the live Document becomes `newShapes` and the same Document is committed. -/
def setShapesAndCommit (newShapes : Document) (s : State) : State :=
  addToHistory newShapes { s with shapes := newShapes }

/-- The assignment `arr[i] = v` on a copy of `arr`.  An index past the end
leaves a hole in each slot between the old end and `i`. -/
def arrayAssign (arr : List Shape) (i : ℕ) (v : Shape) : List Shape :=
  if i < arr.length then arr.set i v
  else arr ++ List.replicate (i - arr.length) hole ++ [v]

/-- `handleCroppedImage(croppedImageUrl)`, the part that runs at once: with a
falsy URL (`null`, `undefined` or the empty string) or no `cropImageIndex` the
modal is closed; otherwise the image load is started and nothing is written. -/
def handleCroppedImage (croppedImageUrl : Option String) (s : State) : State :=
  if croppedImageUrl = none ∨ croppedImageUrl = some "" ∨ s.cropImageIndex = none then
    { s with showCropModal := false }
  else s

/-- The `img.onload` callback created by `handleCroppedImage`.  `c` is the
state of the render in which `handleCroppedImage` ran (the callback reads
`shapes`, `cropImageIndex`, `history` and `historyStep` from that closure),
`img` the decoded cropped bitmap and `s` the state when the load completes.
When there is no object at `cropImageIndex` (the index is past the end, or the
slot is a hole) `selectedShape` is `undefined`, whose spread adds no field. -/
def handleCroppedImage_onload (img : Bitmap) (c : State) (s : State) : State :=
  match c.cropImageIndex with
  | none => s
  | some idx =>
    let selectedShape : Shape :=
      match c.shapes[idx]? with
      | some shape => if shape = hole then ({} : Shape) else shape
      | none => ({} : Shape)
    let updatedShapes := arrayAssign c.shapes idx
      { selectedShape with
        image := some img
        originalWidth := some img.width
        originalHeight := some img.height
        scaleX := some 1
        scaleY := some 1
        rotation := some 0 }
    let newHistory := c.history.take (c.historyStep + 1) ++ [updatedShapes]
    { s with
      shapes := updatedShapes
      history := newHistory
      historyStep := newHistory.length - 1
      showCropModal := false }

/-! ## Pointer gestures -/

/-- The functions and constants of the JavaScript `Math` object that the
handlers call, with the values they return taken as rationals. -/
structure JSMath where
  sqrt : ℚ → ℚ
  cos : ℚ → ℚ
  sin : ℚ → ℚ
  PI : ℚ

/-- The centre `(randomX, randomY)` of one dot of `handleSpray(x, y)`, from the
draw `u0` for the radius and the draw `u1` for the angle.  The formula is
written over any field of numbers `K`: the handlers use it on the rationals
with the cosine and sine of a `JSMath`, and a statement can read it on the
real numbers with the mathematical cosine and sine. -/
def sprayCentre {K : Type} [Field K] (cos sin : K → K) (PI : K) (x y u0 u1 : K) : K × K :=
  let radius : K := 20
  let randomRadius := u0 * radius
  let randomAngle := u1 * 2 * PI
  let randomX := x + randomRadius * cos randomAngle
  let randomY := y + randomRadius * sin randomAngle
  (randomX, randomY)

/-- The `i`-th dot built by the loop of `handleSpray(x, y)`.  `rand n` is the
value of the `n`-th call of `Math.random()` that the handler causes: the loop
draws the radius and the angle of each dot as it runs (two calls per dot), and
the dot radius and the dot opacity are drawn in the object literal of the
queued updater, which runs after the loop (two more calls per dot, in the
order of the dots). -/
def sprayDot (m : JSMath) (rand : ℕ → ℚ) (x y : ℚ) (s : State) (i : ℕ) : Shape :=
  let density := s.brushSize * 2
  let centre := sprayCentre m.cos m.sin m.PI x y (rand (2 * i)) (rand (2 * i + 1))
  { type := some ShapeType.circle
    x := some centre.1
    y := some centre.2
    radius := some (rand (2 * density + 2 * i) * s.brushSize / 2 + 1 / 2)
    fill := some s.color
    opacity := some (rand (2 * density + 2 * i + 1) * (7 / 10) * s.opacity) }

/-- `handleSpray(x, y)` as the composition of the updaters it queues on
`shapes`: `density = brushSize * 2` dots are appended to `prev`. -/
def handleSpray (m : JSMath) (rand : ℕ → ℚ) (x y : ℚ) (s : State) (prev : Document) :
    Document :=
  let density := s.brushSize * 2
  prev ++ (List.range density).map (sprayDot m rand x y s)

/-- `handleMouseDown(e)`, with `p` the pointer position on the stage. -/
def handleMouseDown (m : JSMath) (rand : ℕ → ℚ) (p : Point) (s : State) : State :=
  if s.tool = Tool.move then s
  else
    let s1 := { s with isDrawing := true }
    match s.tool with
    | Tool.rectangle =>
      { s1 with shapes := s.shapes ++ [{
          type := some ShapeType.rect, x := some p.x, y := some p.y
          width := some 0, height := some 0
          fill := some "transparent", stroke := some s.color
          strokeWidth := some (s.brushSize : ℚ), opacity := some s.opacity }] }
    | Tool.square =>
      { s1 with shapes := s.shapes ++ [{
          type := some ShapeType.square, x := some p.x, y := some p.y
          size := some 0
          fill := some "transparent", stroke := some s.color
          strokeWidth := some (s.brushSize : ℚ), opacity := some s.opacity }] }
    | Tool.circle =>
      { s1 with shapes := s.shapes ++ [{
          type := some ShapeType.circle, x := some p.x, y := some p.y
          radius := some 0
          fill := some "transparent", stroke := some s.color
          strokeWidth := some (s.brushSize : ℚ), opacity := some s.opacity }] }
    | Tool.triangle =>
      { s1 with shapes := s.shapes ++ [{
          type := some ShapeType.triangle, x := some p.x, y := some p.y
          radius := some 0, sides := some 3
          fill := some "transparent", stroke := some s.color
          strokeWidth := some (s.brushSize : ℚ), opacity := some s.opacity
          rotation := some 0 }] }
    | Tool.line =>
      let withLine : Document := s.shapes ++ [{
          type := some ShapeType.line, points := some [p.x, p.y]
          stroke := some s.color, strokeWidth := some (s.brushSize : ℚ)
          brushType := some s.brushType, opacity := some s.opacity
          tension := some (if s.brushType = BrushType.watercolor then 1 / 2 else 0)
          lineCap := some "round", lineJoin := some "round"
          offsetX := some 0, offsetY := some 0 }]
      if s.brushType = BrushType.spray then
        { s1 with shapes := handleSpray m rand p.x p.y s withLine, sprayTimer := true }
      else { s1 with shapes := withLine }
    | Tool.straightLine =>
      { s1 with
        lineStart := p
        shapes := s.shapes ++ [{
          type := some ShapeType.straightLine, points := some [p.x, p.y, p.x, p.y]
          stroke := some s.color, strokeWidth := some (s.brushSize : ℚ)
          opacity := some s.opacity
          offsetX := some 0, offsetY := some 0 }] }
    | Tool.eraser =>
      { s1 with shapes := s.shapes ++ [{
          type := some ShapeType.line, points := some [p.x, p.y]
          stroke := some "white", strokeWidth := some ((s.brushSize : ℚ) * 5)
          opacity := some 1
          lineCap := some "round", lineJoin := some "round"
          offsetX := some 0, offsetY := some 0 }] }
    | _ => s1

/-- The body of the updater of `handleMouseMove` on the last shape of the
Document, for the pointer position `(x, y)`.  `none`: the update throws a
`TypeError` (`shape.points` is missing), or, for a straight line with fewer
than two coordinates, it builds a point list with `undefined` entries, which
the model cannot hold.  An arithmetic operand that is missing gives `NaN`,
modelled as a missing result. -/
def growShape (m : JSMath) (tool : Tool) (brushType : BrushType) (x y : ℚ) (shape : Shape) :
    Option Shape :=
  if shape.type = some ShapeType.rect then
    some { shape with
      width := shape.x.map (fun sx => x - sx)
      height := shape.y.map (fun sy => y - sy) }
  else if shape.type = some ShapeType.square then
    some { shape with
      size := shape.x.bind (fun sx => shape.y.map (fun sy => max |x - sx| |y - sy|)) }
  else if shape.type = some ShapeType.circle then
    if brushType ≠ BrushType.spray ∨ tool ≠ Tool.line then
      some { shape with
        radius := shape.x.bind (fun sx =>
          shape.y.map (fun sy => m.sqrt ((x - sx) ^ 2 + (y - sy) ^ 2))) }
    else some shape
  else if shape.type = some ShapeType.triangle then
    some { shape with
      radius := shape.x.bind (fun sx =>
        shape.y.map (fun sy => m.sqrt ((x - sx) ^ 2 + (y - sy) ^ 2))) }
  else if shape.type = some ShapeType.line ∨ shape.type = some ShapeType.eraser then
    if brushType ≠ BrushType.spray ∨ tool = Tool.eraser then
      match shape.points with
      | some pts => some { shape with points := some (pts ++ [x, y]) }
      | none => none
    else some shape
  else if shape.type = some ShapeType.straightLine then
    match shape.points with
    | some (p0 :: p1 :: _) => some { shape with points := some [p0, p1, x, y] }
    | _ => none
  else some shape

/-- `handleMouseMove(e)`, with `p` the pointer position on the stage.  `none`:
the updater throws a `TypeError` (the Document is empty, so there is no last
shape to read `type` from, or `growShape` fails). -/
def handleMouseMove (m : JSMath) (rand : ℕ → ℚ) (p : Point) (s : State) : Option State :=
  if s.isCropping && s.cropRectVisible then some { s with cropEndPoint := p }
  else if !s.isDrawing then some s
  else
    match s.shapes.getLast? with
    | none => none
    | some shape =>
      match growShape m s.tool s.brushType p.x p.y shape with
      | none => none
      | some shape1 =>
        let newShapes := s.shapes.dropLast ++ [shape1]
        if s.brushType = BrushType.spray ∧ s.tool = Tool.line then
          some { s with shapes := handleSpray m rand p.x p.y s newShapes }
        else some { s with shapes := newShapes }

/-- `a || d` on an optional number: `d` for a missing or zero `a`. -/
def orDefault (a : Option ℚ) (d : ℚ) : ℚ :=
  match a with
  | none => d
  | some v => if v = 0 then d else v

/-- The test `a / b <= 0` of `finishCropping` on JavaScript numbers: false when
`b` is missing (`NaN`); for `b = 0` the quotient is an infinity of the sign of
`a`, or `NaN` when `a = 0`. -/
def quotientLeZero (a : ℚ) (b : Option ℚ) : Bool :=
  match b with
  | none => false
  | some d => if d = 0 then decide (a < 0) else decide (a / d ≤ 0)

/-- `finishCropping()`, the part that runs at once (the stage carries no
transform, so `getAbsoluteTransform().invert().point` is the identity).  A
missing selected shape (no slot at the index, or a hole) makes `shape.type`
throw before any update is queued; with a valid crop the cropped bitmap starts
loading and nothing is written. -/
def finishCropping (s : State) : State :=
  if !s.isCropping ∨ s.selectedShapeIndex = none then s
  else
    match s.selectedShapeIndex.bind (fun i => s.shapes[i]?) with
    | none => s
    | some shape =>
      if shape = hole then s
      else if shape.type ≠ some ShapeType.image ∨ !s.cropRectVisible then
        { s with isCropping := false }
      else
        let topLeft : Point :=
          ⟨min s.cropStartPoint.x s.cropEndPoint.x, min s.cropStartPoint.y s.cropEndPoint.y⟩
        let bottomRight : Point :=
          ⟨max s.cropStartPoint.x s.cropEndPoint.x, max s.cropStartPoint.y s.cropEndPoint.y⟩
        if quotientLeZero (bottomRight.x - topLeft.x) shape.scaleX
            ∨ quotientLeZero (bottomRight.y - topLeft.y) shape.scaleY then
          { s with isCropping := false, cropRectVisible := false }
        else s

/-- `handleMouseUp()`.  `clearInterval` on the spray timer clears
`sprayTimerRef.current`. -/
def handleMouseUp (s : State) : State :=
  if s.isCropping && s.cropRectVisible then finishCropping s
  else
    let s1 := if s.isDrawing then addToHistory s.shapes s else s
    { s1 with isDrawing := false, sprayTimer := false }

/-- `shiftLinePoints(points, dx, dy)`.  For a dangling last coordinate the
JavaScript loop pushes `NaN` for its missing partner, which the model cannot
hold: `none`. -/
def shiftLinePoints (points : List ℚ) (dx dy : ℚ) : Option (List ℚ) :=
  match points with
  | [] => some []
  | [_] => none
  | px :: py :: rest => (shiftLinePoints rest dx dy).map (fun r => (px + dx) :: (py + dy) :: r)

/-- What `handleDragEnd` reads from the dragged node `e.target`: the attribute
`originalPoints` stored by `handleDragStart` (if any) and the node position. -/
structure DragTarget where
  originalPoints : Option (List ℚ)
  x : ℚ
  y : ℚ

/-- `handleDragEnd(e, index)`.  `none`: the updater throws a `TypeError`
(there is no shape at `index`: no slot, or a hole; or `originalPoints` was
never stored), or `shiftLinePoints` fails.  The commit is
`addToHistory(shapes)`, on the Document of the render the handler was created
in. -/
def handleDragEnd (e : DragTarget) (index : ℕ) (s : State) : Option State :=
  if s.tool ≠ Tool.move then some s
  else
    match s.shapes[index]? with
    | none => none
    | some shape =>
      if shape = hole then none
      else if shape.type = some ShapeType.line ∨ shape.type = some ShapeType.straightLine
          ∨ shape.type = some ShapeType.eraser then
        match e.originalPoints.bind (fun pts => shiftLinePoints pts e.x e.y) with
        | none => none
        | some shifted =>
          let updatedShape : Shape :=
            { shape with points := some shifted, offsetX := some 0, offsetY := some 0 }
          some (addToHistory s.shapes { s with shapes := arrayAssign s.shapes index updatedShape })
      else
        some (addToHistory s.shapes
          { s with shapes := arrayAssign s.shapes index { shape with x := some e.x, y := some e.y } })

/-- What `handleTransformEnd` reads from the transformed node `e.target`. -/
structure TransformTarget where
  scaleX : ℚ
  scaleY : ℚ
  rotation : ℚ

/-- `handleTransformEnd(e)`.  A missing selected shape makes `shape.type` throw
before any update is queued (the state is left as it was).  The commit is
`addToHistory([...shapes])`, on the Document of the render the handler was
created in. -/
def handleTransformEnd (e : TransformTarget) (s : State) : State :=
  match s.selectedShapeIndex with
  | none => s
  | some sel =>
    match s.shapes[sel]? with
    | none => s
    | some shape =>
      if shape.type ≠ some ShapeType.image then s
      else
        let updated : Shape :=
          { shape with
            rotation := some e.rotation
            scaleX := some e.scaleX
            scaleY := some e.scaleY
            width := shape.originalWidth.map (fun w => w * e.scaleX)
            height := shape.originalHeight.map (fun h => h * e.scaleY) }
        addToHistory s.shapes { s with shapes := arrayAssign s.shapes sel updated }

/-- `handleResetImageTransform()`; see `handleTransformEnd` for the missing
shape and for the commit. -/
def handleResetImageTransform (s : State) : State :=
  match s.selectedShapeIndex with
  | none => s
  | some sel =>
    match s.shapes[sel]? with
    | none => s
    | some shape =>
      if shape.type = some ShapeType.image then
        let updated : Shape :=
          { shape with
            rotation := some 0
            scaleX := some 1
            scaleY := some 1
            width := shape.originalWidth
            height := shape.originalHeight }
        addToHistory s.shapes { s with shapes := arrayAssign s.shapes sel updated }
      else s

/-- `handleRotateImage()`; `shape.rotation || 0` is `0` for a missing or zero
rotation.  See `handleTransformEnd` for the missing shape and for the commit. -/
def handleRotateImage (s : State) : State :=
  match s.selectedShapeIndex with
  | none => s
  | some sel =>
    match s.shapes[sel]? with
    | none => s
    | some shape =>
      if shape.type = some ShapeType.image then
        let updated : Shape := { shape with rotation := some (orDefault shape.rotation 0 + 90) }
        addToHistory s.shapes { s with shapes := arrayAssign s.shapes sel updated }
      else s

/-- The `img.onload` callback of `handleImageUpload`: `img` is the decoded
bitmap, `c` the state of the render in which the file was chosen (the callback
reads `shapes`, `stageWidth`, `stageHeight`, `opacity`, `history` and
`historyStep` from that closure) and `s` the state when the load completes
(the guard flag is a ref, read when the callback runs).  The quotients divide
by a positive size for every bitmap and stage of non-negative size. -/
def handleImageUpload_onload (img : Bitmap) (c : State) (s : State) : State :=
  let imgWidth := img.width
  let imgHeight := img.height
  let maxDimension := min c.stageWidth c.stageHeight * (8 / 10)
  let newSize : ℚ × ℚ :=
    if imgWidth > maxDimension ∨ imgHeight > maxDimension then
      if imgWidth > imgHeight then (maxDimension, (imgHeight / imgWidth) * maxDimension)
      else ((imgWidth / imgHeight) * maxDimension, maxDimension)
    else (imgWidth, imgHeight)
  let newWidth := newSize.1
  let newHeight := newSize.2
  let centerX := c.stageWidth / 2 - newWidth / 2
  let centerY := c.stageHeight / 2 - newHeight / 2
  let newImage : Shape :=
    { type := some ShapeType.image
      x := some centerX
      y := some centerY
      width := some newWidth
      height := some newHeight
      image := some img
      opacity := some c.opacity
      rotation := some 0
      scaleX := some 1
      scaleY := some 1
      originalWidth := some newWidth
      originalHeight := some newHeight
      originalSrc := some img.src }
  let newShapes := c.shapes ++ [newImage]
  if s.isPerformingAction then { s with shapes := newShapes }
  else
    let newHistory := c.history.take (c.historyStep + 1) ++ [newShapes]
    { s with shapes := newShapes, history := newHistory, historyStep := newHistory.length - 1 }

/-- `handleDeleteSelected()`: `shapes.filter((_, i) => i !== selectedShapeIndex)`
keeps, in order, the entries at the other indices; `filter` visits no hole, so
the new array holds none. -/
def handleDeleteSelected (s : State) : State :=
  match s.selectedShapeIndex with
  | none => s
  | some sel =>
    let newShapes := (s.shapes.eraseIdx sel).filter (fun shape => decide (shape ≠ hole))
    { addToHistory newShapes { s with shapes := newShapes } with selectedShapeIndex := none }

/-- `handleMoveClick()`: `setTool("move")`. -/
def handleMoveClick (s : State) : State :=
  { s with tool := Tool.move }

/-- `handleShapeSelect(index)`. -/
def handleShapeSelect (index : ℕ) (s : State) : State :=
  if s.tool = Tool.move ∨ s.tool = Tool.cropImage then { s with selectedShapeIndex := some index }
  else s

/-- A pointer-move sample: the pointer position and the values that
`Math.random()` returns while the handler runs. -/
structure MoveSample where
  pos : Point
  rand : ℕ → ℚ

/-- A sequence of `handleMouseMove` calls, one per sample, in order. -/
def pointerMoves (m : JSMath) (moves : List MoveSample) (s : State) : Option State :=
  moves.foldlM (fun t mv => handleMouseMove m mv.rand mv.pos t) s

/-- A whole pointer gesture: `handleMouseDown` at `p0`, the `handleMouseMove`
calls of `moves`, then `handleMouseUp`. -/
def pointerGesture (m : JSMath) (rand0 : ℕ → ℚ) (p0 : Point) (moves : List MoveSample)
    (s : State) : Option State :=
  (pointerMoves m moves (handleMouseDown m rand0 p0 s)).map handleMouseUp

/-! ## Rendering -/

/-- The geometry that the render hands to the canvas library for one shape:
the element (`Rect`, `Circle`, `RegularPolygon`, `Line` or the image element)
and its geometric properties. -/
inductive KonvaNode where
  | Rect (x y width height : Option ℚ)
  | Circle (x y radius : Option ℚ)
  | RegularPolygon (x y : Option ℚ) (sides : Option ℕ) (radius rotation : Option ℚ)
  | Line (points : Option (List ℚ)) (x y : ℚ)
  | KonvaImage (x y width height : Option ℚ) (rotation scaleX scaleY : ℚ)
  deriving DecidableEq

/-- The callback of `shapes.map` in the render of `KonvaApp`, reduced to the
geometric properties: `none` is the final `return null`. -/
def renderShape (shape : Shape) : Option KonvaNode :=
  if shape.type = some ShapeType.rect then
    some (KonvaNode.Rect shape.x shape.y shape.width shape.height)
  else if shape.type = some ShapeType.square then
    some (KonvaNode.Rect shape.x shape.y shape.size shape.size)
  else if shape.type = some ShapeType.circle then
    some (KonvaNode.Circle shape.x shape.y shape.radius)
  else if shape.type = some ShapeType.triangle then
    some (KonvaNode.RegularPolygon shape.x shape.y shape.sides shape.radius shape.rotation)
  else if shape.type = some ShapeType.line ∨ shape.type = some ShapeType.eraser then
    some (KonvaNode.Line shape.points (orDefault shape.offsetX 0) (orDefault shape.offsetY 0))
  else if shape.type = some ShapeType.straightLine then
    some (KonvaNode.Line shape.points (orDefault shape.offsetX 0) (orDefault shape.offsetY 0))
  else if shape.type = some ShapeType.image then
    some (KonvaNode.KonvaImage shape.x shape.y shape.originalWidth shape.originalHeight
      (orDefault shape.rotation 0) (orDefault shape.scaleX 1) (orDefault shape.scaleY 1))
  else none

/-! ## The modal cropper (`src/components/image-cropper.jsx`) and the crop paths -/

/-- The `cropBox` state of `ImageCropper`, in display pixels of the container. -/
structure ImageCropper.CropBox where
  x : ℚ
  y : ℚ
  width : ℚ
  height : ℚ
  deriving DecidableEq

/-- The `imageSize` state of `ImageCropper`.  The display `width` and `height`
are optional numbers: `none` is `NaN`, which the size fields can produce. -/
structure ImageCropper.ImageSize where
  width : Option ℚ
  height : Option ℚ
  originalWidth : ℚ
  originalHeight : ℚ
  deriving DecidableEq

/-- The state of the component `ImageCropper`: its `useState` cells. -/
structure ImageCropper.CropperState where
  image : Option Bitmap
  cropBox : ImageCropper.CropBox
  isDrawing : Bool
  imageSize : ImageCropper.ImageSize
  deriving DecidableEq

/-- The layout size of the container element (`containerRef.current`). -/
structure ImageCropper.Container where
  offsetWidth : ℚ
  offsetHeight : ℚ
  deriving DecidableEq

/-- The source rectangle that `handleCrop` copies to its canvas. -/
structure ImageCropper.CropRegion where
  cropX : ℚ
  cropY : ℚ
  cropWidth : ℚ
  cropHeight : ℚ
  deriving DecidableEq

/-- `handleCrop(e)` of `ImageCropper`.  `none`: the handler returns without
calling `onCrop`; `some r`: `onCrop` is called with the data URL of the canvas
that holds the source rectangle `r`.  (The scale factors divide by the layout
size of the container, which is positive whenever a crop box was drawn.) -/
def ImageCropper.handleCrop (container : ImageCropper.Container)
    (st : ImageCropper.CropperState) : Option ImageCropper.CropRegion :=
  match st.image with
  | none => none
  | some image =>
    if st.cropBox.width = 0 ∨ st.cropBox.height = 0 then none
    else
      let containerWidth := container.offsetWidth
      let containerHeight := container.offsetHeight
      let scaleX := image.width / containerWidth
      let scaleY := image.height / containerHeight
      some
        { cropX := st.cropBox.x * scaleX
          cropY := st.cropBox.y * scaleY
          cropWidth := st.cropBox.width * scaleX
          cropHeight := st.cropBox.height * scaleY }

/-- A click on the button wired to `handleCrop` in the modal, seen from
`KonvaApp`, which passes `onCrop={handleCroppedImage}`: `toDataURL` stands for
the encoding of the canvas as a data URL. -/
def applyCrop (toDataURL : ImageCropper.CropRegion → String)
    (container : ImageCropper.Container) (st : ImageCropper.CropperState) (s : State) : State :=
  match ImageCropper.handleCrop container st with
  | none => s
  | some region => handleCroppedImage (some (toDataURL region)) s

/-- `openCropModal(imageIndex)`; `dataURL` is the encoding of the image that
the handler draws on a canvas.  A shape of type image without a bitmap makes
`img.width` throw before any update is queued. -/
def openCropModal (dataURL : String) (imageIndex : ℕ) (s : State) : State :=
  match s.shapes[imageIndex]? with
  | none => s
  | some selectedImage =>
    if selectedImage.type = some ShapeType.image then
      match selectedImage.image with
      | none => s
      | some _ =>
        { s with
          cropImageData := some dataURL
          cropImageIndex := some imageIndex
          showCropModal := true }
    else s

/-- The quotient `a / b` of JavaScript numbers that may be missing: `none`
when the result is `NaN` or infinite. -/
def quotient (a b : Option ℚ) : Option ℚ :=
  match a, b with
  | some n, some d => if d = 0 then none else some (n / d)
  | _, _ => none

/-- The crop that `finishCropping` hands to the canvas when it does not return
early: the corner of the selection and the rectangle in image coordinates. -/
structure CropRequest where
  topLeft : Point
  cropX : Option ℚ
  cropY : Option ℚ
  cropWidth : Option ℚ
  cropHeight : Option ℚ
  deriving DecidableEq

/-- The image load that `finishCropping()` starts: `none` on each of its early
returns (and when `shape.type` throws), otherwise the crop whose bitmap is set
loading (`croppedImg.src = croppedDataURL`). -/
def finishCropping_request (s : State) : Option CropRequest :=
  if !s.isCropping ∨ s.selectedShapeIndex = none then none
  else
    match s.selectedShapeIndex.bind (fun i => s.shapes[i]?) with
    | none => none
    | some shape =>
      if shape = hole then none
      else if shape.type ≠ some ShapeType.image ∨ !s.cropRectVisible then none
      else
        let topLeft : Point :=
          ⟨min s.cropStartPoint.x s.cropEndPoint.x, min s.cropStartPoint.y s.cropEndPoint.y⟩
        let bottomRight : Point :=
          ⟨max s.cropStartPoint.x s.cropEndPoint.x, max s.cropStartPoint.y s.cropEndPoint.y⟩
        if quotientLeZero (bottomRight.x - topLeft.x) shape.scaleX
            ∨ quotientLeZero (bottomRight.y - topLeft.y) shape.scaleY then none
        else
          some
            { topLeft := topLeft
              cropX := quotient (shape.x.map (fun sx => topLeft.x - sx)) shape.scaleX
              cropY := quotient (shape.y.map (fun sy => topLeft.y - sy)) shape.scaleY
              cropWidth := quotient (some (bottomRight.x - topLeft.x)) shape.scaleX
              cropHeight := quotient (some (bottomRight.y - topLeft.y)) shape.scaleY }

/-! ## The modal cropper: size fields and pointer handlers -/

/-- `Math.round(x)`: the nearest integer, a half rounded up. -/
def ImageCropper.jsRound (x : ℚ) : ℚ := ((⌊x + 1 / 2⌋ : ℤ) : ℚ)

/-- `handleWidthChange(e)`; `input` is `parseInt(e.target.value)`, an integer
or `NaN` (`none`).  `parseInt(...) || 1` is 1 for `NaN` and for 0.  For an
image of height 0 and non-zero width the aspect ratio is an infinity, and
`newWidth / aspectRatio` is zero; the other quotients by zero are `NaN` or an
infinity (see `quotient`). -/
def ImageCropper.handleWidthChange (input : Option ℤ) (st : ImageCropper.CropperState) :
    ImageCropper.CropperState :=
  let inputWidth : ℚ :=
    match input with
    | none => 1
    | some v => if v = 0 then 1 else (v : ℚ)
  let newWidth : ℚ := max 0 (min inputWidth 2000)
  let aspectRatio := quotient (some st.imageSize.originalWidth) (some st.imageSize.originalHeight)
  let newHeight : Option ℚ :=
    if st.imageSize.originalHeight = 0 ∧ st.imageSize.originalWidth ≠ 0 then some 0
    else (quotient (some newWidth) aspectRatio).map ImageCropper.jsRound
  { st with imageSize := { st.imageSize with width := some newWidth, height := newHeight } }

/-- `handleHeightChange(e)`; `input` is `parseInt(e.target.value)`.  For `NaN`
both `Math.min(NaN, 2000)` and `Math.max(0, NaN)` are `NaN`. -/
def ImageCropper.handleHeightChange (input : Option ℤ) (st : ImageCropper.CropperState) :
    ImageCropper.CropperState :=
  let newHeight : Option ℚ := input.map (fun v => max 0 (min (v : ℚ) 2000))
  let aspectRatio := quotient (some st.imageSize.originalWidth) (some st.imageSize.originalHeight)
  let newWidth : Option ℚ :=
    newHeight.bind (fun h => aspectRatio.map (fun a => ImageCropper.jsRound (h * a)))
  { st with imageSize := { st.imageSize with width := newWidth, height := newHeight } }

/-- `handleMouseDown(e)` of `ImageCropper`, with `p` the pointer position
relative to the container (`e.clientX - rect.left`, `e.clientY - rect.top`);
`handleTouchStart` is the same on the coordinates of the first touch. -/
def ImageCropper.handleMouseDown (container : ImageCropper.Container) (p : Point)
    (st : ImageCropper.CropperState) : ImageCropper.CropperState :=
  match st.image with
  | none => st
  | some _ =>
    if p.x < 0 ∨ p.y < 0 ∨ p.x > container.offsetWidth ∨ p.y > container.offsetHeight then st
    else { st with isDrawing := true, cropBox := { x := p.x, y := p.y, width := 0, height := 0 } }

/-- `handleMouseMove(e)` of `ImageCropper` (and `handleTouchMove`), with `p`
the pointer position relative to the container. -/
def ImageCropper.handleMouseMove (container : ImageCropper.Container) (p : Point)
    (st : ImageCropper.CropperState) : ImageCropper.CropperState :=
  if !st.isDrawing ∨ st.image = none then st
  else
    let constrainedX := max 0 (min p.x container.offsetWidth)
    let constrainedY := max 0 (min p.y container.offsetHeight)
    let prev := st.cropBox
    let newWidth := |constrainedX - prev.x|
    let newHeight := |constrainedY - prev.y|
    { st with cropBox :=
        { x := min prev.x constrainedX
          y := min prev.y constrainedY
          width := newWidth
          height := newHeight } }

/-- `handleMouseUp()` of `ImageCropper` (and `handleTouchEnd`). -/
def ImageCropper.handleMouseUp (st : ImageCropper.CropperState) : ImageCropper.CropperState :=
  { st with isDrawing := false }

/-- A sequence of `handleMouseMove` calls of `ImageCropper`, in order. -/
def ImageCropper.pointerMoves (container : ImageCropper.Container) (moves : List Point)
    (st : ImageCropper.CropperState) : ImageCropper.CropperState :=
  moves.foldl (fun t p => ImageCropper.handleMouseMove container p t) st

/-- The sample `p` clamped to the container, as `handleMouseMove` does. -/
def ImageCropper.clamp (container : ImageCropper.Container) (p : Point) : Point :=
  ⟨max 0 (min p.x container.offsetWidth), max 0 (min p.y container.offsetHeight)⟩

/-! ## The remaining handlers of `KonvaApp` and the reachable states -/

/-- `checkSize()`, with `containerWidth` the layout width of the container:
the stage is at least 300 wide and keeps the ratio 1.6. -/
def checkSize (containerWidth : ℚ) (s : State) : State :=
  let newWidth := max (containerWidth - 20) 300
  let newHeight : ℚ := ((⌊newWidth / (16 / 10)⌋ : ℤ) : ℚ)
  { s with stageWidth := newWidth, stageHeight := newHeight }

/-- `handleCancelCrop()`. -/
def handleCancelCrop (s : State) : State :=
  { s with showCropModal := false, cropImageData := none, cropImageIndex := none }

/-- `handleImageSelect(index)`; `dataURL` is what `openCropModal` encodes. -/
def handleImageSelect (dataURL : String) (index : ℕ) (s : State) : State :=
  if s.tool = Tool.move then handleShapeSelect index s
  else if s.tool = Tool.cropImage then openCropModal dataURL index s
  else s

/-- `startCropping()`.  A missing selected shape makes `.type` throw before
any update is queued. -/
def startCropping (dataURL : String) (s : State) : State :=
  match s.selectedShapeIndex with
  | none => s
  | some sel =>
    match s.shapes[sel]? with
    | none => s
    | some shape =>
      if shape.type = some ShapeType.image then openCropModal dataURL sel s else s

/-- `cancelCropping()`. -/
def cancelCropping (s : State) : State :=
  { s with isCropping := false, cropRectVisible := false }

/-- The `croppedImg.onload` callback of `finishCropping`, created in the
render of state `c` (it reads `shape`, `selectedShapeIndex`, the crop rectangle,
`shapes`, `history` and `historyStep` from that closure) and run in state `s`;
it exists only when `finishCropping` did not return early in `c`. -/
def finishCropping_onload (croppedImg : Bitmap) (c : State) (s : State) : State :=
  match finishCropping_request c, c.selectedShapeIndex with
  | some req, some sel =>
    match c.shapes[sel]? with
    | none => s
    | some shape =>
      let updated : Shape :=
        { shape with
          image := some croppedImg
          originalWidth := req.cropWidth
          originalHeight := req.cropHeight
          width := req.cropWidth
          height := req.cropHeight
          x := some req.topLeft.x
          y := some req.topLeft.y
          scaleX := some 1
          scaleY := some 1
          originalSrc := some croppedImg.src }
      let s1 : State :=
        { s with
          shapes := arrayAssign s.shapes sel updated
          isCropping := false
          cropRectVisible := false }
      if s.isPerformingAction then s1
      else
        let newHistory := c.history.take (c.historyStep + 1) ++ [c.shapes]
        { s1 with history := newHistory, historyStep := newHistory.length - 1 }
  | _, _ => s

/-- One tick of the interval that `handleMouseDown` starts for the spray brush.
The callback was created in the render of state `c` (it reads `isDrawing`,
`brushSize`, `color` and `opacity` from that closure); `p` is the pointer
position on the stage when it fires. -/
def sprayTick (m : JSMath) (rand : ℕ → ℚ) (p : Point) (c : State) (s : State) : State :=
  if c.isDrawing then { s with shapes := handleSpray m rand p.x p.y c s.shapes } else s

/-- `handleLoad()`; `saved` is the parsed content of the storage slot (`none`
when the slot is empty) and `decode` the bitmap that an encoded source loads
as.  `shape.originalSrc` is truthy when present and not empty.  An entry
`hole` of `saved` stands for the `null` that `handleSave` writes for a hole:
`shape.type` then throws in the callback of `map`, before any update is
queued. -/
def handleLoad (decode : String → Bitmap) (saved : Option Document) (s : State) : State :=
  match saved with
  | none => s
  | some loadedShapes =>
    if hole ∈ loadedShapes then s
    else
      let processedShapes := loadedShapes.map (fun shape =>
        match shape.originalSrc with
        | some src =>
          if shape.type = some ShapeType.image ∧ src ≠ "" then
            { shape with image := some (decode src) }
          else shape
        | none => shape)
      setShapesAndCommit processedShapes s

/-- `handleClear()`; `confirmed` is the answer to `window.confirm`. -/
def handleClear (confirmed : Bool) (s : State) : State :=
  if confirmed then { setShapesAndCommit [] s with selectedShapeIndex := none } else s

/-- `handleColorChange(e)` and the colour buttons: `setColor(value)`. -/
def handleColorChange (value : String) (s : State) : State :=
  { s with color := value }

/-- `handleBrushSizeChange(e)`, with `value` the integer that `parseInt` reads
from the range input. -/
def handleBrushSizeChange (value : ℕ) (s : State) : State :=
  { s with brushSize := value }

/-- `handleOpacityChange(e)`, with `value` the number that `parseFloat` reads
from the range input. -/
def handleOpacityChange (value : ℚ) (s : State) : State :=
  { s with opacity := value }

/-- The click handler of a shape tool button (rectangle, square, circle,
triangle, straight line, eraser): `setTool(t); setSelectedShapeIndex(null)`. -/
def handleToolClick (t : Tool) (s : State) : State :=
  { s with tool := t, selectedShapeIndex := none }

/-- The click handler of a brush button (line / normal, watercolor, spray):
`setTool("line"); setBrushType(b); setSelectedShapeIndex(null)`. -/
def handleBrushClick (b : BrushType) (s : State) : State :=
  { s with tool := Tool.line, brushType := b, selectedShapeIndex := none }

/-- The click handler of the crop tool button: `setTool("cropImage")`. -/
def handleCropToolClick (s : State) : State :=
  { s with tool := Tool.cropImage }

/-- The render condition of the image tool buttons (rotate, reset, crop tool):
`selectedShapeIndex !== null && shapes[selectedShapeIndex]?.type === "image"`. -/
def imageToolsVisible (s : State) : Bool :=
  match s.selectedShapeIndex with
  | none => false
  | some i =>
    match s.shapes[i]? with
    | none => false
    | some shape => decide (shape.type = some ShapeType.image)

/-- The status bar line on the selection,
`shapes[selectedShapeIndex].type` and the index, rendered when
`selectedShapeIndex !== null`.  Outer `none`: the read throws a `TypeError`
during the render (there is no shape at the index: no slot, or a hole);
`some none`: the line is not rendered. -/
def renderStatusBar (s : State) : Option (Option (Option ShapeType × ℕ)) :=
  match s.selectedShapeIndex with
  | none => some none
  | some i =>
    match s.shapes[i]? with
    | none => none
    | some shape => if shape = hole then none else some (some (shape.type, i))

/-- The states that the handlers can reach from the initial state.  Each
constructor is one handler run or one callback; a callback created in an
earlier render carries the state `c` of that render: the load callbacks, the
spray timer, and the key listener, which is registered again only when
`history`, `historyStep`, `selectedShapeIndex` or `isCropping` change and so
may run `handleDeleteSelected` on the `shapes` of an earlier render.  The touch
handlers are the pointer handlers.  The buttons are taken as always clickable,
and a closure as coming from any earlier state, so the relation holds of every
state the editor can be in (and possibly of more). -/
inductive Reachable (m : JSMath) : State → Prop where
  | initial : Reachable m initialState
  | resized {s : State} (containerWidth : ℚ) (h : Reachable m s) :
      Reachable m (checkSize containerWidth s)
  | toolClicked {s : State} (t : Tool) (h : Reachable m s) : Reachable m (handleToolClick t s)
  | brushClicked {s : State} (b : BrushType) (h : Reachable m s) :
      Reachable m (handleBrushClick b s)
  | moveClicked {s : State} (h : Reachable m s) : Reachable m (handleMoveClick s)
  | cropToolClicked {s : State} (h : Reachable m s) : Reachable m (handleCropToolClick s)
  | colorChanged {s : State} (value : String) (h : Reachable m s) :
      Reachable m (handleColorChange value s)
  | brushSizeChanged {s : State} (value : ℕ) (h : Reachable m s) :
      Reachable m (handleBrushSizeChange value s)
  | opacityChanged {s : State} (value : ℚ) (h : Reachable m s) :
      Reachable m (handleOpacityChange value s)
  | imageLoaded {c s : State} (img : Bitmap) (hc : Reachable m c) (h : Reachable m s) :
      Reachable m (handleImageUpload_onload img c s)
  | shapeSelected {s : State} (index : ℕ) (h : Reachable m s) :
      Reachable m (handleShapeSelect index s)
  | imageSelected {s : State} (dataURL : String) (index : ℕ) (h : Reachable m s) :
      Reachable m (handleImageSelect dataURL index s)
  | cropStarted {s : State} (dataURL : String) (h : Reachable m s) :
      Reachable m (startCropping dataURL s)
  | cropConfirmed {s : State} (url : Option String) (h : Reachable m s) :
      Reachable m (handleCroppedImage url s)
  | cropLoaded {c s : State} (img : Bitmap) (hc : Reachable m c) (h : Reachable m s) :
      Reachable m (handleCroppedImage_onload img c s)
  | cropCancelled {s : State} (h : Reachable m s) : Reachable m (handleCancelCrop s)
  | undone {s : State} (h : Reachable m s) : Reachable m (handleUndo s)
  | redone {s : State} (h : Reachable m s) : Reachable m (handleRedo s)
  | guardReleased {s : State} (h : Reachable m s) : Reachable m (releaseGuard s)
  | transformed {s : State} (e : TransformTarget) (h : Reachable m s) :
      Reachable m (handleTransformEnd e s)
  | inlineCropFinished {s : State} (h : Reachable m s) : Reachable m (finishCropping s)
  | inlineCropLoaded {c s : State} (img : Bitmap) (hc : Reachable m c) (h : Reachable m s) :
      Reachable m (finishCropping_onload img c s)
  | inlineCropCancelled {s : State} (h : Reachable m s) : Reachable m (cancelCropping s)
  | pointerDown {s : State} (rand : ℕ → ℚ) (p : Point) (h : Reachable m s) :
      Reachable m (handleMouseDown m rand p s)
  | pointerMoved {s t : State} (rand : ℕ → ℚ) (p : Point) (h : Reachable m s)
      (ht : handleMouseMove m rand p s = some t) : Reachable m t
  | pointerUp {s : State} (h : Reachable m s) : Reachable m (handleMouseUp s)
  | sprayTicked {c s : State} (rand : ℕ → ℚ) (p : Point) (hc : Reachable m c)
      (h : Reachable m s) : Reachable m (sprayTick m rand p c s)
  | dragEnded {s t : State} (e : DragTarget) (index : ℕ) (h : Reachable m s)
      (ht : handleDragEnd e index s = some t) : Reachable m t
  | loaded {s : State} (decode : String → Bitmap) (saved : Option Document)
      (h : Reachable m s) : Reachable m (handleLoad decode saved s)
  | cleared {s : State} (confirmed : Bool) (h : Reachable m s) :
      Reachable m (handleClear confirmed s)
  | deleted {s : State} (h : Reachable m s) : Reachable m (handleDeleteSelected s)
  | deletedByKey {c s : State} (hc : Reachable m c) (h : Reachable m s) :
      Reachable m (handleDeleteSelected { s with shapes := c.shapes })
  | transformReset {s : State} (h : Reachable m s) : Reachable m (handleResetImageTransform s)
  | rotated {s : State} (h : Reachable m s) : Reachable m (handleRotateImage s)

/-- Neither crop flag of the inline crop path is set. -/
def cropIdle (s : State) : Prop :=
  s.isCropping = false ∧ s.cropRectVisible = false

/-- The crop box lies inside the container and has a non-negative extent. -/
def ImageCropper.boxInside (container : ImageCropper.Container) (b : ImageCropper.CropBox) :
    Prop :=
  0 ≤ b.width ∧ 0 ≤ b.height ∧ 0 ≤ b.x ∧ b.x + b.width ≤ container.offsetWidth ∧
    0 ≤ b.y ∧ b.y + b.height ≤ container.offsetHeight

/-! ## Auxiliary definitions for the gesture proofs -/

/-- A shape on which the updater of `handleMouseMove` does not fail. -/
def growable (sh : Shape) : Prop :=
  ((sh.type = some ShapeType.line ∨ sh.type = some ShapeType.eraser) → sh.points ≠ none) ∧
  (sh.type = some ShapeType.straightLine → ∃ a b rest, sh.points = some (a :: b :: rest))

/-- The last shape of a Document exists and is `growable`. -/
def lastGrowable (doc : Document) : Prop :=
  ∃ base sh, doc = base ++ [sh] ∧ growable sh

/-- The position of the last sample of `moves`, or `q` when there is none. -/
def lastPos (q : Point) : List MoveSample → Point
  | [] => q
  | mv :: rest => lastPos mv.pos rest

/-- The rectangle that `handleMouseDown` creates at `p0` in state `s`, with the
extent it has when the pointer is at `q`. -/
def rectangleTo (s : State) (p0 q : Point) : Shape :=
  { type := some ShapeType.rect, x := some p0.x, y := some p0.y
    width := some (q.x - p0.x), height := some (q.y - p0.y)
    fill := some "transparent", stroke := some s.color
    strokeWidth := some (s.brushSize : ℚ), opacity := some s.opacity }

/-- The square that `handleMouseDown` creates at `p0` in state `s`, with the
size it has when the pointer is at `q`. -/
def squareTo (s : State) (p0 q : Point) : Shape :=
  { type := some ShapeType.square, x := some p0.x, y := some p0.y
    size := some (max |q.x - p0.x| |q.y - p0.y|)
    fill := some "transparent", stroke := some s.color
    strokeWidth := some (s.brushSize : ℚ), opacity := some s.opacity }

/-- The straight line that `handleMouseDown` creates at `p0` in state `s`, with
the end point it has when the pointer is at `q`. -/
def straightLineTo (s : State) (p0 q : Point) : Shape :=
  { type := some ShapeType.straightLine, points := some [p0.x, p0.y, q.x, q.y]
    stroke := some s.color, strokeWidth := some (s.brushSize : ℚ)
    opacity := some s.opacity
    offsetX := some 0, offsetY := some 0 }

/-- The freehand line that `handleMouseDown` creates with the line tool in
state `s`, with the point list `pts`. -/
def freehandLine (s : State) (pts : List ℚ) : Shape :=
  { type := some ShapeType.line, points := some pts
    stroke := some s.color, strokeWidth := some (s.brushSize : ℚ)
    brushType := some s.brushType, opacity := some s.opacity
    tension := some (if s.brushType = BrushType.watercolor then 1 / 2 else 0)
    lineCap := some "round", lineJoin := some "round"
    offsetX := some 0, offsetY := some 0 }

/-- The line that `handleMouseDown` creates with the eraser tool in state `s`,
with the point list `pts`. -/
def eraserLine (s : State) (pts : List ℚ) : Shape :=
  { type := some ShapeType.line, points := some pts
    stroke := some "white", strokeWidth := some ((s.brushSize : ℚ) * 5)
    opacity := some 1
    lineCap := some "round", lineJoin := some "round"
    offsetX := some 0, offsetY := some 0 }

/-- The coordinates of the samples of `moves`, flattened in arrival order. -/
def samplePoints : List MoveSample → List ℚ
  | [] => []
  | mv :: rest => mv.pos.x :: mv.pos.y :: samplePoints rest

/-- A stand-in for `Math` in the concrete instances below, none of which
reaches a call of it. -/
def trivialMath : JSMath :=
  { sqrt := fun _ => 0, cos := fun _ => 1, sin := fun _ => 0, PI := 22 / 7 }

/-- The random source of the concrete instances: every draw is `0`. -/
def noRandom : ℕ → ℚ := fun _ => 0

/-- A decoded 100 x 50 bitmap. -/
def sampleBitmap : Bitmap :=
  { src := "data:image/png;base64,AAAA", width := 100, height := 50 }

/-- The image shape that inserting `sampleBitmap` on the initial 800 x 500 stage
creates. -/
def insertedImage : Shape :=
  { type := some ShapeType.image, x := some 350, y := some 225
    width := some 100, height := some 50, image := some sampleBitmap
    opacity := some 1, rotation := some 0, scaleX := some 1, scaleY := some 1
    originalWidth := some 100, originalHeight := some 50
    originalSrc := some "data:image/png;base64,AAAA" }

/-- The state reached from the initial one by inserting `sampleBitmap`,
choosing the move tool and clicking the image. -/
def imageSelectedState : State :=
  handleShapeSelect 0 (handleMoveClick
    (handleImageUpload_onload sampleBitmap initialState initialState))

/-- The state reached from the initial one by drawing a rectangle from
`(10, 10)` to `(60, 40)` and calling `handleUndo`, before the timer releases
the guard flag. -/
def guardedState : State :=
  { initialState with
    history := [[], [rectangleTo initialState ⟨10, 10⟩ ⟨60, 40⟩]]
    historyStep := 0
    isPerformingAction := true }

/-! ## Concrete states for the instances -/

/-- A unit rectangle at `(x0, 0)`, used in the concrete instances. -/
def sampleRect (x0 : ℚ) : Shape :=
  { type := some ShapeType.rect, x := some x0, y := some 0, width := some 1, height := some 1 }

/-- A state with two committed Documents, used to instantiate the theorems
below: the history holds the empty Document, a Document with one rectangle
and a Document with two, and the cursor is on the last one. -/
def sampleState : State :=
  setShapesAndCommit [sampleRect 0, sampleRect 5] (setShapesAndCommit [sampleRect 0] initialState)

/-- A decoded 2000 x 1000 bitmap. -/
def largeBitmap : Bitmap :=
  { src := "data:image/png;base64,BBBB", width := 2000, height := 1000 }

/-- The decoded result of a 40 x 20 crop. -/
def croppedBitmap : Bitmap :=
  { src := "data:image/png;base64,CCCC", width := 40, height := 20 }

/-- The state reached from `imageSelectedState` by opening the crop modal on
the image. -/
def cropModalState : State :=
  openCropModal "data:image/png;base64,AAAA" 0 imageSelectedState

/-- The cropper showing `sampleBitmap` at its own size, with the crop box
`(10, 5)`, 40 x 20 drawn on it. -/
def sampleCropper : ImageCropper.CropperState :=
  { image := some sampleBitmap
    cropBox := { x := 10, y := 5, width := 40, height := 20 }
    isDrawing := false
    imageSize :=
      { width := some 100, height := some 50, originalWidth := 100, originalHeight := 50 } }

/-- The state `imageSelectedState` put in the inline crop state by hand, with
a selection of zero width from `(5, 5)` to `(5, 9)`. -/
def zeroWidthCropState : State :=
  { imageSelectedState with
    isCropping := true
    cropRectVisible := true
    cropStartPoint := ⟨5, 5⟩
    cropEndPoint := ⟨5, 9⟩ }

/-- The image shape that inserting `largeBitmap` on the initial 800 x 500 stage
creates: scaled to 400 x 200 and centred. -/
def insertedLargeImage : Shape :=
  { type := some ShapeType.image, x := some 200, y := some 150
    width := some 400, height := some 200, image := some largeBitmap
    opacity := some 1, rotation := some 0, scaleX := some 1, scaleY := some 1
    originalWidth := some 400, originalHeight := some 200
    originalSrc := some "data:image/png;base64,BBBB" }

/-- The state reached from the initial one by drawing a rectangle (pointer
down and up at `(10, 10)`), choosing the move tool, clicking the rectangle and
calling `handleUndo`. -/
def danglingSelectionState : State :=
  handleUndo (handleShapeSelect 0 (handleMoveClick
    (handleMouseUp (handleMouseDown trivialMath noRandom ⟨10, 10⟩ initialState))))

/-- The state reached from the initial one by inserting `sampleBitmap`, drawing
a rectangle (pointer down and up at `(10, 10)`), choosing the move tool,
clicking the image and clicking the crop tool button. -/
def cropToolState : State :=
  handleCropToolClick (handleShapeSelect 0 (handleMoveClick
    (handleMouseUp (handleMouseDown trivialMath noRandom ⟨10, 10⟩
      (handleImageUpload_onload sampleBitmap initialState initialState)))))

/-- The rectangle of `cropToolState`, drawn at `(10, 10)` with no extent. -/
def pointRect : Shape :=
  { type := some ShapeType.rect, x := some 10, y := some 10
    width := some 0, height := some 0
    fill := some "transparent", stroke := some "#000000"
    strokeWidth := some 4, opacity := some 1 }

/-- A cropper showing `sampleBitmap` in a 100 x 50 container, before any
selection. -/
def emptyCropper : ImageCropper.CropperState :=
  { image := some sampleBitmap
    cropBox := { x := 0, y := 0, width := 0, height := 0 }
    isDrawing := false
    imageSize :=
      { width := some 100, height := some 50, originalWidth := 100, originalHeight := 50 } }

/-- The cropper showing `sampleBitmap` while a selection with crop box `b` is
being drawn. -/
def drawingCropper (b : ImageCropper.CropBox) : ImageCropper.CropperState :=
  { image := some sampleBitmap
    cropBox := b
    isDrawing := true
    imageSize :=
      { width := some 100, height := some 50, originalWidth := 100, originalHeight := 50 } }

/-- The state reached from `imageSelectedState` by clicking the crop tool
button and then the button wired to `startCropping`: the modal is open on the
image at index 0. -/
def cropToolModalState : State :=
  startCropping "data:image/png;base64,AAAA" (handleCropToolClick imageSelectedState)

/-- The image shape of `cropToolModalState` after the modal crop is confirmed
with `croppedBitmap`. -/
def croppedImageShape : Shape :=
  { type := some ShapeType.image, x := some 350, y := some 225
    width := some 100, height := some 50, image := some croppedBitmap
    opacity := some 1, rotation := some 0, scaleX := some 1, scaleY := some 1
    originalWidth := some 40, originalHeight := some 20
    originalSrc := some "data:image/png;base64,AAAA" }

/-- The bitmap that an encoded source loads as, for the instances: nothing is
known of its size yet. -/
def pendingDecode (src : String) : Bitmap :=
  { src := src, width := 0, height := 0 }

/-- The rectangle drawn by a pointer down and up at `(20, 20)` in the initial
settings, with no extent. -/
def secondPointRect : Shape :=
  { type := some ShapeType.rect, x := some 20, y := some 20
    width := some 0, height := some 0
    fill := some "transparent", stroke := some "#000000"
    strokeWidth := some 4, opacity := some 1 }

/-- The object that the load callback of `handleCroppedImage` writes for
`croppedBitmap` when there is no shape at `cropImageIndex`: the fields that the
callback sets, and no other. -/
def bareCroppedImage : Shape :=
  { image := some croppedBitmap, originalWidth := some 40, originalHeight := some 20
    scaleX := some 1, scaleY := some 1, rotation := some 0 }

/-- The state reached from the initial one by drawing two rectangles (pointer
down and up at `(10, 10)` and at `(20, 20)`) and inserting `sampleBitmap`. -/
def threeShapesState : State :=
  let twoRects := handleMouseUp (handleMouseDown trivialMath noRandom ⟨20, 20⟩
    (handleMouseUp (handleMouseDown trivialMath noRandom ⟨10, 10⟩ initialState)))
  handleImageUpload_onload sampleBitmap twoRects twoRects

/-- The state reached from `threeShapesState` by choosing the move tool,
clicking the image (index 2), clicking the crop tool button, clicking the first
rectangle (pointer down, pointer up, then the click selects index 0) and
clicking the image (pointer down, pointer up, then the click opens the crop
modal on index 2). -/
def modalOverImageState : State :=
  handleImageSelect "data:image/png;base64,AAAA" 2
    (handleMouseUp (handleMouseDown trivialMath noRandom ⟨360, 230⟩
      (handleShapeSelect 0 (handleMouseUp (handleMouseDown trivialMath noRandom ⟨10, 10⟩
        (handleCropToolClick (handleImageSelect "data:image/png;base64,AAAA" 2
          (handleMoveClick threeShapesState))))))))

/-- The state reached from `modalOverImageState`, with the modal still open, by
four undo key presses, the guard timer firing after each: the Document is back
to the first rectangle alone. -/
def undoneUnderModalState : State :=
  releaseGuard (handleUndo (releaseGuard (handleUndo (releaseGuard (handleUndo
    (releaseGuard (handleUndo modalOverImageState)))))))

/-- The state reached from `undoneUnderModalState` by confirming the crop in
the modal, once the cropped bitmap `croppedBitmap` has loaded. -/
def sparseDocumentState : State :=
  handleCroppedImage_onload croppedBitmap undoneUnderModalState undoneUnderModalState

/-- A `Math` whose cosine and sine return the point `(3/5, 4/5)` of the unit
circle at every angle, for the spray instance. -/
def sprayMath : JSMath :=
  { sqrt := fun _ => 0, cos := fun _ => 3 / 5, sin := fun _ => 4 / 5, PI := 22 / 7 }

/-- The random source of the spray instance: the draws `1/8, 2/8, 3/8, 4/8`,
repeated. -/
def sprayDraws : ℕ → ℚ := fun n => (((n % 4 : ℕ) : ℚ) + 1) / 8

/-- The state reached from the initial one by choosing the spray brush, brush
size 3 and opacity 1/2. -/
def sprayState : State :=
  handleOpacityChange (1 / 2)
    (handleBrushSizeChange 3 (handleBrushClick BrushType.spray initialState))

/-- The first dot of a spray at `(3, 4)` in `sprayState` with `sprayMath` and
`sprayDraws`. -/
def firstSprayDot : Shape :=
  { type := some ShapeType.circle, x := some (9 / 2), y := some 6
    radius := some (11 / 16), fill := some "#000000", opacity := some (7 / 80) }

/-! ## Lemmas on the history operations -/

theorem addToHistory_clear (d : Document) (s : State) (h : s.isPerformingAction = false) :
    addToHistory d s =
      { s with
        history := s.history.take (s.historyStep + 1) ++ [d]
        historyStep := (s.history.take (s.historyStep + 1) ++ [d]).length - 1 } := by
  simp [addToHistory, h]

theorem addToHistory_guarded (d : Document) (s : State) (h : s.isPerformingAction = true) :
    addToHistory d s = s := by
  simp [addToHistory, h]

theorem handleUndo_zero (s : State) (h : s.historyStep = 0) : handleUndo s = s := by
  simp [handleUndo, h]

theorem handleUndo_pos (s : State) (d : Document) (h0 : 0 < s.historyStep)
    (hd : s.history[s.historyStep - 1]? = some d) :
    handleUndo s =
      { s with isPerformingAction := true, historyStep := s.historyStep - 1, shapes := d } := by
  simp [handleUndo, h0, hd]

theorem handleUndo_history (s : State) : (handleUndo s).history = s.history := by
  unfold handleUndo
  split
  · dsimp only
    split <;> rfl
  · rfl

theorem handleRedo_last (s : State) (h : s.history.length ≤ s.historyStep + 1) :
    handleRedo s = s := by
  have : ¬ ((s.historyStep : ℤ) < (s.history.length : ℤ) - 1) := by omega
  simp [handleRedo, this]

theorem handleRedo_next (s : State) (d : Document)
    (hd : s.history[s.historyStep + 1]? = some d) :
    handleRedo s =
      { s with isPerformingAction := true, historyStep := s.historyStep + 1, shapes := d } := by
  have hlt : s.historyStep + 1 < s.history.length := by
    rcases List.getElem?_eq_some_iff.1 hd with ⟨h, _⟩
    exact h
  have : (s.historyStep : ℤ) < (s.history.length : ℤ) - 1 := by omega
  simp [handleRedo, this, hd]

theorem handleRedo_history (s : State) : (handleRedo s).history = s.history := by
  unfold handleRedo
  split
  · dsimp only
    split <;> rfl
  · rfl

/-- Undoing `k` times from a state that satisfies the history invariant, while
the cursor allows it: the cursor moves back by `k`, the history list is kept,
and (for `k > 0`) the live Document is the snapshot under the new cursor. -/
theorem handleUndo_iterate (s : State) (hinv : s.historyStep < s.history.length) :
    ∀ k, k ≤ s.historyStep →
      (handleUndo^[k] s).historyStep = s.historyStep - k ∧
      (handleUndo^[k] s).history = s.history ∧
      (0 < k → s.history[s.historyStep - k]? = some (handleUndo^[k] s).shapes) := by
  intro k
  induction k with
  | zero => intro _; simp
  | succ k ih =>
    intro hk
    obtain ⟨h1, h2, _⟩ := ih (by omega)
    rw [Function.iterate_succ_apply']
    have hlt : s.historyStep - (k + 1) < s.history.length := by omega
    have hd : (handleUndo^[k] s).history[(handleUndo^[k] s).historyStep - 1]?
        = some (s.history[s.historyStep - (k + 1)]) := by
      rw [h1, h2, List.getElem?_eq_some_iff]
      have : s.historyStep - k - 1 = s.historyStep - (k + 1) := by omega
      exact ⟨by omega, by simp [this]⟩
    rw [handleUndo_pos _ _ (by omega) hd]
    refine ⟨by simp [h1]; omega, by simp [h2], fun _ => ?_⟩
    simp

/-- Redoing `k` times while `k` snapshots lie after the cursor: the cursor
advances by `k`, the history list is kept, and (for `k > 0`) the live Document
is the snapshot under the new cursor. -/
theorem handleRedo_iterate (s : State) :
    ∀ k, s.historyStep + k < s.history.length →
      (handleRedo^[k] s).historyStep = s.historyStep + k ∧
      (handleRedo^[k] s).history = s.history ∧
      (0 < k → s.history[s.historyStep + k]? = some (handleRedo^[k] s).shapes) := by
  intro k
  induction k with
  | zero => intro _; simp
  | succ k ih =>
    intro hk
    obtain ⟨h1, h2, _⟩ := ih (by omega)
    rw [Function.iterate_succ_apply']
    have hd : (handleRedo^[k] s).history[(handleRedo^[k] s).historyStep + 1]?
        = some (s.history[s.historyStep + (k + 1)]) := by
      rw [h1, h2, List.getElem?_eq_some_iff]
      exact ⟨by omega, by simp [Nat.add_assoc]⟩
    rw [handleRedo_next _ _ hd]
    refine ⟨by simp [h1]; omega, by simp [h2], fun _ => ?_⟩
    simp

/-- The state after committing the Documents `docs` one after the other from
the initial state: the history is the empty Document followed by `docs`, the
cursor is on the last entry, which is the live Document, and the guard flag
is clear. -/
theorem commits_from_initial (docs : List Document) :
    (docs.foldl (fun s d => setShapesAndCommit d s) initialState).history = [] :: docs ∧
    (docs.foldl (fun s d => setShapesAndCommit d s) initialState).historyStep = docs.length ∧
    (docs.foldl (fun s d => setShapesAndCommit d s) initialState).shapes
      = (([] : Document) :: docs).getLast (List.cons_ne_nil _ _) ∧
    (docs.foldl (fun s d => setShapesAndCommit d s) initialState).isPerformingAction = false := by
  induction docs using List.reverseRecOn with
  | nil => simp [initialState]
  | append_singleton ds d ih =>
    obtain ⟨h1, h2, _, h4⟩ := ih
    rw [List.foldl_append]
    simp only [List.foldl_cons, List.foldl_nil]
    generalize ds.foldl (fun s d => setShapesAndCommit d s) initialState = t at h1 h2 h4
    have hg : ({ t with shapes := d } : State).isPerformingAction = false := h4
    simp only [setShapesAndCommit]
    rw [addToHistory_clear _ _ hg]
    simp [h1, h2, h4]

/-! ## Lemmas on the pointer gestures -/

theorem growShape_growable (m : JSMath) (tool : Tool) (bt : BrushType) (x y : ℚ) (sh : Shape)
    (h : growable sh) : ∃ sh1, growShape m tool bt x y sh = some sh1 ∧ growable sh1 := by
  obtain ⟨h1, h2⟩ := h
  unfold growShape
  split_ifs with c1 c2 c3 c4 c5 c6 c7 c8
  · exact ⟨_, rfl, by simp [growable, c1]⟩
  · exact ⟨_, rfl, by simp [growable, c2]⟩
  · exact ⟨_, rfl, by simp [growable, c3]⟩
  · exact ⟨_, rfl, by simp [growable, c3]⟩
  · exact ⟨_, rfl, by simp [growable, c5]⟩
  · obtain ⟨pts, hp⟩ := Option.ne_none_iff_exists'.1 (h1 c6)
    rw [hp]
    refine ⟨_, rfl, ?_, ?_⟩
    · intro _; simp
    · intro hsl
      rcases c6 with c6 | c6 <;> simp [c6] at hsl
  · exact ⟨_, rfl, h1, h2⟩
  · obtain ⟨a, b, rest, hp⟩ := h2 c8
    rw [hp]
    refine ⟨_, rfl, ?_, ?_⟩
    · intro hl
      rcases hl with hl | hl <;> simp [c8] at hl
    · intro _; exact ⟨a, b, [x, y], rfl⟩
  · exact ⟨_, rfl, h1, h2⟩

theorem handleMouseMove_grow (m : JSMath) (rand : ℕ → ℚ) (p : Point) (s : State)
    (base : Document) (sh sh1 : Shape)
    (hc : (s.isCropping && s.cropRectVisible) = false) (hd : s.isDrawing = true)
    (hs : s.shapes = base ++ [sh])
    (hg : growShape m s.tool s.brushType p.x p.y sh = some sh1) :
    handleMouseMove m rand p s = some { s with shapes := (if s.brushType = BrushType.spray ∧ s.tool = Tool.line then handleSpray m rand p.x p.y s (base ++ [sh1]) else base ++ [sh1]) } := by
  unfold handleMouseMove
  simp [hc, hd, hs, hg]
  split <;> rfl

theorem lastPos_concat (q : Point) (init : List MoveSample) (l : MoveSample) :
    lastPos q (init ++ [l]) = l.pos := by
  induction init generalizing q with
  | nil => rfl
  | cons a rest ih => simpa [lastPos] using ih a.pos

theorem sprayDot_growable (m : JSMath) (rand : ℕ → ℚ) (x y : ℚ) (s : State) (i : ℕ) :
    growable (sprayDot m rand x y s i) := by
  simp [growable, sprayDot]

theorem handleSpray_lastGrowable (m : JSMath) (rand : ℕ → ℚ) (x y : ℚ) (s : State)
    (doc : Document) (h : lastGrowable doc) : lastGrowable (handleSpray m rand x y s doc) := by
  unfold handleSpray
  rcases Nat.eq_zero_or_pos (s.brushSize * 2) with h0 | hpos
  · simpa [h0] using h
  · obtain ⟨k, hk⟩ : ∃ k, s.brushSize * 2 = k + 1 := ⟨s.brushSize * 2 - 1, by omega⟩
    refine ⟨doc ++ (List.range k).map (sprayDot m rand x y s), sprayDot m rand x y s k, ?_,
      sprayDot_growable m rand x y s k⟩
    simp [hk, List.range_succ]

theorem handleMouseMove_drawing (m : JSMath) (rand : ℕ → ℚ) (p : Point) (s : State)
    (hc : (s.isCropping && s.cropRectVisible) = false) (hd : s.isDrawing = true)
    (hl : lastGrowable s.shapes) :
    ∃ doc, handleMouseMove m rand p s = some { s with shapes := doc } ∧ lastGrowable doc := by
  obtain ⟨base, sh, hs, hg⟩ := hl
  obtain ⟨sh1, h1, hg1⟩ := growShape_growable m s.tool s.brushType p.x p.y sh hg
  rw [handleMouseMove_grow m rand p s base sh sh1 hc hd hs h1]
  refine ⟨_, rfl, ?_⟩
  split
  · exact handleSpray_lastGrowable m rand p.x p.y s _ ⟨base, sh1, rfl, hg1⟩
  · exact ⟨base, sh1, rfl, hg1⟩

theorem pointerMoves_nil (m : JSMath) (s : State) : pointerMoves m [] s = some s := rfl

theorem pointerMoves_cons (m : JSMath) (mv : MoveSample) (rest : List MoveSample) (s : State) :
    pointerMoves m (mv :: rest) s
      = (handleMouseMove m mv.rand mv.pos s).bind (pointerMoves m rest) := by
  simp [pointerMoves, List.foldlM_cons]

theorem pointerMoves_drawing (m : JSMath) (moves : List MoveSample) :
    ∀ s : State, (s.isCropping && s.cropRectVisible) = false → s.isDrawing = true →
      lastGrowable s.shapes →
      ∃ doc, pointerMoves m moves s = some { s with shapes := doc } ∧ lastGrowable doc := by
  induction moves with
  | nil => intro s _ _ hl; exact ⟨s.shapes, rfl, hl⟩
  | cons mv rest ih =>
    intro s hc hd hl
    obtain ⟨doc, h1, hl1⟩ := handleMouseMove_drawing m mv.rand mv.pos s hc hd hl
    obtain ⟨doc2, h2, hl2⟩ := ih { s with shapes := doc } hc hd hl1
    exact ⟨doc2, by rw [pointerMoves_cons, h1, Option.some_bind, h2], hl2⟩

/-- A family of shapes `F q` that one pointer-move to `p` turns into `F p`:
any sequence of moves from `F q` ends in `F` of the last position. -/
theorem pointerMoves_family (m : JSMath) (F : Point → Shape) (tool : Tool) (bt : BrushType)
    (hF : ∀ q p : Point, growShape m tool bt p.x p.y (F q) = some (F p))
    (hns : ¬ (bt = BrushType.spray ∧ tool = Tool.line)) (moves : List MoveSample) :
    ∀ (s : State) (base : Document) (q : Point), s.tool = tool → s.brushType = bt →
      (s.isCropping && s.cropRectVisible) = false → s.isDrawing = true →
      s.shapes = base ++ [F q] →
      pointerMoves m moves s = some { s with shapes := base ++ [F (lastPos q moves)] } := by
  induction moves with
  | nil =>
    intro s base q _ _ _ _ hs
    rw [pointerMoves_nil, lastPos, ← hs]
  | cons mv rest ih =>
    intro s base q ht hb hc hd hs
    have hg : growShape m s.tool s.brushType mv.pos.x mv.pos.y (F q) = some (F mv.pos) := by
      rw [ht, hb]; exact hF q mv.pos
    have hns1 : ¬ (s.brushType = BrushType.spray ∧ s.tool = Tool.line) := by
      rw [ht, hb]; exact hns
    rw [pointerMoves_cons, handleMouseMove_grow m mv.rand mv.pos s base (F q) (F mv.pos) hc hd hs hg,
      Option.some_bind, if_neg hns1]
    rw [ih { s with shapes := base ++ [F mv.pos] } base mv.pos ht hb hc hd rfl]
    rfl

theorem rectangleTo_grow (m : JSMath) (s : State) (bt : BrushType) (p0 q p : Point) :
    growShape m Tool.rectangle bt p.x p.y (rectangleTo s p0 q) = some (rectangleTo s p0 p) := by
  simp [growShape, rectangleTo]

theorem squareTo_grow (m : JSMath) (s : State) (bt : BrushType) (p0 q p : Point) :
    growShape m Tool.square bt p.x p.y (squareTo s p0 q) = some (squareTo s p0 p) := by
  simp [growShape, squareTo]

theorem handleMouseDown_rectangle (m : JSMath) (rand : ℕ → ℚ) (p0 : Point) (s : State)
    (ht : s.tool = Tool.rectangle) :
    handleMouseDown m rand p0 s
      = { s with isDrawing := true, shapes := s.shapes ++ [rectangleTo s p0 p0] } := by
  simp [handleMouseDown, ht, rectangleTo]

theorem handleMouseDown_square (m : JSMath) (rand : ℕ → ℚ) (p0 : Point) (s : State)
    (ht : s.tool = Tool.square) :
    handleMouseDown m rand p0 s
      = { s with isDrawing := true, shapes := s.shapes ++ [squareTo s p0 p0] } := by
  simp [handleMouseDown, ht, squareTo]

theorem handleMouseDown_drawing (m : JSMath) (rand : ℕ → ℚ) (p0 : Point) (s : State)
    (h1 : s.tool ≠ Tool.move) (h2 : s.tool ≠ Tool.cropImage) :
    (handleMouseDown m rand p0 s).isDrawing = true ∧
    (handleMouseDown m rand p0 s).history = s.history ∧
    (handleMouseDown m rand p0 s).historyStep = s.historyStep ∧
    (handleMouseDown m rand p0 s).isPerformingAction = s.isPerformingAction ∧
    (handleMouseDown m rand p0 s).isCropping = s.isCropping ∧
    (handleMouseDown m rand p0 s).cropRectVisible = s.cropRectVisible ∧
    lastGrowable (handleMouseDown m rand p0 s).shapes := by
  obtain ⟨t, ht⟩ : ∃ t, s.tool = t := ⟨_, rfl⟩
  cases t
  · simp [handleMouseDown, ht]
    exact ⟨_, _, rfl, by simp [growable]⟩
  · simp [handleMouseDown, ht]
    exact ⟨_, _, rfl, by simp [growable]⟩
  · simp [handleMouseDown, ht]
    exact ⟨_, _, rfl, by simp [growable]⟩
  · simp [handleMouseDown, ht]
    exact ⟨_, _, rfl, by simp [growable]⟩
  · simp only [handleMouseDown, ht]
    simp
    split
    · refine ⟨rfl, rfl, rfl, rfl, rfl, rfl, ?_⟩
      exact handleSpray_lastGrowable _ _ _ _ _ _ ⟨_, _, rfl, by simp [growable]⟩
    · exact ⟨rfl, rfl, rfl, rfl, rfl, rfl, _, _, rfl, by simp [growable]⟩
  · simp [handleMouseDown, ht]
    exact ⟨_, _, rfl, by simp [growable]⟩
  · simp [handleMouseDown, ht]
    exact ⟨_, _, rfl, by simp [growable]⟩
  · exact absurd ht h1
  · exact absurd ht h2


theorem handleMouseUp_commit (t : State) (hc : (t.isCropping && t.cropRectVisible) = false)
    (hd : t.isDrawing = true) (hg : t.isPerformingAction = false)
    (hinv : t.historyStep < t.history.length) :
    (handleMouseUp t).history = t.history.take (t.historyStep + 1) ++ [t.shapes] ∧
    (handleMouseUp t).historyStep = t.historyStep + 1 ∧
    (handleMouseUp t).shapes = t.shapes := by
  unfold handleMouseUp
  rw [hc]
  simp only [Bool.false_eq_true, if_false, hd, if_true]
  rw [addToHistory_clear _ _ hg]
  refine ⟨rfl, ?_, rfl⟩
  simp [List.length_take]
  omega

/-- Undo and redo right after a commit that put `d` behind the snapshot `d0`
under the old cursor `k`. -/
theorem undo_redo_after_commit (u : State) (h : List Document) (k : ℕ) (d0 d : Document)
    (hh : u.history = h.take (k + 1) ++ [d]) (hs : u.historyStep = k + 1)
    (hk : h[k]? = some d0) :
    (handleUndo u).shapes = d0 ∧ (handleRedo (handleUndo u)).shapes = d := by
  have hlt : k < h.length := (List.getElem?_eq_some_iff.1 hk).1
  have hlen : (h.take (k + 1)).length = k + 1 := by simp [List.length_take]; omega
  have h0 : u.history[u.historyStep - 1]? = some d0 := by
    rw [hh, hs, Nat.add_sub_cancel, List.getElem?_append_left (by omega),
      List.getElem?_take_of_lt (by omega), hk]
  rw [handleUndo_pos u d0 (by omega) h0]
  refine ⟨rfl, ?_⟩
  have key : ∀ v : State, v.history = u.history → v.historyStep = u.historyStep - 1 →
      (handleRedo v).shapes = d := by
    intro v hv1 hv2
    have h1 : v.history[v.historyStep + 1]? = some d := by
      rw [hv1, hv2, hh, hs, Nat.add_sub_cancel, List.getElem?_append_right (by omega)]
      simp [hlen]
    rw [handleRedo_next _ d h1]
  exact key _ rfl rfl

/-- A drawing gesture from a state with the guard flag clear, no crop rectangle
active and the live Document under the cursor: the gesture completes, and
undo then redo give the Document of before and of after the gesture. -/
theorem pointerGesture_undo_redo (m : JSMath) (rand0 : ℕ → ℚ) (p0 : Point)
    (moves : List MoveSample) (s : State)
    (hg : s.isPerformingAction = false)
    (hc : (s.isCropping && s.cropRectVisible) = false)
    (h1 : s.tool ≠ Tool.move) (h2 : s.tool ≠ Tool.cropImage)
    (hlive : s.history[s.historyStep]? = some s.shapes) :
    ∃ s1, pointerGesture m rand0 p0 moves s = some s1 ∧
      pointerMoves m moves (handleMouseDown m rand0 p0 s)
        = some { handleMouseDown m rand0 p0 s with shapes := s1.shapes } ∧
      s1.history = s.history.take (s.historyStep + 1) ++ [s1.shapes] ∧
      s1.historyStep = s.historyStep + 1 ∧
      (handleUndo s1).shapes = s.shapes ∧
      (handleRedo (handleUndo s1)).shapes = s1.shapes := by
  obtain ⟨d1, d2, d3, d4, d5, d6, d7⟩ := handleMouseDown_drawing m rand0 p0 s h1 h2
  have hc1 : ((handleMouseDown m rand0 p0 s).isCropping
      && (handleMouseDown m rand0 p0 s).cropRectVisible) = false := by rw [d5, d6]; exact hc
  obtain ⟨doc, hm, _⟩ := pointerMoves_drawing m moves (handleMouseDown m rand0 p0 s) hc1 d1 d7
  have hlt : s.historyStep < s.history.length := (List.getElem?_eq_some_iff.1 hlive).1
  obtain ⟨u1, u2, u3⟩ := handleMouseUp_commit
    { handleMouseDown m rand0 p0 s with shapes := doc } hc1 d1 (by show _ = false; rw [d4, hg])
    (by show (handleMouseDown m rand0 p0 s).historyStep
          < (handleMouseDown m rand0 p0 s).history.length
        rw [d2, d3]; exact hlt)
  have u1a : (handleMouseUp { handleMouseDown m rand0 p0 s with shapes := doc }).history
      = s.history.take (s.historyStep + 1) ++ [doc] := by
    rw [u1]; show List.take ((handleMouseDown m rand0 p0 s).historyStep + 1)
      (handleMouseDown m rand0 p0 s).history ++ [doc] = _
    rw [d2, d3]
  have u2a : (handleMouseUp { handleMouseDown m rand0 p0 s with shapes := doc }).historyStep
      = s.historyStep + 1 := by
    rw [u2]; show (handleMouseDown m rand0 p0 s).historyStep + 1 = _
    rw [d3]
  have u3a : (handleMouseUp { handleMouseDown m rand0 p0 s with shapes := doc }).shapes = doc := u3
  obtain ⟨r1, r2⟩ := undo_redo_after_commit _ s.history s.historyStep s.shapes doc u1a u2a hlive
  refine ⟨handleMouseUp { handleMouseDown m rand0 p0 s with shapes := doc }, ?_, ?_, ?_, u2a,
    r1, ?_⟩
  · simp [pointerGesture, hm]
  · rw [hm, u3a]
  · rw [u1a, u3a]
  · rw [r2, u3a]

/-- A family of shapes `F a` that one pointer-move to `p` turns into
`F (step a p)`: a sequence of moves from `F a` ends in `F` of the folded
parameter. -/
theorem pointerMoves_accumulate (m : JSMath) {α : Type} (F : α → Shape) (step : α → Point → α)
    (tool : Tool) (bt : BrushType)
    (hF : ∀ (a : α) (p : Point), growShape m tool bt p.x p.y (F a) = some (F (step a p)))
    (hns : ¬ (bt = BrushType.spray ∧ tool = Tool.line)) (moves : List MoveSample) :
    ∀ (s : State) (base : Document) (a : α), s.tool = tool → s.brushType = bt →
      (s.isCropping && s.cropRectVisible) = false → s.isDrawing = true →
      s.shapes = base ++ [F a] →
      pointerMoves m moves s
        = some { s with shapes := base ++ [F (moves.foldl (fun b mv => step b mv.pos) a)] } := by
  induction moves with
  | nil =>
    intro s base a _ _ _ _ hs
    rw [pointerMoves_nil, List.foldl_nil, ← hs]
  | cons mv rest ih =>
    intro s base a ht hb hc hd hs
    have hg : growShape m s.tool s.brushType mv.pos.x mv.pos.y (F a)
        = some (F (step a mv.pos)) := by
      rw [ht, hb]; exact hF a mv.pos
    have hns1 : ¬ (s.brushType = BrushType.spray ∧ s.tool = Tool.line) := by
      rw [ht, hb]; exact hns
    rw [pointerMoves_cons,
      handleMouseMove_grow m mv.rand mv.pos s base (F a) (F (step a mv.pos)) hc hd hs hg,
      Option.some_bind, if_neg hns1]
    rw [ih { s with shapes := base ++ [F (step a mv.pos)] } base (step a mv.pos) ht hb hc hd rfl]
    rfl

theorem foldl_samplePoints (moves : List MoveSample) :
    ∀ pts : List ℚ,
      moves.foldl (fun b mv => b ++ [mv.pos.x, mv.pos.y]) pts = pts ++ samplePoints moves := by
  induction moves with
  | nil => intro pts; simp [samplePoints]
  | cons mv rest ih => intro pts; simp [samplePoints, ih]

theorem samplePoints_length (moves : List MoveSample) :
    (samplePoints moves).length = 2 * moves.length := by
  induction moves with
  | nil => rfl
  | cons mv rest ih => simp [samplePoints, ih]; omega

theorem straightLineTo_grow (m : JSMath) (s : State) (bt : BrushType) (p0 q p : Point) :
    growShape m Tool.straightLine bt p.x p.y (straightLineTo s p0 q)
      = some (straightLineTo s p0 p) := by
  simp [growShape, straightLineTo]

theorem freehandLine_grow (m : JSMath) (s : State) (bt : BrushType) (hbt : bt ≠ BrushType.spray)
    (pts : List ℚ) (p : Point) :
    growShape m Tool.line bt p.x p.y (freehandLine s pts)
      = some (freehandLine s (pts ++ [p.x, p.y])) := by
  simp [growShape, freehandLine, hbt]

theorem eraserLine_grow (m : JSMath) (s : State) (bt : BrushType) (pts : List ℚ) (p : Point) :
    growShape m Tool.eraser bt p.x p.y (eraserLine s pts)
      = some (eraserLine s (pts ++ [p.x, p.y])) := by
  simp [growShape, eraserLine]

theorem handleMouseDown_straightLine (m : JSMath) (rand : ℕ → ℚ) (p0 : Point) (s : State)
    (ht : s.tool = Tool.straightLine) :
    handleMouseDown m rand p0 s
      = { s with isDrawing := true, lineStart := p0,
                 shapes := s.shapes ++ [straightLineTo s p0 p0] } := by
  simp [handleMouseDown, ht, straightLineTo]

theorem handleMouseDown_line (m : JSMath) (rand : ℕ → ℚ) (p0 : Point) (s : State)
    (ht : s.tool = Tool.line) (hb : s.brushType ≠ BrushType.spray) :
    handleMouseDown m rand p0 s
      = { s with isDrawing := true, shapes := s.shapes ++ [freehandLine s [p0.x, p0.y]] } := by
  simp [handleMouseDown, ht, hb, freehandLine]

theorem handleMouseDown_eraser (m : JSMath) (rand : ℕ → ℚ) (p0 : Point) (s : State)
    (ht : s.tool = Tool.eraser) :
    handleMouseDown m rand p0 s
      = { s with isDrawing := true, shapes := s.shapes ++ [eraserLine s [p0.x, p0.y]] } := by
  simp [handleMouseDown, ht, eraserLine]

theorem handleMouseUp_shapes (t : State) (hc : (t.isCropping && t.cropRectVisible) = false) :
    (handleMouseUp t).shapes = t.shapes := by
  unfold handleMouseUp
  rw [hc]
  simp only [Bool.false_eq_true, if_false]
  unfold addToHistory
  split
  · split <;> rfl
  · rfl

theorem imageSelectedState_eq :
    imageSelectedState =
      { initialState with
        tool := Tool.move
        selectedShapeIndex := some 0
        shapes := [insertedImage]
        history := [[], [insertedImage]]
        historyStep := 1 } := by
  simp [imageSelectedState, handleShapeSelect, handleMoveClick, handleImageUpload_onload,
    initialState, sampleBitmap, insertedImage]
  norm_num

theorem cropModalState_eq :
    cropModalState =
      { initialState with
        tool := Tool.move
        selectedShapeIndex := some 0
        shapes := [insertedImage]
        history := [[], [insertedImage]]
        historyStep := 1
        cropImageData := some "data:image/png;base64,AAAA"
        cropImageIndex := some 0
        showCropModal := true } := by
  simp [cropModalState, openCropModal, imageSelectedState_eq, insertedImage, initialState]

theorem insert_largeBitmap_shapes :
    (handleImageUpload_onload largeBitmap initialState initialState).shapes
      = [insertedLargeImage] := by
  simp [handleImageUpload_onload, initialState, largeBitmap, insertedLargeImage]
  norm_num

/-- The Document that the load callback of `handleImageUpload` writes, whatever
the guard flag: the Document of the closure with the new image appended. -/
theorem handleImageUpload_onload_shapes (img : Bitmap) (c s : State) :
    ∃ sh : Shape, (handleImageUpload_onload img c s).shapes = c.shapes ++ [sh] ∧
      sh.type = some ShapeType.image ∧ sh.image = some img ∧
      sh.scaleX = some 1 ∧ sh.scaleY = some 1 ∧ sh.rotation = some 0 ∧
      sh.originalWidth = sh.width ∧ sh.originalHeight = sh.height ∧
      sh.width = some (if img.width > min c.stageWidth c.stageHeight * (8 / 10)
            ∨ img.height > min c.stageWidth c.stageHeight * (8 / 10) then
          (if img.width > img.height then min c.stageWidth c.stageHeight * (8 / 10)
            else (img.width / img.height) * (min c.stageWidth c.stageHeight * (8 / 10)))
        else img.width) ∧
      sh.height = some (if img.width > min c.stageWidth c.stageHeight * (8 / 10)
            ∨ img.height > min c.stageWidth c.stageHeight * (8 / 10) then
          (if img.width > img.height then
            (img.height / img.width) * (min c.stageWidth c.stageHeight * (8 / 10))
            else min c.stageWidth c.stageHeight * (8 / 10))
        else img.height) ∧
      sh.x = sh.width.map (fun w => c.stageWidth / 2 - w / 2) ∧
      sh.y = sh.height.map (fun h => c.stageHeight / 2 - h / 2) := by
  unfold handleImageUpload_onload
  by_cases hg : s.isPerformingAction = true
  · simp only [hg, if_true]
    refine ⟨_, rfl, rfl, rfl, rfl, rfl, rfl, rfl, rfl, ?_, ?_, ?_, ?_⟩ <;>
      (split_ifs <;> simp)
  · simp only [hg, if_false]
    refine ⟨_, rfl, rfl, rfl, rfl, rfl, rfl, rfl, rfl, ?_, ?_, ?_, ?_⟩ <;>
      (split_ifs <;> simp)

/-- The size and place of the image that the load callback of
`handleImageUpload` builds, for a bitmap of positive size `w x h` and a stage of
non-negative size `W x H`: the shape written after the Document of the closure
holds the bitmap with `scaleX = scaleY = 1` and `rotation = 0`, its width and
height are both at most `0.8 * min(W, H)`, keep the aspect ratio
(`width * h = height * w`), equal `w x h` when neither `w` nor `h` exceeds
`0.8 * min(W, H)`, and it is centred on the stage. -/
theorem handleImageUpload_onload_fits_and_centres (img : Bitmap) (c s : State)
    (hw : 0 < img.width) (hh : 0 < img.height)
    (hW : 0 ≤ c.stageWidth) (hH : 0 ≤ c.stageHeight) :
    ∃ (sh : Shape) (x0 y0 wd ht : ℚ),
      (handleImageUpload_onload img c s).shapes = c.shapes ++ [sh] ∧
      sh.type = some ShapeType.image ∧ sh.image = some img ∧
      sh.scaleX = some 1 ∧ sh.scaleY = some 1 ∧ sh.rotation = some 0 ∧
      sh.x = some x0 ∧ sh.y = some y0 ∧ sh.width = some wd ∧ sh.height = some ht ∧
      wd ≤ 8 / 10 * min c.stageWidth c.stageHeight ∧
      ht ≤ 8 / 10 * min c.stageWidth c.stageHeight ∧
      wd * img.height = ht * img.width ∧
      (img.width ≤ 8 / 10 * min c.stageWidth c.stageHeight →
        img.height ≤ 8 / 10 * min c.stageWidth c.stageHeight →
        wd = img.width ∧ ht = img.height) ∧
      x0 + wd / 2 = c.stageWidth / 2 ∧ y0 + ht / 2 = c.stageHeight / 2 := by
  obtain ⟨sh, h1, h2, h3, h4, h5, h6, _, _, h9, h10, h11, h12⟩ :=
    handleImageUpload_onload_shapes img c s
  have hM : 0 ≤ min c.stageWidth c.stageHeight * (8 / 10) :=
    mul_nonneg (le_min hW hH) (by norm_num)
  rw [mul_comm (8 / 10 : ℚ) (min c.stageWidth c.stageHeight)]
  generalize min c.stageWidth c.stageHeight * (8 / 10) = M at h9 h10 hM ⊢
  by_cases hex : img.width > M ∨ img.height > M
  · by_cases hwh : img.width > img.height
    · rw [if_pos hex, if_pos hwh] at h9 h10
      rw [h9] at h11
      rw [h10] at h12
      refine ⟨sh, _, _, M, img.height / img.width * M, h1, h2, h3, h4, h5, h6, h11, h12, h9, h10,
        le_refl M, ?_, ?_, ?_, by ring, by ring⟩
      · have : img.height / img.width ≤ 1 := (div_le_one hw).2 (le_of_lt hwh)
        calc img.height / img.width * M ≤ 1 * M := mul_le_mul_of_nonneg_right this hM
          _ = M := one_mul M
      · field_simp
        ring
      · intro ha hb
        rcases hex with hex | hex
        · exact absurd ha (not_le.2 hex)
        · exact absurd hb (not_le.2 hex)
    · rw [if_pos hex, if_neg hwh] at h9 h10
      rw [h9] at h11
      rw [h10] at h12
      refine ⟨sh, _, _, img.width / img.height * M, M, h1, h2, h3, h4, h5, h6, h11, h12, h9, h10,
        ?_, le_refl M, ?_, ?_, by ring, by ring⟩
      · have : img.width / img.height ≤ 1 := (div_le_one hh).2 (not_lt.1 hwh)
        calc img.width / img.height * M ≤ 1 * M := mul_le_mul_of_nonneg_right this hM
          _ = M := one_mul M
      · field_simp
        ring
      · intro ha hb
        rcases hex with hex | hex
        · exact absurd ha (not_le.2 hex)
        · exact absurd hb (not_le.2 hex)
  · rw [if_neg hex] at h9 h10
    rw [h9] at h11
    rw [h10] at h12
    have hle : img.width ≤ M ∧ img.height ≤ M := by
      constructor
      · exact not_lt.1 (fun h => hex (Or.inl h))
      · exact not_lt.1 (fun h => hex (Or.inr h))
    exact ⟨sh, _, _, img.width, img.height, h1, h2, h3, h4, h5, h6, h11, h12, h9, h10,
      hle.1, hle.2, mul_comm _ _, fun _ _ => ⟨rfl, rfl⟩, by ring, by ring⟩

theorem addToHistory_shapes (d : Document) (t : State) :
    (addToHistory d t).shapes = t.shapes := by
  unfold addToHistory
  split <;> rfl

theorem addToHistory_selectedShapeIndex (d : Document) (t : State) :
    (addToHistory d t).selectedShapeIndex = t.selectedShapeIndex := by
  unfold addToHistory
  split <;> rfl

theorem set_same (l : List Shape) (i : ℕ) (a : Shape) (h : l[i]? = some a) : l.set i a = l := by
  induction l generalizing i with
  | nil => rfl
  | cons b rest ih =>
    cases i with
    | zero =>
      have : b = a := by simpa using h
      rw [this]; rfl
    | succ k =>
      have : rest[k]? = some a := by simpa using h
      simp [ih k this]

theorem handleRotateImage_shapes (s : State) (sel : ℕ) (shape : Shape) (r : ℚ)
    (hsel : s.selectedShapeIndex = some sel) (hsh : s.shapes[sel]? = some shape)
    (himg : shape.type = some ShapeType.image) (hr : shape.rotation = some r) :
    (handleRotateImage s).shapes = s.shapes.set sel { shape with rotation := some (r + 90) } ∧
    (handleRotateImage s).selectedShapeIndex = some sel := by
  have hlt : sel < s.shapes.length := (List.getElem?_eq_some_iff.1 hsh).1
  have hor : orDefault (some r) 0 = r := by
    show (if r = 0 then 0 else r) = r
    split_ifs with h0
    · exact h0.symm
    · rfl
  unfold handleRotateImage
  simp only [hsel, hsh, himg, if_true]
  rw [addToHistory_shapes, addToHistory_selectedShapeIndex]
  simp [arrayAssign, hlt, hr, hor, hsel]

theorem handleRotateImage_iterate (sel : ℕ) (n : ℕ) :
    ∀ (s : State) (shape : Shape) (r : ℚ), s.selectedShapeIndex = some sel →
      s.shapes[sel]? = some shape → shape.type = some ShapeType.image →
      shape.rotation = some r →
      (handleRotateImage^[n] s).shapes
        = s.shapes.set sel { shape with rotation := some (r + 90 * (n : ℚ)) } := by
  induction n with
  | zero =>
    intro s shape r _ hsh _ hr
    have : ({ shape with rotation := some (r + 90 * ((0 : ℕ) : ℚ)) } : Shape) = shape := by
      cases shape
      simp at hr
      simp [hr]
    rw [this, Function.iterate_zero, id, set_same _ _ _ hsh]
  | succ k ih =>
    intro s shape r hsel hsh himg hr
    have hlt : sel < s.shapes.length := (List.getElem?_eq_some_iff.1 hsh).1
    obtain ⟨h1, h2⟩ := handleRotateImage_shapes s sel shape r hsel hsh himg hr
    have h3 : (handleRotateImage s).shapes[sel]?
        = some { shape with rotation := some (r + 90) } := by
      rw [h1]; simp [hlt]
    rw [Function.iterate_succ_apply,
      ih (handleRotateImage s) { shape with rotation := some (r + 90) } (r + 90) h2 h3 himg rfl,
      h1, List.set_set]
    have : r + 90 + 90 * (k : ℚ) = r + 90 * ((k + 1 : ℕ) : ℚ) := by push_cast; ring
    rw [this]

/-! ## The claims on the history stack -/

theorem sampleState_history :
    sampleState.history = [[], [sampleRect 0], [sampleRect 0, sampleRect 5]] ∧
    sampleState.historyStep = 2 ∧ sampleState.isPerformingAction = false := by
  simp [sampleState, setShapesAndCommit, addToHistory, initialState]

/-- C1: from the initial state, after committing any sequence of N Documents
(the history is then the empty Document followed by them), N calls of
`handleUndo` bring the cursor to 0 and the live Document to the empty one, and
N calls of `handleRedo` after that leave the live Document equal to the last
committed Document, `historyStep` equal to N and the history list unchanged. -/
theorem C1_undo_redo_roundtrip (docs : List Document) :
    (docs.foldl (fun s d => setShapesAndCommit d s) initialState).history = [] :: docs ∧
    (handleUndo^[docs.length]
      (docs.foldl (fun s d => setShapesAndCommit d s) initialState)).historyStep = 0 ∧
    (handleUndo^[docs.length]
      (docs.foldl (fun s d => setShapesAndCommit d s) initialState)).shapes = [] ∧
    (handleRedo^[docs.length] (handleUndo^[docs.length]
      (docs.foldl (fun s d => setShapesAndCommit d s) initialState))).shapes
        = (([] : Document) :: docs).getLast (List.cons_ne_nil _ _) ∧
    (handleRedo^[docs.length] (handleUndo^[docs.length]
      (docs.foldl (fun s d => setShapesAndCommit d s) initialState))).historyStep
        = docs.length ∧
    (handleRedo^[docs.length] (handleUndo^[docs.length]
      (docs.foldl (fun s d => setShapesAndCommit d s) initialState))).history
        = (docs.foldl (fun s d => setShapesAndCommit d s) initialState).history := by
  obtain ⟨h1, h2, h3, _⟩ := commits_from_initial docs
  generalize docs.foldl (fun s d => setShapesAndCommit d s) initialState = s at h1 h2 h3
  have hinv : s.historyStep < s.history.length := by simp [h1, h2]
  obtain ⟨u1, u2, u3⟩ := handleUndo_iterate s hinv docs.length (by omega)
  have hr : (handleUndo^[docs.length] s).historyStep + docs.length
      < (handleUndo^[docs.length] s).history.length := by
    rw [u1, u2, h1, h2]; simp
  obtain ⟨r1, r2, r3⟩ := handleRedo_iterate (handleUndo^[docs.length] s) docs.length hr
  have hu0 : (handleUndo^[docs.length] s).historyStep = 0 := by omega
  refine ⟨h1, hu0, ?_, ?_, by omega, by rw [r2, u2]⟩
  · rcases Nat.eq_zero_or_pos docs.length with h0 | hpos
    · have hnil : docs = [] := List.length_eq_zero.1 h0
      subst hnil
      simpa using h3
    · have := u3 hpos
      rw [h1, h2] at this
      simpa using this.symm
  · rcases Nat.eq_zero_or_pos docs.length with h0 | hpos
    · have hnil : docs = [] := List.length_eq_zero.1 h0
      subst hnil
      simpa using h3
    · have := r3 hpos
      rw [u2, hu0, h1, Nat.zero_add] at this
      have hl : (([] : Document) :: docs)[docs.length]? =
          some ((([] : Document) :: docs).getLast (List.cons_ne_nil _ _)) := by
        rw [List.getLast_eq_getElem]
        simp
      rw [hl] at this
      exact (Option.some.inj this).symm

/-- C2, as stated, fails: in the state reached from `sampleState` by one undo
(three snapshots, cursor 1, one snapshot after the cursor), `k = 1` more undo
followed by a commit leaves the history `[[], doc]`: the two snapshots that
were after index 0 are discarded, not exactly `k = 1`. -/
theorem C2_counterexample :
    historyInv (handleUndo sampleState) ∧
    (handleUndo sampleState).history.length = 3 ∧
    (handleUndo sampleState).historyStep = 1 ∧
    (addToHistory [sampleRect 7] (releaseGuard (handleUndo^[1] (handleUndo sampleState)))).history
      = [[], [sampleRect 7]] ∧
    ((handleUndo sampleState).history.drop 1).length ≠ 1 := by
  simp [historyInv, releaseGuard, handleUndo, addToHistory, sampleState_history]

/-- C2, amended: from a state satisfying the history invariant, `k <= historyStep`
calls of `handleUndo`, the release of the guard flag and one `addToHistory(doc)`
discard every entry after index `historyStep - k` (these are exactly `k`
entries when the cursor was on the last entry before the undos, and
`history.length - 1 - historyStep + k` entries in general): the history is
`history[0 .. historyStep - k]` followed by `doc`, of length
`(historyStep - k) + 2`, the cursor is on the last index, and a following
`handleRedo` changes nothing. -/
theorem C2_commit_after_undo_discards_redo_tail (s : State) (k : ℕ) (doc : Document)
    (hinv : historyInv s) (hk : k ≤ s.historyStep) :
    (addToHistory doc (releaseGuard (handleUndo^[k] s))).history
      = s.history.take (s.historyStep - k + 1) ++ [doc] ∧
    (addToHistory doc (releaseGuard (handleUndo^[k] s))).history.length
      = (s.historyStep - k) + 2 ∧
    (addToHistory doc (releaseGuard (handleUndo^[k] s))).historyStep + 1
      = (addToHistory doc (releaseGuard (handleUndo^[k] s))).history.length ∧
    handleRedo (addToHistory doc (releaseGuard (handleUndo^[k] s)))
      = addToHistory doc (releaseGuard (handleUndo^[k] s)) ∧
    (s.history.drop (s.historyStep - k + 1)).length
      = s.history.length - 1 - s.historyStep + k ∧
    (s.historyStep + 1 = s.history.length →
      (s.history.drop (s.historyStep - k + 1)).length = k) := by
  obtain ⟨u1, u2, _⟩ := handleUndo_iterate s hinv.2 k hk
  have hg : (releaseGuard (handleUndo^[k] s)).isPerformingAction = false := rfl
  have hh : (addToHistory doc (releaseGuard (handleUndo^[k] s))).history
      = s.history.take (s.historyStep - k + 1) ++ [doc] := by
    rw [addToHistory_clear _ _ hg]
    simp [releaseGuard, u1, u2]
  have hs : (addToHistory doc (releaseGuard (handleUndo^[k] s))).historyStep
      = (s.history.take (s.historyStep - k + 1) ++ [doc]).length - 1 := by
    rw [addToHistory_clear _ _ hg]
    simp [releaseGuard, u1, u2]
  have hlt := hinv.2
  have hlen : (s.history.take (s.historyStep - k + 1) ++ [doc]).length
      = (s.historyStep - k) + 2 := by
    simp [List.length_take]
    omega
  refine ⟨hh, by rw [hh, hlen], by rw [hs, hh, hlen]; omega, ?_, ?_, ?_⟩
  · apply handleRedo_last
    rw [hs, hh, hlen]
    omega
  · simp [List.length_drop]
    omega
  · intro hlast
    simp [List.length_drop]
    omega

/-- An instance of C2: two undos from `sampleState`, then a commit. -/
theorem C2_witness :
    historyInv sampleState ∧ 2 ≤ sampleState.historyStep ∧
    (addToHistory [sampleRect 7] (releaseGuard (handleUndo^[2] sampleState))).history
      = sampleState.history.take (sampleState.historyStep - 2 + 1) ++ [[sampleRect 7]] :=
  ⟨by simp [historyInv, sampleState_history], by simp [sampleState_history],
    (C2_commit_after_undo_discards_redo_tail sampleState 2 [sampleRect 7]
      (by simp [historyInv, sampleState_history]) (by simp [sampleState_history])).1⟩

/-- C3: the history invariant `0 <= historyStep < history.length` holds in the
initial state and is preserved by `addToHistory`, `handleUndo`, `handleRedo`
and `handleCroppedImage` (both its immediate part and its load callback, which
establishes the invariant whatever the state it was created in). -/
theorem C3_history_invariant :
    historyInv initialState ∧
    (∀ (doc : Document) (s : State), historyInv s → historyInv (addToHistory doc s)) ∧
    (∀ s : State, historyInv s → historyInv (handleUndo s)) ∧
    (∀ s : State, historyInv s → historyInv (handleRedo s)) ∧
    (∀ (url : Option String) (s : State), historyInv s → historyInv (handleCroppedImage url s)) ∧
    (∀ (img : Bitmap) (c s : State), historyInv s →
      historyInv (handleCroppedImage_onload img c s)) := by
  refine ⟨by simp [historyInv, initialState], ?_, ?_, ?_, ?_, ?_⟩
  · intro doc s h
    unfold addToHistory
    split
    · exact h
    · simp [historyInv]
  · intro s h
    unfold handleUndo
    split
    · have := h.2
      dsimp only
      split <;> exact ⟨Nat.zero_le _, by dsimp only; omega⟩
    · exact h
  · intro s h
    unfold handleRedo
    split
    · rename_i hlt
      dsimp only
      split <;> exact ⟨Nat.zero_le _, by dsimp only; omega⟩
    · exact h
  · intro url s h
    unfold handleCroppedImage
    split <;> exact h
  · intro img c s h
    unfold handleCroppedImage_onload
    split
    · exact h
    · simp [historyInv]

/-- An instance of C3: the invariant after an undo from `sampleState`. -/
theorem C3_witness : historyInv sampleState ∧ historyInv (handleUndo sampleState) :=
  ⟨by simp [historyInv, sampleState_history],
    C3_history_invariant.2.2.1 sampleState (by simp [historyInv, sampleState_history])⟩

/-- C5: with the guard flag clear, in a state satisfying the history invariant,
`addToHistory(doc)` yields the history `history[0 .. historyStep]` followed by
`doc` and the cursor `historyStep + 1`, and every entry at an index up to the
old `historyStep` is unchanged. -/
theorem C5_addToHistory_truncates_and_appends (doc : Document) (s : State)
    (hinv : historyInv s) (hclear : s.isPerformingAction = false) :
    (addToHistory doc s).history = s.history.take (s.historyStep + 1) ++ [doc] ∧
    (addToHistory doc s).historyStep = s.historyStep + 1 ∧
    (addToHistory doc s).history[s.historyStep + 1]? = some doc ∧
    (∀ i, i ≤ s.historyStep → (addToHistory doc s).history[i]? = s.history[i]?) := by
  have hlt := hinv.2
  rw [addToHistory_clear _ _ hclear]
  have hlen : (s.history.take (s.historyStep + 1)).length = s.historyStep + 1 := by
    simp [List.length_take]; omega
  refine ⟨rfl, ?_, ?_, ?_⟩
  · simp [List.length_take]; omega
  · show (s.history.take (s.historyStep + 1) ++ [doc])[s.historyStep + 1]? = some doc
    rw [List.getElem?_append_right (by omega)]
    simp [hlen]
  · intro i hi
    show (s.history.take (s.historyStep + 1) ++ [doc])[i]? = s.history[i]?
    rw [List.getElem?_append_left (by omega)]
    rw [List.getElem?_take_of_lt (by omega)]

/-- An instance of C5: a commit on `sampleState` after one undo and the release
of the guard drops the third snapshot. -/
theorem C5_witness :
    historyInv (releaseGuard (handleUndo sampleState)) ∧
    (releaseGuard (handleUndo sampleState)).isPerformingAction = false ∧
    (addToHistory [sampleRect 9] (releaseGuard (handleUndo sampleState))).history
      = (releaseGuard (handleUndo sampleState)).history.take
          ((releaseGuard (handleUndo sampleState)).historyStep + 1) ++ [[sampleRect 9]] :=
  ⟨by simp [historyInv, releaseGuard, handleUndo, sampleState_history], rfl,
    (C5_addToHistory_truncates_and_appends [sampleRect 9] (releaseGuard (handleUndo sampleState))
      (by simp [historyInv, releaseGuard, handleUndo, sampleState_history]) rfl).1⟩

/-- C6: in a state satisfying the history invariant, `handleUndo` with
`historyStep > 0` decreases the cursor by exactly 1 and makes the live Document
`history[historyStep - 1]`; with `historyStep = 0` it leaves the cursor and the
live Document (indeed the whole state) unchanged; in both cases the history
list is unchanged. -/
theorem C6_handleUndo (s : State) (hinv : historyInv s) :
    (0 < s.historyStep →
      (handleUndo s).historyStep + 1 = s.historyStep ∧
      s.history[s.historyStep - 1]? = some (handleUndo s).shapes) ∧
    (s.historyStep = 0 →
      (handleUndo s).historyStep = s.historyStep ∧ (handleUndo s).shapes = s.shapes ∧
      handleUndo s = s) ∧
    (handleUndo s).history = s.history := by
  refine ⟨fun hpos => ?_, fun h0 => ?_, handleUndo_history s⟩
  · have hlt : s.historyStep - 1 < s.history.length := by have := hinv.2; omega
    have hd : s.history[s.historyStep - 1]? = some (s.history[s.historyStep - 1]) :=
      List.getElem?_eq_getElem hlt
    rw [handleUndo_pos s _ hpos hd]
    exact ⟨by dsimp only; omega, hd⟩
  · rw [handleUndo_zero s h0]
    exact ⟨rfl, rfl, rfl⟩

/-- An instance of C6 at `sampleState`, whose cursor is 2. -/
theorem C6_witness :
    historyInv sampleState ∧ (handleUndo sampleState).history = sampleState.history :=
  ⟨by simp [historyInv, sampleState_history],
    (C6_handleUndo sampleState (by simp [historyInv, sampleState_history])).2.2⟩

/-- C7: while the guard flag `isPerformingAction` is set, `addToHistory` leaves
`history` and `historyStep` (indeed the whole state) unchanged for every
document; `handleUndo` and `handleRedo` set the flag whenever they move the
cursor, so an `addToHistory` that follows them before the release changes
nothing. -/
theorem C7_guard_suppresses_commit :
    (∀ (doc : Document) (s : State), s.isPerformingAction = true →
      (addToHistory doc s).history = s.history ∧
      (addToHistory doc s).historyStep = s.historyStep ∧ addToHistory doc s = s) ∧
    (∀ (doc : Document) (s : State), 0 < s.historyStep →
      (handleUndo s).isPerformingAction = true ∧
      addToHistory doc (handleUndo s) = handleUndo s) ∧
    (∀ (doc : Document) (s : State), s.historyStep + 1 < s.history.length →
      (handleRedo s).isPerformingAction = true ∧
      addToHistory doc (handleRedo s) = handleRedo s) := by
  refine ⟨fun doc s h => ?_, fun doc s h => ?_, fun doc s h => ?_⟩
  · rw [addToHistory_guarded doc s h]
    exact ⟨rfl, rfl, rfl⟩
  · have hf : (handleUndo s).isPerformingAction = true := by
      unfold handleUndo
      rw [if_pos h]
      dsimp only
      split <;> rfl
    exact ⟨hf, addToHistory_guarded _ _ hf⟩
  · have hf : (handleRedo s).isPerformingAction = true := by
      unfold handleRedo
      rw [if_pos (by omega)]
      dsimp only
      split <;> rfl
    exact ⟨hf, addToHistory_guarded _ _ hf⟩

/-- An instance of C7: a commit right after an undo from `sampleState`. -/
theorem C7_witness :
    0 < sampleState.historyStep ∧
    addToHistory [sampleRect 3] (handleUndo sampleState) = handleUndo sampleState :=
  ⟨by simp [sampleState_history],
    (C7_guard_suppresses_commit.2.1 [sampleRect 3] sampleState
      (by simp [sampleState_history])).2⟩

/-! ## The claims on the gestures -/

/-- C4: the handlers `handleRotateImage`, `handleTransformEnd`, `handleDragEnd`
and `handleResetImageTransform`, run with the guard flag clear on a state whose
live Document is under the cursor, each push one snapshot, but the snapshot is
the Document of before the handler ran, not the resulting live Document:
after each of them `history[historyStep]` differs from the live Document. -/
theorem C4_transform_handlers_commit_previous_document :
    imageSelectedState.isPerformingAction = false ∧
    imageSelectedState.history[imageSelectedState.historyStep]?
      = some imageSelectedState.shapes ∧
    ((handleRotateImage imageSelectedState).history
        = imageSelectedState.history ++ [imageSelectedState.shapes] ∧
      (handleRotateImage imageSelectedState).history[
        (handleRotateImage imageSelectedState).historyStep]? = some imageSelectedState.shapes ∧
      (handleRotateImage imageSelectedState).shapes ≠ imageSelectedState.shapes) ∧
    ((handleTransformEnd ⟨2, 2, 0⟩ imageSelectedState).history[
        (handleTransformEnd ⟨2, 2, 0⟩ imageSelectedState).historyStep]?
        = some imageSelectedState.shapes ∧
      (handleTransformEnd ⟨2, 2, 0⟩ imageSelectedState).shapes ≠ imageSelectedState.shapes) ∧
    ((handleDragEnd ⟨none, 5, 5⟩ 0 imageSelectedState).map
        (fun t => (t.history[t.historyStep]?, decide (t.shapes = imageSelectedState.shapes)))
        = some (some imageSelectedState.shapes, false)) ∧
    ((handleResetImageTransform (handleRotateImage imageSelectedState)).history[
        (handleResetImageTransform (handleRotateImage imageSelectedState)).historyStep]?
        = some (handleRotateImage imageSelectedState).shapes ∧
      (handleResetImageTransform (handleRotateImage imageSelectedState)).shapes
        ≠ (handleRotateImage imageSelectedState).shapes) := by
  rw [imageSelectedState_eq]
  refine ⟨rfl, rfl, ?_, ?_, ?_, ?_⟩
  · simp [handleRotateImage, addToHistory, arrayAssign, orDefault, initialState, insertedImage]
  · simp [handleTransformEnd, addToHistory, arrayAssign, initialState, insertedImage]
  · simp [handleDragEnd, addToHistory, arrayAssign, initialState, insertedImage, hole]
  · simp [handleResetImageTransform, handleRotateImage, addToHistory, arrayAssign, orDefault,
      initialState, insertedImage]

/-- C8, as stated, fails: `guardedState` is reached from the initial state by
drawing a rectangle and undoing it, its live Document (empty) is the snapshot
under its cursor, yet after drawing a rectangle from it `handleUndo` leaves the
new rectangle in the live Document instead of restoring the empty Document
(the guard flag is still set when the pointer is released, so the gesture is
not committed). -/
theorem C8_counterexample :
    (pointerGesture trivialMath noRandom ⟨10, 10⟩ [⟨⟨60, 40⟩, noRandom⟩] initialState).map
        handleUndo = some guardedState ∧
    guardedState.history[guardedState.historyStep]? = some guardedState.shapes ∧
    guardedState.shapes = [] ∧
    (pointerGesture trivialMath noRandom ⟨20, 20⟩ [⟨⟨30, 35⟩, noRandom⟩] guardedState).map
        (fun t => (handleUndo t).shapes)
      = some [rectangleTo initialState ⟨20, 20⟩ ⟨30, 35⟩] ∧
    [rectangleTo initialState ⟨20, 20⟩ ⟨30, 35⟩] ≠ guardedState.shapes := by
  refine ⟨?_, rfl, rfl, ?_, by simp [guardedState, initialState]⟩
  · simp [pointerGesture, pointerMoves, handleMouseDown, handleMouseMove, growShape,
      handleMouseUp, addToHistory, handleUndo, initialState, guardedState, rectangleTo]
  · simp [pointerGesture, pointerMoves, handleMouseDown, handleMouseMove, growShape,
      handleMouseUp, addToHistory, handleUndo, initialState, guardedState, rectangleTo]

/-- C8, amended: (1) from the initial state, drawing a rectangle (pointer-down
at `p0`, one or more pointer-moves, pointer-up) and then `handleUndo` makes the
live Document empty, and a following `handleRedo` makes it the one rectangle
drawn; (2) from any state with the guard flag clear, no crop rectangle active,
a drawing tool selected and the live Document equal to `history[historyStep]`,
a drawing gesture completes, `handleUndo` after it restores the pre-gesture
Document and `handleRedo` then restores the post-gesture Document. -/
theorem C8_draw_undo_redo (m : JSMath) :
    (∀ (rand0 : ℕ → ℚ) (p0 : Point) (init : List MoveSample) (last : MoveSample),
      ∃ s1, pointerGesture m rand0 p0 (init ++ [last]) initialState = some s1 ∧
        s1.shapes = [rectangleTo initialState p0 last.pos] ∧
        (handleUndo s1).shapes = [] ∧
        (handleRedo (handleUndo s1)).shapes = [rectangleTo initialState p0 last.pos]) ∧
    (∀ (rand0 : ℕ → ℚ) (p0 : Point) (moves : List MoveSample) (s : State),
      s.isPerformingAction = false → (s.isCropping && s.cropRectVisible) = false →
      s.tool ≠ Tool.move → s.tool ≠ Tool.cropImage →
      s.history[s.historyStep]? = some s.shapes →
      ∃ s1, pointerGesture m rand0 p0 moves s = some s1 ∧
        (handleUndo s1).shapes = s.shapes ∧
        (handleRedo (handleUndo s1)).shapes = s1.shapes) := by
  constructor
  · intro rand0 p0 init last
    obtain ⟨s1, g1, g2, _, _, g5, g6⟩ := pointerGesture_undo_redo m rand0 p0 (init ++ [last])
      initialState rfl rfl (by decide) (by decide) rfl
    have hfam := pointerMoves_family m (rectangleTo initialState p0) Tool.rectangle
      BrushType.normal (fun q p => rectangleTo_grow m initialState BrushType.normal p0 q p)
      (by decide) (init ++ [last]) (handleMouseDown m rand0 p0 initialState) [] p0
      (by rw [handleMouseDown_rectangle m rand0 p0 initialState rfl]; rfl)
      (by rw [handleMouseDown_rectangle m rand0 p0 initialState rfl]; rfl)
      (by rw [handleMouseDown_rectangle m rand0 p0 initialState rfl]; rfl)
      (by rw [handleMouseDown_rectangle m rand0 p0 initialState rfl])
      (by rw [handleMouseDown_rectangle m rand0 p0 initialState rfl]; rfl)
    rw [hfam, lastPos_concat] at g2
    have hsh : s1.shapes = [rectangleTo initialState p0 last.pos] := by
      have := congrArg State.shapes (Option.some.inj g2)
      simpa using this.symm
    exact ⟨s1, g1, hsh, g5, by rw [g6, hsh]⟩
  · intro rand0 p0 moves s hg hc h1 h2 hlive
    obtain ⟨s1, g1, _, _, _, g5, g6⟩ :=
      pointerGesture_undo_redo m rand0 p0 moves s hg hc h1 h2 hlive
    exact ⟨s1, g1, g5, g6⟩

/-- An instance of C8: a freehand stroke drawn on `sampleState`, whose live
Document holds two rectangles. -/
theorem C8_witness :
    ({ sampleState with tool := Tool.line } : State).isPerformingAction = false ∧
    ∃ s1, pointerGesture trivialMath noRandom ⟨1, 1⟩ [⟨⟨2, 3⟩, noRandom⟩]
        { sampleState with tool := Tool.line } = some s1 ∧
      (handleUndo s1).shapes = [sampleRect 0, sampleRect 5] ∧
      (handleRedo (handleUndo s1)).shapes = s1.shapes :=
  ⟨sampleState_history.2.2,
    (C8_draw_undo_redo trivialMath).2 noRandom ⟨1, 1⟩ [⟨⟨2, 3⟩, noRandom⟩]
      { sampleState with tool := Tool.line } sampleState_history.2.2
      (by simp [sampleState, setShapesAndCommit, addToHistory, initialState])
      (by decide) (by decide)
      (by simp [sampleState, setShapesAndCommit, addToHistory, initialState])⟩

/-- C9: in a state with the rectangle tool and no crop rectangle active, after
pointer-down at `(x0, y0)` the shape being drawn (the last shape, appended to
the Document) is a rectangle with `x = x0`, `y = y0`, `width = height = 0`,
and after any non-empty sequence of pointer-moves ending at `(x1, y1)` it has
`x = x0`, `y = y0`, `width = x1 - x0` and `height = y1 - y0`, whatever the
intermediate samples. -/
theorem C9_rectangle_extent (m : JSMath) (rand0 : ℕ → ℚ) (p0 : Point) (s : State)
    (ht : s.tool = Tool.rectangle) (hc : (s.isCropping && s.cropRectVisible) = false) :
    (∃ sh, (handleMouseDown m rand0 p0 s).shapes = s.shapes ++ [sh] ∧
      sh.type = some ShapeType.rect ∧ sh.x = some p0.x ∧ sh.y = some p0.y ∧
      sh.width = some 0 ∧ sh.height = some 0) ∧
    (∀ (init : List MoveSample) (last : MoveSample),
      ∃ t sh, pointerMoves m (init ++ [last]) (handleMouseDown m rand0 p0 s) = some t ∧
        t.shapes = s.shapes ++ [sh] ∧
        sh.type = some ShapeType.rect ∧ sh.x = some p0.x ∧ sh.y = some p0.y ∧
        sh.width = some (last.pos.x - p0.x) ∧ sh.height = some (last.pos.y - p0.y)) := by
  have hdown := handleMouseDown_rectangle m rand0 p0 s ht
  constructor
  · exact ⟨rectangleTo s p0 p0, by rw [hdown], rfl, rfl, rfl, by simp [rectangleTo],
      by simp [rectangleTo]⟩
  · intro init last
    have hfam := pointerMoves_family m (rectangleTo s p0) Tool.rectangle s.brushType
      (fun q p => rectangleTo_grow m s s.brushType p0 q p) (by simp) (init ++ [last])
      (handleMouseDown m rand0 p0 s) s.shapes p0
      (by rw [hdown]; exact ht) (by rw [hdown]) (by rw [hdown]; exact hc) (by rw [hdown])
      (by rw [hdown])
    rw [lastPos_concat] at hfam
    exact ⟨_, rectangleTo s p0 last.pos, hfam, rfl, rfl, rfl, rfl, rfl, rfl⟩

/-- The scenario of C9: from the initial state, a rectangle drawn from
`(10, 10)` through `(25, 70)` to `(60, 40)` has `x = 10`, `y = 10`,
`width = 50` and `height = 30`. -/
theorem C9_witness :
    initialState.tool = Tool.rectangle ∧
    (initialState.isCropping && initialState.cropRectVisible) = false ∧
    ∃ t sh, pointerMoves trivialMath [⟨⟨25, 70⟩, noRandom⟩, ⟨⟨60, 40⟩, noRandom⟩]
        (handleMouseDown trivialMath noRandom ⟨10, 10⟩ initialState) = some t ∧
      t.shapes = [sh] ∧ sh.type = some ShapeType.rect ∧
      sh.x = some 10 ∧ sh.y = some 10 ∧ sh.width = some 50 ∧ sh.height = some 30 := by
  obtain ⟨t, sh, h1, h2, h3, h4, h5, h6, h7⟩ :=
    (C9_rectangle_extent trivialMath noRandom ⟨10, 10⟩ initialState rfl rfl).2
      [⟨⟨25, 70⟩, noRandom⟩] ⟨⟨60, 40⟩, noRandom⟩
  refine ⟨rfl, rfl, t, sh, h1, h2, h3, h4, h5, ?_, ?_⟩
  · rw [h6]; norm_num
  · rw [h7]; norm_num

/-- C10: in a state with the square tool and no crop rectangle active, after
pointer-down at `(x0, y0)` and any sequence of pointer-moves, the square being
drawn has, after each sample `(x, y)`, `size = max(|x - x0|, |y - y0|)`, which
is non-negative, and `renderShape` gives it a width and a height that are both
that size (before any move the size is 0). -/
theorem C10_square_size (m : JSMath) (rand0 : ℕ → ℚ) (p0 : Point) (s : State)
    (ht : s.tool = Tool.square) (hc : (s.isCropping && s.cropRectVisible) = false) :
    (∃ sh, (handleMouseDown m rand0 p0 s).shapes = s.shapes ++ [sh] ∧
      sh.type = some ShapeType.square ∧ sh.size = some 0 ∧
      renderShape sh = some (KonvaNode.Rect (some p0.x) (some p0.y) (some 0) (some 0))) ∧
    (∀ (init : List MoveSample) (last : MoveSample),
      ∃ t sh, pointerMoves m (init ++ [last]) (handleMouseDown m rand0 p0 s) = some t ∧
        t.shapes = s.shapes ++ [sh] ∧
        sh.type = some ShapeType.square ∧
        sh.size = some (max |last.pos.x - p0.x| |last.pos.y - p0.y|) ∧
        0 ≤ max |last.pos.x - p0.x| |last.pos.y - p0.y| ∧
        renderShape sh = some (KonvaNode.Rect (some p0.x) (some p0.y)
          (some (max |last.pos.x - p0.x| |last.pos.y - p0.y|))
          (some (max |last.pos.x - p0.x| |last.pos.y - p0.y|)))) := by
  have hdown := handleMouseDown_square m rand0 p0 s ht
  constructor
  · exact ⟨squareTo s p0 p0, by rw [hdown], rfl, by simp [squareTo],
      by simp [renderShape, squareTo]⟩
  · intro init last
    have hfam := pointerMoves_family m (squareTo s p0) Tool.square s.brushType
      (fun q p => squareTo_grow m s s.brushType p0 q p) (by simp) (init ++ [last])
      (handleMouseDown m rand0 p0 s) s.shapes p0
      (by rw [hdown]; exact ht) (by rw [hdown]) (by rw [hdown]; exact hc) (by rw [hdown])
      (by rw [hdown])
    rw [lastPos_concat] at hfam
    exact ⟨_, squareTo s p0 last.pos, hfam, rfl, rfl, rfl,
      le_max_of_le_left (abs_nonneg _), by simp [renderShape, squareTo]⟩

/-- An instance of C10: from the initial state with the square tool, a square
drawn from `(10, 10)` through `(0, 0)` to `(14, 3)` has size 7. -/
theorem C10_witness :
    ({ initialState with tool := Tool.square } : State).tool = Tool.square ∧
    ∃ t sh, pointerMoves trivialMath [⟨⟨0, 0⟩, noRandom⟩, ⟨⟨14, 3⟩, noRandom⟩]
        (handleMouseDown trivialMath noRandom ⟨10, 10⟩
          { initialState with tool := Tool.square }) = some t ∧
      t.shapes = [sh] ∧ sh.size = some 7 ∧
      renderShape sh = some (KonvaNode.Rect (some 10) (some 10) (some 7) (some 7)) := by
  obtain ⟨t, sh, h1, h2, _, h4, _, h6⟩ :=
    (C10_square_size trivialMath noRandom ⟨10, 10⟩ { initialState with tool := Tool.square }
      rfl rfl).2 [⟨⟨0, 0⟩, noRandom⟩] ⟨⟨14, 3⟩, noRandom⟩
  have h7 : max |(14 : ℚ) - 10| |(3 : ℚ) - 10| = 7 := by
    rw [abs_of_nonneg (by norm_num), abs_of_nonpos (by norm_num)]
    norm_num
  refine ⟨rfl, t, sh, h1, h2, ?_, ?_⟩
  · rw [h4]; simpa using h7
  · rw [h6]; simpa using h7

/-- C11: in a state with the straight-line tool and no crop rectangle active,
after pointer-down at `(x0, y0)` the points list of the shape being drawn is
`[x0, y0, x0, y0]`, and after any non-empty sequence of pointer-moves ending at
`(x, y)` it is `[x0, y0, x, y]`: it always has length exactly 4. -/
theorem C11_straight_line_points (m : JSMath) (rand0 : ℕ → ℚ) (p0 : Point) (s : State)
    (ht : s.tool = Tool.straightLine) (hc : (s.isCropping && s.cropRectVisible) = false) :
    (∃ sh, (handleMouseDown m rand0 p0 s).shapes = s.shapes ++ [sh] ∧
      sh.type = some ShapeType.straightLine ∧
      sh.points = some [p0.x, p0.y, p0.x, p0.y] ∧ sh.points.map List.length = some 4) ∧
    (∀ (init : List MoveSample) (last : MoveSample),
      ∃ t sh, pointerMoves m (init ++ [last]) (handleMouseDown m rand0 p0 s) = some t ∧
        t.shapes = s.shapes ++ [sh] ∧
        sh.type = some ShapeType.straightLine ∧
        sh.points = some [p0.x, p0.y, last.pos.x, last.pos.y] ∧
        sh.points.map List.length = some 4) := by
  have hdown := handleMouseDown_straightLine m rand0 p0 s ht
  constructor
  · exact ⟨straightLineTo s p0 p0, by rw [hdown], rfl, rfl, rfl⟩
  · intro init last
    have hfam := pointerMoves_family m (straightLineTo s p0) Tool.straightLine s.brushType
      (fun q p => straightLineTo_grow m s s.brushType p0 q p) (by simp) (init ++ [last])
      (handleMouseDown m rand0 p0 s) s.shapes p0
      (by rw [hdown]; exact ht) (by rw [hdown]) (by rw [hdown]; exact hc) (by rw [hdown])
      (by rw [hdown])
    rw [lastPos_concat] at hfam
    exact ⟨_, straightLineTo s p0 last.pos, hfam, rfl, rfl, rfl, rfl⟩

/-- An instance of C11: from the initial state with the straight-line tool, a
line started at `(1, 2)` and moved through `(9, 9)` to `(5, 7)`. -/
theorem C11_witness :
    ({ initialState with tool := Tool.straightLine } : State).tool = Tool.straightLine ∧
    ∃ t sh, pointerMoves trivialMath [⟨⟨9, 9⟩, noRandom⟩, ⟨⟨5, 7⟩, noRandom⟩]
        (handleMouseDown trivialMath noRandom ⟨1, 2⟩
          { initialState with tool := Tool.straightLine }) = some t ∧
      t.shapes = [sh] ∧ sh.points = some [1, 2, 5, 7] := by
  obtain ⟨t, sh, h1, h2, _, h4, _⟩ :=
    (C11_straight_line_points trivialMath noRandom ⟨1, 2⟩
      { initialState with tool := Tool.straightLine } rfl rfl).2
      [⟨⟨9, 9⟩, noRandom⟩] ⟨⟨5, 7⟩, noRandom⟩
  exact ⟨rfl, t, sh, h1, h2, h4⟩

/-- C12: in a state with no crop rectangle active and either the line tool with
a non-spray brush or the eraser tool, after pointer-down at `p0` and the
pointer-moves `moves` (n samples) the points list of the shape in progress is
the coordinates of `p0` followed by those of the samples in arrival order, and
its length is `2n + 2`. -/
theorem C12_freehand_points (m : JSMath) (rand0 : ℕ → ℚ) (p0 : Point) (s : State)
    (moves : List MoveSample)
    (ht : (s.tool = Tool.line ∧ s.brushType ≠ BrushType.spray) ∨ s.tool = Tool.eraser)
    (hc : (s.isCropping && s.cropRectVisible) = false) :
    ∃ t sh, pointerMoves m moves (handleMouseDown m rand0 p0 s) = some t ∧
      t.shapes = s.shapes ++ [sh] ∧
      sh.type = some ShapeType.line ∧
      sh.points = some (p0.x :: p0.y :: samplePoints moves) ∧
      (p0.x :: p0.y :: samplePoints moves).length = 2 * moves.length + 2 := by
  have hlen : (p0.x :: p0.y :: samplePoints moves).length = 2 * moves.length + 2 := by
    simp [samplePoints_length]
  rcases ht with ⟨ht, hb⟩ | ht
  · have hdown := handleMouseDown_line m rand0 p0 s ht hb
    have hacc := pointerMoves_accumulate m (freehandLine s) (fun pts p => pts ++ [p.x, p.y])
      Tool.line s.brushType (fun pts p => freehandLine_grow m s s.brushType hb pts p)
      (fun h => hb h.1) moves (handleMouseDown m rand0 p0 s) s.shapes [p0.x, p0.y]
      (by rw [hdown]; exact ht) (by rw [hdown]) (by rw [hdown]; exact hc) (by rw [hdown])
      (by rw [hdown])
    rw [foldl_samplePoints] at hacc
    exact ⟨_, freehandLine s ([p0.x, p0.y] ++ samplePoints moves), hacc, rfl, rfl, rfl, hlen⟩
  · have hdown := handleMouseDown_eraser m rand0 p0 s ht
    have hacc := pointerMoves_accumulate m (eraserLine s) (fun pts p => pts ++ [p.x, p.y])
      Tool.eraser s.brushType (fun pts p => eraserLine_grow m s s.brushType pts p)
      (by simp) moves (handleMouseDown m rand0 p0 s) s.shapes [p0.x, p0.y]
      (by rw [hdown]; exact ht) (by rw [hdown]) (by rw [hdown]; exact hc) (by rw [hdown])
      (by rw [hdown])
    rw [foldl_samplePoints] at hacc
    exact ⟨_, eraserLine s ([p0.x, p0.y] ++ samplePoints moves), hacc, rfl, rfl, rfl, hlen⟩

/-- An instance of C12: from the initial state with the line tool and the
normal brush, a stroke from `(1, 2)` through `(3, 4)` and `(5, 6)`. -/
theorem C12_witness :
    (({ initialState with tool := Tool.line } : State).tool = Tool.line ∧
      ({ initialState with tool := Tool.line } : State).brushType ≠ BrushType.spray) ∧
    ∃ t sh, pointerMoves trivialMath [⟨⟨3, 4⟩, noRandom⟩, ⟨⟨5, 6⟩, noRandom⟩]
        (handleMouseDown trivialMath noRandom ⟨1, 2⟩
          { initialState with tool := Tool.line }) = some t ∧
      t.shapes = [sh] ∧ sh.points = some [1, 2, 3, 4, 5, 6] := by
  obtain ⟨t, sh, h1, h2, _, h4, _⟩ :=
    C12_freehand_points trivialMath noRandom ⟨1, 2⟩ { initialState with tool := Tool.line }
      [⟨⟨3, 4⟩, noRandom⟩, ⟨⟨5, 6⟩, noRandom⟩] (Or.inl ⟨rfl, by decide⟩) rfl
  exact ⟨⟨rfl, by decide⟩, t, sh, h1, h2, h4⟩

/-- C13: in a state with the eraser tool and no crop rectangle active,
pointer-down appends exactly one shape, a white freehand line whose
`strokeWidth` is `5 * brushSize`; and a whole eraser gesture (pointer-down, any
pointer-moves, pointer-up) completes with a Document one shape longer, in
which every shape that was already there is unchanged at its index. -/
theorem C13_eraser_paints_over (m : JSMath) (rand0 : ℕ → ℚ) (p0 : Point) (s : State)
    (ht : s.tool = Tool.eraser) (hc : (s.isCropping && s.cropRectVisible) = false) :
    (∃ sh, (handleMouseDown m rand0 p0 s).shapes = s.shapes ++ [sh] ∧
      sh.type = some ShapeType.line ∧ sh.stroke = some "white" ∧
      sh.strokeWidth = some (5 * (s.brushSize : ℚ))) ∧
    (∀ moves : List MoveSample,
      ∃ s1 sh, pointerGesture m rand0 p0 moves s = some s1 ∧
        s1.shapes = s.shapes ++ [sh] ∧
        sh.type = some ShapeType.line ∧ sh.strokeWidth = some (5 * (s.brushSize : ℚ)) ∧
        s1.shapes.length = s.shapes.length + 1 ∧
        (∀ i, i < s.shapes.length → s1.shapes[i]? = s.shapes[i]?)) := by
  have hdown := handleMouseDown_eraser m rand0 p0 s ht
  have hw : (eraserLine s [p0.x, p0.y]).strokeWidth = some (5 * (s.brushSize : ℚ)) := by
    simp [eraserLine, mul_comm]
  constructor
  · exact ⟨eraserLine s [p0.x, p0.y], by rw [hdown], rfl, rfl, hw⟩
  · intro moves
    have hacc := pointerMoves_accumulate m (eraserLine s) (fun pts p => pts ++ [p.x, p.y])
      Tool.eraser s.brushType (fun pts p => eraserLine_grow m s s.brushType pts p)
      (by simp) moves (handleMouseDown m rand0 p0 s) s.shapes [p0.x, p0.y]
      (by rw [hdown]; exact ht) (by rw [hdown]) (by rw [hdown]; exact hc) (by rw [hdown])
      (by rw [hdown])
    have hc1 : ((handleMouseDown m rand0 p0 s).isCropping
        && (handleMouseDown m rand0 p0 s).cropRectVisible) = false := by rw [hdown]; exact hc
    have hs1 : (handleMouseUp { handleMouseDown m rand0 p0 s with
        shapes := s.shapes ++ [eraserLine s
          (moves.foldl (fun pts mv => pts ++ [mv.pos.x, mv.pos.y]) [p0.x, p0.y])] }).shapes
        = s.shapes ++ [eraserLine s
          (moves.foldl (fun pts mv => pts ++ [mv.pos.x, mv.pos.y]) [p0.x, p0.y])] :=
      handleMouseUp_shapes _ hc1
    refine ⟨_, eraserLine s (moves.foldl (fun pts mv => pts ++ [mv.pos.x, mv.pos.y])
      [p0.x, p0.y]), by rw [pointerGesture, hacc]; rfl, hs1, rfl, ?_, ?_, ?_⟩
    · simp [eraserLine, mul_comm]
    · rw [hs1]
      simp
    · intro i hi
      rw [hs1, List.getElem?_append_left hi]

/-- An instance of C13: an eraser stroke over the two rectangles of
`sampleState`. -/
theorem C13_witness :
    ({ sampleState with tool := Tool.eraser } : State).tool = Tool.eraser ∧
    ∃ s1 sh, pointerGesture trivialMath noRandom ⟨0, 0⟩ [⟨⟨6, 1⟩, noRandom⟩]
        { sampleState with tool := Tool.eraser } = some s1 ∧
      s1.shapes = ({ sampleState with tool := Tool.eraser } : State).shapes ++ [sh] ∧
      sh.type = some ShapeType.line := by
  obtain ⟨s1, sh, h1, h2, h3, _⟩ :=
    (C13_eraser_paints_over trivialMath noRandom ⟨0, 0⟩ { sampleState with tool := Tool.eraser }
      rfl (by simp [sampleState, setShapesAndCommit, addToHistory, initialState])).2
      [⟨⟨6, 1⟩, noRandom⟩]
  exact ⟨rfl, s1, sh, h1, h2, h3⟩

/-- C14: for every sample point `(x, y)`, brush size `b`, opacity `o >= 0` and
random draws in `[0, 1)`, `handleSpray` appends exactly `2 * b` shapes to the
Document and leaves the existing shapes in place.  Each appended dot is a
circle filled with the current colour; its centre is `sprayCentre` of a radius
draw `u0` and an angle draw `u1` in `[0, 1)`, that is the point at radius
`u0 * 20 < 20` and angle `u1 * 2 * PI` from `(x, y)`: whatever cosine and sine
`Math` supplies, its squared distance from `(x, y)` is
`(u0 * 20)^2 * (cos^2 + sin^2)` of that angle, and with the mathematical cosine
and sine the centre is within distance 20 of `(x, y)`.  Its radius is in
`[0.5, b/2 + 0.5]` and its opacity in `[0, 0.7 * o]`. -/
theorem C14_handleSpray_dots (m : JSMath) (rand : ℕ → ℚ) (x y : ℚ) (s : State)
    (prev : Document)
    (hrand : ∀ n, 0 ≤ rand n ∧ rand n < 1)
    (ho : 0 ≤ s.opacity) :
    ∃ dots : List Shape, handleSpray m rand x y s prev = prev ++ dots ∧
      dots.length = 2 * s.brushSize ∧
      ∀ d ∈ dots, d.type = some ShapeType.circle ∧ d.fill = some s.color ∧
        ∃ u0 u1 r o : ℚ, 0 ≤ u0 ∧ u0 < 1 ∧ 0 ≤ u1 ∧ u1 < 1 ∧
          d.x = some (sprayCentre m.cos m.sin m.PI x y u0 u1).1 ∧
          d.y = some (sprayCentre m.cos m.sin m.PI x y u0 u1).2 ∧
          d.radius = some r ∧ d.opacity = some o ∧
          ((sprayCentre m.cos m.sin m.PI x y u0 u1).1 - x) ^ 2
              + ((sprayCentre m.cos m.sin m.PI x y u0 u1).2 - y) ^ 2
            = (u0 * 20) ^ 2 * (m.cos (u1 * 2 * m.PI) ^ 2 + m.sin (u1 * 2 * m.PI) ^ 2) ∧
          ((sprayCentre Real.cos Real.sin Real.pi (x : ℝ) (y : ℝ) (u0 : ℝ) (u1 : ℝ)).1
                - (x : ℝ)) ^ 2
              + ((sprayCentre Real.cos Real.sin Real.pi (x : ℝ) (y : ℝ) (u0 : ℝ) (u1 : ℝ)).2
                - (y : ℝ)) ^ 2
            ≤ 20 ^ 2 ∧
          1 / 2 ≤ r ∧ r ≤ (s.brushSize : ℚ) / 2 + 1 / 2 ∧
          0 ≤ o ∧ o ≤ 7 / 10 * s.opacity := by
  refine ⟨(List.range (s.brushSize * 2)).map (sprayDot m rand x y s), rfl, ?_, ?_⟩
  · simp [Nat.mul_comm]
  · intro d hd
    obtain ⟨i, _, rfl⟩ := List.mem_map.1 hd
    obtain ⟨a0, a1⟩ := hrand (2 * i)
    obtain ⟨t0, t1⟩ := hrand (2 * i + 1)
    obtain ⟨b0, b1⟩ := hrand (2 * (s.brushSize * 2) + 2 * i)
    obtain ⟨c0, c1⟩ := hrand (2 * (s.brushSize * 2) + 2 * i + 1)
    have hb : (0 : ℚ) ≤ (s.brushSize : ℚ) := Nat.cast_nonneg _
    refine ⟨rfl, rfl, rand (2 * i), rand (2 * i + 1), _, _, a0, a1, t0, t1, rfl, rfl, rfl, rfl,
      ?_, ?_, ?_, ?_, ?_, ?_⟩
    · simp only [sprayCentre]
      ring
    · have hr0 : (0 : ℝ) ≤ ((rand (2 * i) : ℚ) : ℝ) := by exact_mod_cast a0
      have hr1 : ((rand (2 * i) : ℚ) : ℝ) < 1 := by exact_mod_cast a1
      have hsq : ∀ R θ : ℝ, (x + R * 20 * Real.cos θ - x) ^ 2 + (y + R * 20 * Real.sin θ - y) ^ 2
          = (R * 20) ^ 2 * (Real.cos θ ^ 2 + Real.sin θ ^ 2) := by
        intro R θ
        ring
      simp only [sprayCentre]
      rw [hsq, Real.cos_sq_add_sin_sq, mul_one]
      nlinarith
    · have : 0 ≤ rand (2 * (s.brushSize * 2) + 2 * i) * (s.brushSize : ℚ) / 2 := by positivity
      linarith
    · have : rand (2 * (s.brushSize * 2) + 2 * i) * (s.brushSize : ℚ) ≤ 1 * (s.brushSize : ℚ) :=
        mul_le_mul_of_nonneg_right (le_of_lt b1) hb
      linarith
    · positivity
    · have : rand (2 * (s.brushSize * 2) + 2 * i + 1) * (7 / 10 * s.opacity)
          ≤ 1 * (7 / 10 * s.opacity) :=
        mul_le_mul_of_nonneg_right (le_of_lt c1) (by positivity)
      linarith

/-- An instance of C14: a spray at `(3, 4)` with brush size 3 and opacity 1/2,
the draws `sprayDraws` and the cosine and sine of `sprayMath`.  Six dots are
appended; the first has its centre at `(9/2, 6)`, at distance `5/2` from
`(3, 4)`, radius `11/16` and opacity `7/80`. -/
theorem C14_witness :
    (∀ n, 0 ≤ sprayDraws n ∧ sprayDraws n < 1) ∧
    0 ≤ sprayState.opacity ∧
    ∃ dots : List Shape, handleSpray sprayMath sprayDraws 3 4 sprayState [sampleRect 0]
        = [sampleRect 0] ++ dots ∧ dots.length = 2 * sprayState.brushSize ∧
      dots.length = 6 ∧ dots[0]? = some firstSprayDot := by
  have h1 : ∀ n, 0 ≤ sprayDraws n ∧ sprayDraws n < 1 := by
    intro n
    have hlt : n % 4 < 4 := Nat.mod_lt n (by norm_num)
    have hc : ((n % 4 : ℕ) : ℚ) < 4 := by exact_mod_cast hlt
    have h0 : (0 : ℚ) ≤ ((n % 4 : ℕ) : ℚ) := Nat.cast_nonneg _
    unfold sprayDraws
    constructor
    · positivity
    · rw [div_lt_one (by norm_num)]
      linarith
  have h3 : 0 ≤ sprayState.opacity := by
    simp [sprayState, handleOpacityChange]
  obtain ⟨dots, hd, hl, _⟩ :=
    C14_handleSpray_dots sprayMath sprayDraws 3 4 sprayState [sampleRect 0] h1 h3
  have hb : sprayState.brushSize = 3 := rfl
  have hdots : dots = (List.range (3 * 2)).map (sprayDot sprayMath sprayDraws 3 4 sprayState) :=
    (List.append_cancel_left hd).symm
  refine ⟨h1, h3, dots, hd, hl, by rw [hl, hb], ?_⟩
  rw [hdots]
  simp [sprayDot, sprayCentre, sprayMath, sprayDraws, sprayState, firstSprayDot,
    handleOpacityChange, handleBrushSizeChange, handleBrushClick, initialState]
  norm_num

/-- C15: a crop whose selection has zero width or zero height leaves the
Document and the History unchanged on both crop paths.  Inline path:
`finishCropping` never writes `shapes`, `history` or `historyStep` at once;
with a zero-area selection it starts no image load whenever the selected
image (if any) has non-zero scale factors, and when a crop of a selected image
is in progress it leaves the crop state (`isCropping` and `cropRectVisible`
become false).  Modal path: `handleCrop` returns without calling `onCrop`, so
the state of the editor is unchanged. -/
theorem C15_zero_area_crop_is_rejected :
    (∀ s : State, (finishCropping s).shapes = s.shapes ∧
      (finishCropping s).history = s.history ∧
      (finishCropping s).historyStep = s.historyStep) ∧
    (∀ s : State,
      (s.cropStartPoint.x = s.cropEndPoint.x ∨ s.cropStartPoint.y = s.cropEndPoint.y) →
      (∀ i shape, s.selectedShapeIndex = some i → s.shapes[i]? = some shape →
        shape.type = some ShapeType.image →
        ∃ sx sy, shape.scaleX = some sx ∧ shape.scaleY = some sy ∧ sx ≠ 0 ∧ sy ≠ 0) →
      finishCropping_request s = none ∧
      (∀ i shape, s.isCropping = true → s.cropRectVisible = true →
        s.selectedShapeIndex = some i → s.shapes[i]? = some shape →
        shape.type = some ShapeType.image →
        finishCropping s = { s with isCropping := false, cropRectVisible := false })) ∧
    (∀ (container : ImageCropper.Container) (st : ImageCropper.CropperState),
      st.cropBox.width = 0 ∨ st.cropBox.height = 0 →
      ImageCropper.handleCrop container st = none) ∧
    (∀ (toDataURL : ImageCropper.CropRegion → String) (container : ImageCropper.Container)
      (st : ImageCropper.CropperState) (s : State),
      st.cropBox.width = 0 ∨ st.cropBox.height = 0 →
      applyCrop toDataURL container st s = s) := by
  have hq : ∀ (p q : Point) (shape : Shape) (sx sy : ℚ),
      (p.x = q.x ∨ p.y = q.y) → shape.scaleX = some sx → shape.scaleY = some sy →
      sx ≠ 0 → sy ≠ 0 →
      (quotientLeZero (max p.x q.x - min p.x q.x) shape.scaleX = true
        ∨ quotientLeZero (max p.y q.y - min p.y q.y) shape.scaleY = true) := by
    intro p q shape sx sy hz hx hy hx0 hy0
    rcases hz with hz | hz
    · left; simp [quotientLeZero, hx, hx0, hz]
    · right; simp [quotientLeZero, hy, hy0, hz]
  have hcrop : ∀ (container : ImageCropper.Container) (st : ImageCropper.CropperState),
      st.cropBox.width = 0 ∨ st.cropBox.height = 0 →
      ImageCropper.handleCrop container st = none := by
    intro container st hz
    unfold ImageCropper.handleCrop
    split
    · rfl
    · rw [if_pos hz]
  refine ⟨?_, ?_, hcrop, ?_⟩
  · intro s
    unfold finishCropping
    split
    · exact ⟨rfl, rfl, rfl⟩
    · split
      · exact ⟨rfl, rfl, rfl⟩
      · split
        · exact ⟨rfl, rfl, rfl⟩
        · split
          · exact ⟨rfl, rfl, rfl⟩
          · dsimp only
            split <;> exact ⟨rfl, rfl, rfl⟩
  · intro s hz hw
    constructor
    · unfold finishCropping_request
      split
      · rfl
      · rename_i h1
        split
        · rfl
        · rename_i shape hsh
          split
          · rfl
          · split
            · rfl
            · rename_i h2
              obtain ⟨i, hi, hsi⟩ := Option.bind_eq_some.1 hsh
              have himg : shape.type = some ShapeType.image := by
                by_contra hne; exact h2 (Or.inl hne)
              obtain ⟨sx, sy, hx, hy, hx0, hy0⟩ := hw i shape hi hsi himg
              dsimp only
              rw [if_pos (hq s.cropStartPoint s.cropEndPoint shape sx sy hz hx hy hx0 hy0)]
    · intro i shape hc hv hi hsi himg
      obtain ⟨sx, sy, hx, hy, hx0, hy0⟩ := hw i shape hi hsi himg
      have hb : s.selectedShapeIndex.bind (fun i => s.shapes[i]?) = some shape := by
        rw [hi]; exact hsi
      have hnh : shape ≠ hole := by
        intro h
        rw [h] at himg
        exact absurd himg (by simp [hole])
      unfold finishCropping
      rw [if_neg (by simp [hc, hi]), hb]
      dsimp only
      rw [if_neg hnh, if_neg (by simp [himg, hv]),
        if_pos (hq s.cropStartPoint s.cropEndPoint shape sx sy hz hx hy hx0 hy0)]
  · intro toDataURL container st s hz
    unfold applyCrop
    rw [hcrop container st hz]

/-- An instance of C15: `finishCropping` on a zero-width selection over the
selected image of `zeroWidthCropState`. -/
theorem C15_witness :
    (zeroWidthCropState.cropStartPoint.x = zeroWidthCropState.cropEndPoint.x
      ∨ zeroWidthCropState.cropStartPoint.y = zeroWidthCropState.cropEndPoint.y) ∧
    finishCropping_request zeroWidthCropState = none := by
  have hz : zeroWidthCropState.cropStartPoint.x = zeroWidthCropState.cropEndPoint.x
      ∨ zeroWidthCropState.cropStartPoint.y = zeroWidthCropState.cropEndPoint.y :=
    Or.inl rfl
  refine ⟨hz, (C15_zero_area_crop_is_rejected.2.1 zeroWidthCropState hz ?_).1⟩
  intro i shape hi hsi _
  have hi0 : i = 0 := by
    have : zeroWidthCropState.selectedShapeIndex = some 0 := by
      simp [zeroWidthCropState, imageSelectedState_eq]
    rw [this] at hi
    exact (Option.some.inj hi).symm
  subst hi0
  have hs : zeroWidthCropState.shapes = [insertedImage] := by
    simp [zeroWidthCropState, imageSelectedState_eq]
  rw [hs] at hsi
  have : shape = insertedImage := by simpa using hsi.symm
  subst this
  exact ⟨1, 1, rfl, rfl, one_ne_zero, one_ne_zero⟩

/-- C16, as stated, fails: in `cropModalState` the modal is open on the image at
index 0, placed at `(350, 225)`; the cropper confirms the crop box with
top-left `(10, 5)` (the rectangle `(10, 5)`, 40 x 20 of the source, at
`(360, 230)` on the canvas), and the load callback of `handleCroppedImage`
leaves the shape at `(350, 225)`: its position is not the top-left corner of
the crop rectangle. -/
theorem C16_counterexample :
    cropModalState.cropImageIndex = some 0 ∧
    cropModalState.shapes[0]? = some insertedImage ∧
    ImageCropper.handleCrop ⟨100, 50⟩ sampleCropper = some ⟨10, 5, 40, 20⟩ ∧
    handleCroppedImage (some "data:image/png;base64,CCCC") cropModalState = cropModalState ∧
    ((handleCroppedImage_onload croppedBitmap cropModalState cropModalState).shapes[0]?).bind
        Shape.x = some 350 ∧
    ((handleCroppedImage_onload croppedBitmap cropModalState cropModalState).shapes[0]?).bind
        Shape.y = some 225 ∧
    (some (350 : ℚ), some (225 : ℚ)) ≠ (some 10, some 5) ∧
    (some (350 : ℚ), some (225 : ℚ)) ≠ (some (350 + 10), some (225 + 5)) := by
  rw [cropModalState_eq]
  refine ⟨rfl, rfl, ?_, ?_, ?_, ?_, ?_, ?_⟩
  · simp [ImageCropper.handleCrop, sampleCropper, sampleBitmap]
  · simp [handleCroppedImage]
  · simp [handleCroppedImage_onload, arrayAssign, insertedImage, hole]
  · simp [handleCroppedImage_onload, arrayAssign, insertedImage, hole]
  · norm_num
  · norm_num

/-- C16, amended: when the load callback of `handleCroppedImage` runs in the
state in which `handleCroppedImage` was called (history invariant holding,
`cropImageIndex` pointing at a shape), the shape at that index gets the cropped
bitmap, `originalWidth`/`originalHeight` equal to the size of that bitmap,
`rotation = 0` and `scaleX = scaleY = 1`; its position `(x, y)` is left as it
was; all other shapes and the Document length are unchanged; the history
becomes `history[0 .. historyStep]` followed by one snapshot equal to the new
Document, with the cursor on it; and the modal is closed.  The call itself,
with a non-empty URL, writes nothing. -/
theorem C16_modal_crop_replaces_bitmap (img : Bitmap) (s : State) (idx : ℕ) (shape : Shape)
    (hinv : historyInv s) (hidx : s.cropImageIndex = some idx)
    (hsh : s.shapes[idx]? = some shape) :
    (∀ url : String, url ≠ "" → handleCroppedImage (some url) s = s) ∧
    (∃ sh : Shape, (handleCroppedImage_onload img s s).shapes[idx]? = some sh ∧
      sh.type = shape.type ∧ sh.image = some img ∧
      sh.originalWidth = some img.width ∧ sh.originalHeight = some img.height ∧
      sh.rotation = some 0 ∧ sh.scaleX = some 1 ∧ sh.scaleY = some 1 ∧
      sh.x = shape.x ∧ sh.y = shape.y) ∧
    (handleCroppedImage_onload img s s).shapes.length = s.shapes.length ∧
    (∀ j, j ≠ idx → (handleCroppedImage_onload img s s).shapes[j]? = s.shapes[j]?) ∧
    (handleCroppedImage_onload img s s).history
      = s.history.take (s.historyStep + 1) ++ [(handleCroppedImage_onload img s s).shapes] ∧
    (handleCroppedImage_onload img s s).historyStep = s.historyStep + 1 ∧
    (handleCroppedImage_onload img s s).showCropModal = false := by
  have hlt : idx < s.shapes.length := (List.getElem?_eq_some_iff.1 hsh).1
  have hstep := hinv.2
  have hshapes : (handleCroppedImage_onload img s s).shapes = s.shapes.set idx
      { (if shape = hole then ({} : Shape) else shape) with
        image := some img
        originalWidth := some img.width
        originalHeight := some img.height
        scaleX := some 1
        scaleY := some 1
        rotation := some 0 } := by
    simp [handleCroppedImage_onload, hidx, hsh, arrayAssign, hlt]
  have hget : (handleCroppedImage_onload img s s).shapes[idx]? = some
      { (if shape = hole then ({} : Shape) else shape) with
        image := some img
        originalWidth := some img.width
        originalHeight := some img.height
        scaleX := some 1
        scaleY := some 1
        rotation := some 0 } := by
    rw [hshapes]
    simp [hlt]
  have hfields : (if shape = hole then ({} : Shape) else shape).type = shape.type ∧
      (if shape = hole then ({} : Shape) else shape).x = shape.x ∧
      (if shape = hole then ({} : Shape) else shape).y = shape.y := by
    by_cases hh : shape = hole
    · rw [if_pos hh, hh]
      exact ⟨rfl, rfl, rfl⟩
    · rw [if_neg hh]
      exact ⟨rfl, rfl, rfl⟩
  refine ⟨?_, ⟨_, hget, hfields.1, rfl, rfl, rfl, rfl, rfl, rfl, hfields.2.1, hfields.2.2⟩,
    by rw [hshapes]; simp, ?_, ?_, ?_, ?_⟩
  · intro url hurl
    simp [handleCroppedImage, hurl, hidx]
  · intro j hj
    rw [hshapes, List.getElem?_set_ne (Ne.symm hj)]
  · simp [handleCroppedImage_onload, hidx]
  · simp [handleCroppedImage_onload, hidx, List.length_take]
    omega
  · simp [handleCroppedImage_onload, hidx]

/-- An instance of C16: the crop modal of `cropModalState` confirmed with
`croppedBitmap`. -/
theorem C16_witness :
    historyInv cropModalState ∧ cropModalState.cropImageIndex = some 0 ∧
    cropModalState.shapes[0]? = some insertedImage ∧
    (handleCroppedImage_onload croppedBitmap cropModalState cropModalState).historyStep
      = cropModalState.historyStep + 1 :=
  ⟨by simp [historyInv, cropModalState_eq, initialState],
    by simp [cropModalState_eq], by simp [cropModalState_eq],
    (C16_modal_crop_replaces_bitmap croppedBitmap cropModalState 0 insertedImage
      (by simp [historyInv, cropModalState_eq, initialState])
      (by simp [cropModalState_eq]) (by simp [cropModalState_eq])).2.2.2.2.2.1⟩

/-- C17: a shape drawn between the choice of the file and the end of the image
load is lost.  The file is chosen in the initial state (800 x 500 stage, empty
Document); before the bitmap is decoded a rectangle is drawn from `(10, 10)` to
`(60, 40)` and committed; the load callback of `handleImageUpload`, created in
the render in which the file was chosen, then writes the Document
`[image]` (the 2000 x 1000 bitmap scaled to 400 x 200 at `(200, 150)`) and the
history `[[], [image]]`: the image is not appended to the live Document, and
the rectangle is gone from the Document and from the history. -/
theorem C17_image_load_drops_shape_drawn_meanwhile :
    ∃ t : State,
      pointerGesture trivialMath noRandom ⟨10, 10⟩ [⟨⟨60, 40⟩, noRandom⟩] initialState = some t ∧
      Reachable trivialMath t ∧
      t.shapes = [rectangleTo initialState ⟨10, 10⟩ ⟨60, 40⟩] ∧
      t.history = [[], [rectangleTo initialState ⟨10, 10⟩ ⟨60, 40⟩]] ∧
      t.historyStep = 1 ∧
      Reachable trivialMath (handleImageUpload_onload largeBitmap initialState t) ∧
      (handleImageUpload_onload largeBitmap initialState t).shapes = [insertedLargeImage] ∧
      (handleImageUpload_onload largeBitmap initialState t).shapes
        ≠ t.shapes ++ [insertedLargeImage] ∧
      (handleImageUpload_onload largeBitmap initialState t).history
        = [[], [insertedLargeImage]] ∧
      (handleImageUpload_onload largeBitmap initialState t).historyStep = 1 ∧
      (insertedLargeImage.width, insertedLargeImage.height) = (some 400, some 200) ∧
      (insertedLargeImage.x, insertedLargeImage.y) = (some 200, some 150) := by
  have hmove : handleMouseMove trivialMath noRandom ⟨60, 40⟩
      (handleMouseDown trivialMath noRandom ⟨10, 10⟩ initialState)
      = some { initialState with
          isDrawing := true
          shapes := [rectangleTo initialState ⟨10, 10⟩ ⟨60, 40⟩] } := by
    simp [handleMouseMove, handleMouseDown, growShape, rectangleTo, initialState]
  have hup : handleMouseUp { initialState with
          isDrawing := true
          shapes := [rectangleTo initialState ⟨10, 10⟩ ⟨60, 40⟩] }
      = { initialState with
          shapes := [rectangleTo initialState ⟨10, 10⟩ ⟨60, 40⟩]
          history := [[], [rectangleTo initialState ⟨10, 10⟩ ⟨60, 40⟩]]
          historyStep := 1 } := by
    simp [handleMouseUp, addToHistory, initialState]
  have hreach : Reachable trivialMath { initialState with
          shapes := [rectangleTo initialState ⟨10, 10⟩ ⟨60, 40⟩]
          history := [[], [rectangleTo initialState ⟨10, 10⟩ ⟨60, 40⟩]]
          historyStep := 1 } := by
    rw [← hup]
    exact Reachable.pointerUp (Reachable.pointerMoved noRandom ⟨60, 40⟩
      (Reachable.pointerDown noRandom ⟨10, 10⟩ Reachable.initial) hmove)
  have hshapes : (handleImageUpload_onload largeBitmap initialState
      { initialState with
          shapes := [rectangleTo initialState ⟨10, 10⟩ ⟨60, 40⟩]
          history := [[], [rectangleTo initialState ⟨10, 10⟩ ⟨60, 40⟩]]
          historyStep := 1 }).shapes = [insertedLargeImage] := by
    simp [handleImageUpload_onload, initialState, largeBitmap, insertedLargeImage]
    norm_num
  refine ⟨_, ?_, hreach, rfl, rfl, rfl, Reachable.imageLoaded largeBitmap Reachable.initial hreach,
    hshapes, ?_, ?_, ?_, rfl, rfl⟩
  · simp only [pointerGesture, pointerMoves, List.foldlM, hmove]
    simp [hup]
  · rw [hshapes]
    simp
  · simp [handleImageUpload_onload, initialState, largeBitmap, insertedLargeImage]
    norm_num
  · simp [handleImageUpload_onload, initialState]

/-- C18, as stated, fails: a 2000 x 1000 bitmap inserted on the initial
800 x 500 stage gets `originalWidth = 400` and `originalHeight = 200`, the
downscaled size, not the intrinsic size of the bitmap. -/
theorem C18_counterexample :
    (handleImageUpload_onload largeBitmap initialState initialState).shapes
      = [insertedLargeImage] ∧
    insertedLargeImage.image = some largeBitmap ∧
    insertedLargeImage.originalWidth = some 400 ∧
    insertedLargeImage.originalHeight = some 200 ∧
    insertedLargeImage.originalWidth ≠ some largeBitmap.width ∧
    insertedLargeImage.originalHeight ≠ some largeBitmap.height := by
  refine ⟨insert_largeBitmap_shapes, rfl, rfl, rfl, ?_, ?_⟩
  · simp [insertedLargeImage, largeBitmap]
  · simp [insertedLargeImage, largeBitmap]

/-- C18, amended: for every inserted image, the new image shape's
`originalWidth` and `originalHeight` equal its `width` and `height`, the size
the image is inserted with: the intrinsic size of the bitmap when neither
dimension exceeds `0.8 * min(W, H)`, the downscaled size otherwise. -/
theorem C18_original_size_is_inserted_size (img : Bitmap) (c s : State) :
    ∃ sh : Shape, (handleImageUpload_onload img c s).shapes = c.shapes ++ [sh] ∧
      sh.originalWidth = sh.width ∧ sh.originalHeight = sh.height ∧
      (img.width ≤ 8 / 10 * min c.stageWidth c.stageHeight →
        img.height ≤ 8 / 10 * min c.stageWidth c.stageHeight →
        sh.originalWidth = some img.width ∧ sh.originalHeight = some img.height) ∧
      (img.height < img.width → 8 / 10 * min c.stageWidth c.stageHeight < img.width →
        sh.originalWidth = some (8 / 10 * min c.stageWidth c.stageHeight) ∧
        sh.originalHeight
          = some (img.height / img.width * (8 / 10 * min c.stageWidth c.stageHeight))) ∧
      (img.width ≤ img.height → 8 / 10 * min c.stageWidth c.stageHeight < img.height →
        sh.originalWidth
          = some (img.width / img.height * (8 / 10 * min c.stageWidth c.stageHeight)) ∧
        sh.originalHeight = some (8 / 10 * min c.stageWidth c.stageHeight)) := by
  obtain ⟨sh, h1, _, _, _, _, _, h7, h8, h9, h10, _, _⟩ :=
    handleImageUpload_onload_shapes img c s
  rw [mul_comm (8 / 10 : ℚ) (min c.stageWidth c.stageHeight)]
  generalize min c.stageWidth c.stageHeight * (8 / 10) = M at h9 h10 ⊢
  refine ⟨sh, h1, h7, h8, ?_, ?_, ?_⟩
  · intro ha hb
    have hex : ¬ (img.width > M ∨ img.height > M) := by
      rintro (h | h)
      · exact absurd ha (not_le.2 h)
      · exact absurd hb (not_le.2 h)
    rw [if_neg hex] at h9 h10
    exact ⟨h7.trans h9, h8.trans h10⟩
  · intro hwh hbig
    rw [if_pos (Or.inl hbig), if_pos hwh] at h9 h10
    exact ⟨h7.trans h9, h8.trans h10⟩
  · intro hwh hbig
    rw [if_pos (Or.inr hbig), if_neg (not_lt.2 hwh)] at h9 h10
    exact ⟨h7.trans h9, h8.trans h10⟩

/-- An instance of C18: `sampleBitmap` (100 x 50) fits the initial stage and
keeps its intrinsic size as `originalWidth` and `originalHeight`. -/
theorem C18_witness :
    ∃ sh : Shape, (handleImageUpload_onload sampleBitmap initialState initialState).shapes
        = initialState.shapes ++ [sh] ∧
      sh.originalWidth = sh.width ∧ sh.originalHeight = sh.height := by
  obtain ⟨sh, h1, h2, h3, _⟩ :=
    C18_original_size_is_inserted_size sampleBitmap initialState initialState
  exact ⟨sh, h1, h2, h3⟩


/-- C19: for a selected image shape and a transform-end event reporting
`(scaleX, scaleY, rotation)`, `handleTransformEnd` sets those three fields on
the selected shape and sets `width = originalWidth * scaleX` and
`height = originalHeight * scaleY`, keeps every other field of it, and leaves
every other shape and the Document length unchanged; when nothing is selected,
or the selected shape is missing or is not an image, the whole state (so the
Document and the History) is unchanged. -/
theorem C19_handleTransformEnd (e : TransformTarget) (s : State) :
    (∀ (sel : ℕ) (shape : Shape), s.selectedShapeIndex = some sel →
      s.shapes[sel]? = some shape → shape.type = some ShapeType.image →
      (handleTransformEnd e s).shapes[sel]? = some
        { shape with
          rotation := some e.rotation
          scaleX := some e.scaleX
          scaleY := some e.scaleY
          width := shape.originalWidth.map (fun w => w * e.scaleX)
          height := shape.originalHeight.map (fun h => h * e.scaleY) } ∧
      (∀ ow oh, shape.originalWidth = some ow → shape.originalHeight = some oh →
        ((handleTransformEnd e s).shapes[sel]?).bind Shape.width = some (ow * e.scaleX) ∧
        ((handleTransformEnd e s).shapes[sel]?).bind Shape.height = some (oh * e.scaleY)) ∧
      (handleTransformEnd e s).shapes.length = s.shapes.length ∧
      (∀ j, j ≠ sel → (handleTransformEnd e s).shapes[j]? = s.shapes[j]?)) ∧
    (s.selectedShapeIndex = none → handleTransformEnd e s = s) ∧
    (∀ sel : ℕ, s.selectedShapeIndex = some sel → s.shapes[sel]? = none →
      handleTransformEnd e s = s) ∧
    (∀ (sel : ℕ) (shape : Shape), s.selectedShapeIndex = some sel →
      s.shapes[sel]? = some shape → shape.type ≠ some ShapeType.image →
      handleTransformEnd e s = s) := by
  refine ⟨?_, ?_, ?_, ?_⟩
  · intro sel shape hsel hsh himg
    have hlt : sel < s.shapes.length := (List.getElem?_eq_some_iff.1 hsh).1
    have hshapes : (handleTransformEnd e s).shapes = s.shapes.set sel
        { shape with
          rotation := some e.rotation
          scaleX := some e.scaleX
          scaleY := some e.scaleY
          width := shape.originalWidth.map (fun w => w * e.scaleX)
          height := shape.originalHeight.map (fun h => h * e.scaleY) } := by
      unfold handleTransformEnd
      simp only [hsel, hsh, himg, ne_eq, not_true_eq_false, if_false]
      rw [addToHistory_shapes]
      simp [arrayAssign, hlt]
    have hget : (handleTransformEnd e s).shapes[sel]? = some
        { shape with
          rotation := some e.rotation
          scaleX := some e.scaleX
          scaleY := some e.scaleY
          width := shape.originalWidth.map (fun w => w * e.scaleX)
          height := shape.originalHeight.map (fun h => h * e.scaleY) } := by
      rw [hshapes]; simp [hlt]
    refine ⟨hget, ?_, by rw [hshapes]; simp, ?_⟩
    · intro ow oh how hoh
      rw [hget]
      simp [how, hoh]
    · intro j hj
      rw [hshapes, List.getElem?_set_ne (Ne.symm hj)]
  · intro hnone
    simp [handleTransformEnd, hnone]
  · intro sel hsel hsh
    simp [handleTransformEnd, hsel, hsh]
  · intro sel shape hsel hsh hne
    simp [handleTransformEnd, hsel, hsh, hne]

/-- An instance of C19: the selected image of `imageSelectedState` (100 x 50)
scaled by 2 and 3 and rotated by 45 gets width 200 and height 150. -/
theorem C19_witness :
    imageSelectedState.selectedShapeIndex = some 0 ∧
    imageSelectedState.shapes[0]? = some insertedImage ∧
    insertedImage.type = some ShapeType.image ∧
    ((handleTransformEnd ⟨2, 3, 45⟩ imageSelectedState).shapes[0]?).bind Shape.width
      = some 200 ∧
    ((handleTransformEnd ⟨2, 3, 45⟩ imageSelectedState).shapes[0]?).bind Shape.height
      = some 150 := by
  have h1 : imageSelectedState.selectedShapeIndex = some 0 := by simp [imageSelectedState_eq]
  have h2 : imageSelectedState.shapes[0]? = some insertedImage := by
    simp [imageSelectedState_eq]
  obtain ⟨hw, hh⟩ := ((C19_handleTransformEnd ⟨2, 3, 45⟩ imageSelectedState).1 0 insertedImage
    h1 h2 rfl).2.1 100 50 rfl rfl
  refine ⟨h1, h2, rfl, ?_, ?_⟩
  · rw [hw]; norm_num
  · rw [hh]; norm_num

/-- C20: for a selected image shape with rotation `r` and every `n`, applying
`handleRotateImage` `n` times in succession leaves the shape with
`rotation = r + 90 * n` (no modulo reduction) and every other field of it, every
other shape and the Document length unchanged. -/
theorem C20_rotate_accumulates (n : ℕ) (s : State) (sel : ℕ) (shape : Shape) (r : ℚ)
    (hsel : s.selectedShapeIndex = some sel) (hsh : s.shapes[sel]? = some shape)
    (himg : shape.type = some ShapeType.image) (hr : shape.rotation = some r) :
    (handleRotateImage^[n] s).shapes[sel]?
      = some { shape with rotation := some (r + 90 * (n : ℚ)) } ∧
    (handleRotateImage^[n] s).shapes.length = s.shapes.length ∧
    (∀ j, j ≠ sel → (handleRotateImage^[n] s).shapes[j]? = s.shapes[j]?) := by
  have hlt : sel < s.shapes.length := (List.getElem?_eq_some_iff.1 hsh).1
  rw [handleRotateImage_iterate sel n s shape r hsel hsh himg hr]
  refine ⟨by simp [hlt], by simp, fun j hj => ?_⟩
  rw [List.getElem?_set_ne (Ne.symm hj)]

/-- The scenario of C20: `handleRotateImage` applied twice to the selected
image of `imageSelectedState`, whose rotation is 0, gives rotation 180. -/
theorem C20_witness :
    imageSelectedState.selectedShapeIndex = some 0 ∧
    imageSelectedState.shapes[0]? = some insertedImage ∧
    insertedImage.rotation = some 0 ∧
    ((handleRotateImage^[2] imageSelectedState).shapes[0]?).bind Shape.rotation
      = some 180 := by
  have h1 : imageSelectedState.selectedShapeIndex = some 0 := by simp [imageSelectedState_eq]
  have h2 : imageSelectedState.shapes[0]? = some insertedImage := by
    simp [imageSelectedState_eq]
  have h := (C20_rotate_accumulates 2 imageSelectedState 0 insertedImage 0 h1 h2 rfl rfl).1
  refine ⟨h1, h2, rfl, ?_⟩
  rw [h]
  simp
  norm_num

/-! ## The reachable states and the claims on selection, the cropper and the inline crop -/

theorem addToHistory_cropIdle (d : Document) (s : State) (h : cropIdle s) :
    cropIdle (addToHistory d s) := by
  unfold addToHistory
  split
  · exact h
  · exact h

/-- No handler sets `isCropping` or `cropRectVisible`: every reachable state has
both clear. -/
theorem reachable_cropIdle (m : JSMath) (s : State) (h : Reachable m s) : cropIdle s := by
  induction h with
  | initial => exact ⟨rfl, rfl⟩
  | resized cw _ ih => exact ih
  | toolClicked t _ ih => exact ih
  | brushClicked b _ ih => exact ih
  | moveClicked _ ih => exact ih
  | cropToolClicked _ ih => exact ih
  | colorChanged v _ ih => exact ih
  | brushSizeChanged v _ ih => exact ih
  | opacityChanged v _ ih => exact ih
  | imageLoaded img _ _ _ ih =>
    simp only [cropIdle, handleImageUpload_onload] at ih ⊢
    repeat' split
    all_goals simp_all
  | shapeSelected i _ ih =>
    simp only [cropIdle, handleShapeSelect] at ih ⊢
    repeat' split
    all_goals simp_all
  | imageSelected d i _ ih =>
    simp only [cropIdle, handleImageSelect, handleShapeSelect, openCropModal] at ih ⊢
    repeat' split
    all_goals simp_all
  | cropStarted d _ ih =>
    simp only [cropIdle, startCropping, openCropModal] at ih ⊢
    repeat' split
    all_goals simp_all
  | cropConfirmed url _ ih =>
    simp only [cropIdle, handleCroppedImage] at ih ⊢
    repeat' split
    all_goals simp_all
  | cropLoaded img _ _ _ ih =>
    simp only [cropIdle, handleCroppedImage_onload] at ih ⊢
    repeat' split
    all_goals simp_all
  | cropCancelled _ ih => exact ih
  | undone _ ih =>
    simp only [cropIdle, handleUndo] at ih ⊢
    repeat' split
    all_goals simp_all
  | redone _ ih =>
    simp only [cropIdle, handleRedo] at ih ⊢
    repeat' split
    all_goals simp_all
  | guardReleased _ ih => exact ih
  | transformed e _ ih =>
    simp only [cropIdle, handleTransformEnd, addToHistory] at ih ⊢
    repeat' split
    all_goals simp_all
  | inlineCropFinished _ ih =>
    simp only [cropIdle, finishCropping] at ih ⊢
    repeat' split
    all_goals simp_all
  | inlineCropLoaded img _ _ _ ih =>
    simp only [cropIdle, finishCropping_onload] at ih ⊢
    repeat' split
    all_goals simp_all
  | inlineCropCancelled _ ih => exact ⟨rfl, rfl⟩
  | pointerDown rand p _ ih =>
    simp only [cropIdle, handleMouseDown] at ih ⊢
    repeat' split
    all_goals simp_all
  | pointerMoved rand p _ ht ih =>
    simp only [cropIdle, handleMouseMove] at ih ht ⊢
    repeat' split at ht
    all_goals simp_all
    all_goals (subst ht; simp_all)
  | pointerUp _ ih =>
    simp only [cropIdle, handleMouseUp, finishCropping, addToHistory] at ih ⊢
    repeat' split
    all_goals simp_all
  | sprayTicked rand p _ _ _ ih =>
    simp only [cropIdle, sprayTick] at ih ⊢
    repeat' split
    all_goals simp_all
  | dragEnded e i _ ht ih =>
    simp only [cropIdle, handleDragEnd, addToHistory] at ih ht ⊢
    repeat' split at ht
    all_goals simp_all
    all_goals (subst ht; simp_all)
  | loaded dec saved _ ih =>
    simp only [cropIdle, handleLoad, setShapesAndCommit, addToHistory] at ih ⊢
    repeat' split
    all_goals simp_all
  | cleared b _ ih =>
    simp only [cropIdle, handleClear, setShapesAndCommit, addToHistory] at ih ⊢
    repeat' split
    all_goals simp_all
  | deleted _ ih =>
    simp only [cropIdle, handleDeleteSelected, addToHistory] at ih ⊢
    repeat' split
    all_goals simp_all
  | deletedByKey _ _ _ ih =>
    simp only [cropIdle, handleDeleteSelected, addToHistory] at ih ⊢
    repeat' split
    all_goals simp_all
  | transformReset _ ih =>
    simp only [cropIdle, handleResetImageTransform, addToHistory] at ih ⊢
    repeat' split
    all_goals simp_all
  | rotated _ ih =>
    simp only [cropIdle, handleRotateImage, addToHistory] at ih ⊢
    repeat' split
    all_goals simp_all

/-- On a Document without holes, `handleDeleteSelected` with the selection at an
index `i` inside the Document removes exactly the slot `i` (the shapes before
`i` stay at their index, those after move down by one, the length decreases by
one), clears the selection and commits the new Document; with no selection the
state is unchanged. -/
theorem handleDeleteSelected_dense (s : State) (hdense : hole ∉ s.shapes) :
    (∀ i, s.selectedShapeIndex = some i → i < s.shapes.length →
      (handleDeleteSelected s).shapes = s.shapes.take i ++ s.shapes.drop (i + 1) ∧
      (handleDeleteSelected s).shapes.length + 1 = s.shapes.length ∧
      (∀ j, j < i → (handleDeleteSelected s).shapes[j]? = s.shapes[j]?) ∧
      (∀ j, i ≤ j → (handleDeleteSelected s).shapes[j]? = s.shapes[j + 1]?) ∧
      (handleDeleteSelected s).selectedShapeIndex = none ∧
      (handleDeleteSelected s).history
        = (addToHistory (handleDeleteSelected s).shapes s).history ∧
      (handleDeleteSelected s).historyStep
        = (addToHistory (handleDeleteSelected s).shapes s).historyStep ∧
      (s.isPerformingAction = false →
        (handleDeleteSelected s).history
          = s.history.take (s.historyStep + 1) ++ [(handleDeleteSelected s).shapes])) ∧
    (s.selectedShapeIndex = none → handleDeleteSelected s = s) := by
  constructor
  · intro i hi hlt
    have hfilter : (s.shapes.eraseIdx i).filter (fun shape => decide (shape ≠ hole))
        = s.shapes.eraseIdx i := by
      rw [List.filter_eq_self]
      intro a ha
      have hmem : a ∈ s.shapes := List.mem_of_mem_eraseIdx ha
      simpa using fun h : a = hole => hdense (h ▸ hmem)
    have hshapes : (handleDeleteSelected s).shapes = s.shapes.eraseIdx i := by
      simp only [handleDeleteSelected, hi, hfilter]
      exact addToHistory_shapes _ _
    have hhist : (handleDeleteSelected s).history
        = (addToHistory (s.shapes.eraseIdx i) s).history := by
      simp only [handleDeleteSelected, hi, hfilter, addToHistory]
      split <;> rfl
    have hstep : (handleDeleteSelected s).historyStep
        = (addToHistory (s.shapes.eraseIdx i) s).historyStep := by
      simp only [handleDeleteSelected, hi, hfilter, addToHistory]
      split <;> rfl
    rw [hshapes]
    refine ⟨List.eraseIdx_eq_take_drop_succ _ _, ?_, ?_, ?_, ?_, hhist, hstep, ?_⟩
    · rw [List.length_eraseIdx_of_lt hlt]; omega
    · intro j hj
      exact List.getElem?_eraseIdx_of_lt _ _ _ hj
    · intro j hj
      exact List.getElem?_eraseIdx_of_ge _ _ _ hj
    · simp [handleDeleteSelected, hi]
    · intro hg
      rw [hhist, addToHistory_clear _ _ hg]
  · intro hnone
    simp [handleDeleteSelected, hnone]

theorem threeShapesState_eq :
    threeShapesState =
      { initialState with
        shapes := [pointRect, secondPointRect, insertedImage]
        history := [[], [pointRect], [pointRect, secondPointRect],
          [pointRect, secondPointRect, insertedImage]]
        historyStep := 3 } := by
  simp [threeShapesState, handleImageUpload_onload, handleMouseUp, handleMouseDown, addToHistory,
    initialState, sampleBitmap, insertedImage, pointRect, secondPointRect]
  norm_num

theorem modalOverImageState_eq :
    modalOverImageState =
      { initialState with
        tool := Tool.cropImage
        selectedShapeIndex := some 0
        shapes := [pointRect, secondPointRect, insertedImage]
        history := [[], [pointRect], [pointRect, secondPointRect],
          [pointRect, secondPointRect, insertedImage],
          [pointRect, secondPointRect, insertedImage],
          [pointRect, secondPointRect, insertedImage]]
        historyStep := 5
        cropImageData := some "data:image/png;base64,AAAA"
        cropImageIndex := some 2
        showCropModal := true } := by
  simp [modalOverImageState, threeShapesState_eq, handleImageSelect, handleShapeSelect,
    openCropModal, handleMouseUp, handleMouseDown, addToHistory, handleCropToolClick,
    handleMoveClick, initialState, insertedImage]

theorem undoneUnderModalState_eq :
    undoneUnderModalState =
      { initialState with
        tool := Tool.cropImage
        selectedShapeIndex := some 0
        shapes := [pointRect]
        history := [[], [pointRect], [pointRect, secondPointRect],
          [pointRect, secondPointRect, insertedImage],
          [pointRect, secondPointRect, insertedImage],
          [pointRect, secondPointRect, insertedImage]]
        historyStep := 1
        cropImageData := some "data:image/png;base64,AAAA"
        cropImageIndex := some 2
        showCropModal := true } := by
  simp [undoneUnderModalState, modalOverImageState_eq, handleUndo, releaseGuard, initialState]

theorem sparseDocumentState_eq :
    sparseDocumentState =
      { initialState with
        tool := Tool.cropImage
        selectedShapeIndex := some 0
        shapes := [pointRect, hole, bareCroppedImage]
        history := [[], [pointRect], [pointRect, hole, bareCroppedImage]]
        historyStep := 2
        cropImageData := some "data:image/png;base64,AAAA"
        cropImageIndex := some 2
        showCropModal := false } := by
  simp [sparseDocumentState, undoneUnderModalState_eq, handleCroppedImage_onload, arrayAssign,
    initialState, bareCroppedImage, croppedBitmap, List.replicate]

theorem sparseDocumentState_reachable : Reachable trivialMath sparseDocumentState := by
  have h3 : Reachable trivialMath threeShapesState :=
    Reachable.imageLoaded sampleBitmap
      (Reachable.pointerUp (Reachable.pointerDown noRandom ⟨20, 20⟩
        (Reachable.pointerUp (Reachable.pointerDown noRandom ⟨10, 10⟩ Reachable.initial))))
      (Reachable.pointerUp (Reachable.pointerDown noRandom ⟨20, 20⟩
        (Reachable.pointerUp (Reachable.pointerDown noRandom ⟨10, 10⟩ Reachable.initial))))
  have hm : Reachable trivialMath modalOverImageState :=
    Reachable.imageSelected "data:image/png;base64,AAAA" 2
      (Reachable.pointerUp (Reachable.pointerDown noRandom ⟨360, 230⟩
        (Reachable.shapeSelected 0 (Reachable.pointerUp (Reachable.pointerDown noRandom ⟨10, 10⟩
          (Reachable.cropToolClicked (Reachable.imageSelected "data:image/png;base64,AAAA" 2
            (Reachable.moveClicked h3))))))))
  have hu : Reachable trivialMath undoneUnderModalState :=
    Reachable.guardReleased (Reachable.undone (Reachable.guardReleased (Reachable.undone
      (Reachable.guardReleased (Reachable.undone (Reachable.guardReleased
        (Reachable.undone hm)))))))
  exact Reachable.cropLoaded croppedBitmap hu hu

/-- C30: in every state reachable from the initial state through the handlers,
`isCropping` and `cropRectVisible` are both false; hence `finishCropping`
leaves the state as it is and starts no image load (so its load callback never
exists and would write nothing), the crop-rectangle test of `handleMouseMove`
and `handleMouseUp` is false, and `handleMouseUp` runs its drawing branch. -/
theorem C30_inline_crop_never_entered (m : JSMath) (s : State) (h : Reachable m s) :
    s.isCropping = false ∧ s.cropRectVisible = false ∧
    finishCropping s = s ∧ finishCropping_request s = none ∧
    (∀ (img : Bitmap) (t : State), finishCropping_onload img s t = t) ∧
    (s.isCropping && s.cropRectVisible) = false ∧
    handleMouseUp s
      = { (if s.isDrawing then addToHistory s.shapes s else s) with
          isDrawing := false, sprayTimer := false } := by
  obtain ⟨h1, h2⟩ := reachable_cropIdle m s h
  have hreq : finishCropping_request s = none := by simp [finishCropping_request, h1]
  refine ⟨h1, h2, ?_, hreq, ?_, by simp [h1], ?_⟩
  · simp [finishCropping, h1]
  · intro img t
    simp [finishCropping_onload, hreq]
  · simp [handleMouseUp, h1]

/-- An instance of C30: the state `cropToolState`, reached with the crop tool
selected. -/
theorem C30_witness :
    Reachable trivialMath cropToolState ∧
    cropToolState.isCropping = false ∧ cropToolState.cropRectVisible = false :=
  have hr : Reachable trivialMath cropToolState :=
    Reachable.cropToolClicked (Reachable.shapeSelected 0 (Reachable.moveClicked
      (Reachable.pointerUp (Reachable.pointerDown noRandom ⟨10, 10⟩
        (Reachable.imageLoaded sampleBitmap Reachable.initial Reachable.initial)))))
  ⟨hr, (C30_inline_crop_never_entered trivialMath cropToolState hr).1,
    (C30_inline_crop_never_entered trivialMath cropToolState hr).2.1⟩

/-- C21: `handleDeleteSelected` can remove two slots.  `sparseDocumentState` is
reached from the initial state by drawing two rectangles, inserting an image
(index 2), opening the crop modal on it with the first rectangle selected,
undoing back to the first rectangle alone while the modal is open, and
confirming the crop: the load callback of `handleCroppedImage` writes at index
2 of the one-element Document and leaves a hole at index 1.  The status bar
still renders the selected rectangle.  Deleting the selection (index 0, inside
the Document of length 3) then yields the Document `[bareCroppedImage]` of
length 1: the hole is dropped with the selected rectangle, so the result is not
the Document with exactly the slot 0 removed, and the length decreases by two.
The selection is cleared and the new Document is committed. -/
theorem C21_delete_on_sparse_document_removes_two_slots :
    Reachable trivialMath sparseDocumentState ∧
    handleCroppedImage (some "data:image/png;base64,CCCC") undoneUnderModalState
      = undoneUnderModalState ∧
    undoneUnderModalState.shapes = [pointRect] ∧
    undoneUnderModalState.cropImageIndex = some 2 ∧
    sparseDocumentState.shapes = [pointRect, hole, bareCroppedImage] ∧
    sparseDocumentState.selectedShapeIndex = some 0 ∧
    renderStatusBar sparseDocumentState = some (some (some ShapeType.rect, 0)) ∧
    (handleDeleteSelected sparseDocumentState).shapes = [bareCroppedImage] ∧
    (handleDeleteSelected sparseDocumentState).shapes
      ≠ sparseDocumentState.shapes.take 0 ++ sparseDocumentState.shapes.drop (0 + 1) ∧
    (handleDeleteSelected sparseDocumentState).shapes.length + 2
      = sparseDocumentState.shapes.length ∧
    (handleDeleteSelected sparseDocumentState).selectedShapeIndex = none ∧
    (handleDeleteSelected sparseDocumentState).history
      = [[], [pointRect], [pointRect, hole, bareCroppedImage], [bareCroppedImage]] ∧
    (handleDeleteSelected sparseDocumentState).historyStep = 3 := by
  have hdel : (handleDeleteSelected sparseDocumentState).shapes = [bareCroppedImage] := by
    simp [sparseDocumentState_eq, handleDeleteSelected, addToHistory, initialState, hole,
      bareCroppedImage]
  have hsh : sparseDocumentState.shapes = [pointRect, hole, bareCroppedImage] := by
    simp [sparseDocumentState_eq]
  refine ⟨sparseDocumentState_reachable, ?_, ?_, ?_, hsh, ?_, ?_, hdel, ?_, ?_, ?_, ?_, ?_⟩
  · simp [undoneUnderModalState_eq, handleCroppedImage]
  · simp [undoneUnderModalState_eq]
  · simp [undoneUnderModalState_eq]
  · simp [sparseDocumentState_eq]
  · simp [renderStatusBar, sparseDocumentState_eq, pointRect, hole]
  · rw [hdel, hsh]
    simp [hole, bareCroppedImage]
  · rw [hdel, hsh]
    rfl
  · simp [sparseDocumentState_eq, handleDeleteSelected, addToHistory, initialState]
  · simp [sparseDocumentState_eq, handleDeleteSelected, addToHistory, initialState, hole,
      bareCroppedImage]
  · simp [sparseDocumentState_eq, handleDeleteSelected, addToHistory, initialState]

/-- C22, as stated, fails: in `imageSelectedState` (move tool, image at index 0
selected) and in `cropToolState` (crop tool, image selected) a pointer-down on
the stage leaves `selectedShapeIndex` at index 0. -/
theorem C22_counterexample :
    imageSelectedState.tool = Tool.move ∧
    imageSelectedState.selectedShapeIndex = some 0 ∧
    (handleMouseDown trivialMath noRandom ⟨700, 450⟩ imageSelectedState).selectedShapeIndex
      = some 0 ∧
    cropToolState.selectedShapeIndex = some 0 ∧
    (handleMouseDown trivialMath noRandom ⟨700, 450⟩ cropToolState).selectedShapeIndex
      = some 0 := by
  refine ⟨?_, ?_, ?_, ?_, ?_⟩
  · simp [imageSelectedState_eq]
  · simp [imageSelectedState_eq]
  · simp [imageSelectedState_eq, handleMouseDown]
  · simp [cropToolState, handleCropToolClick, handleShapeSelect, handleMoveClick]
  · simp [cropToolState, handleCropToolClick, handleShapeSelect, handleMoveClick,
      handleMouseDown]

/-- C22, amended: a pointer-down on the stage (`handleMouseDown`) never changes
`selectedShapeIndex`, and with the move tool it changes nothing at all; the
selection is set to none by the shape tool buttons, the brush buttons,
`handleDeleteSelected` and a confirmed `handleClear`. -/
theorem C22_pointer_down_keeps_selection (m : JSMath) (rand : ℕ → ℚ) (p : Point) (s : State) :
    (handleMouseDown m rand p s).selectedShapeIndex = s.selectedShapeIndex ∧
    (s.tool = Tool.move → handleMouseDown m rand p s = s) ∧
    (∀ t : Tool, (handleToolClick t s).selectedShapeIndex = none) ∧
    (∀ b : BrushType, (handleBrushClick b s).selectedShapeIndex = none) ∧
    (s.selectedShapeIndex ≠ none → (handleDeleteSelected s).selectedShapeIndex = none) ∧
    (handleClear true s).selectedShapeIndex = none := by
  refine ⟨?_, ?_, fun _ => rfl, fun _ => rfl, ?_, ?_⟩
  · simp only [handleMouseDown]
    repeat' split
    all_goals rfl
  · intro ht
    simp [handleMouseDown, ht]
  · intro hne
    obtain ⟨i, hi⟩ := Option.ne_none_iff_exists'.1 hne
    simp [handleDeleteSelected, hi]
  · simp [handleClear]

/-- An instance of C22: with the move tool a pointer-down on
`imageSelectedState` changes nothing. -/
theorem C22_witness :
    imageSelectedState.tool = Tool.move ∧
    handleMouseDown trivialMath noRandom ⟨700, 450⟩ imageSelectedState = imageSelectedState :=
  ⟨by simp [imageSelectedState_eq],
    (C22_pointer_down_keeps_selection trivialMath noRandom ⟨700, 450⟩ imageSelectedState).2.1
      (by simp [imageSelectedState_eq])⟩

theorem min_add_abs_sub (a b : ℚ) : min a b + |b - a| = max a b := by
  rcases le_total a b with h | h
  · rw [min_eq_left h, max_eq_right h, abs_of_nonneg (sub_nonneg.2 h)]; ring
  · rw [min_eq_right h, max_eq_left h, abs_of_nonpos (sub_nonpos.2 h)]; ring

theorem cropper_handleMouseMove_inside (container : ImageCropper.Container) (p : Point)
    (st : ImageCropper.CropperState)
    (hW : 0 ≤ container.offsetWidth) (hH : 0 ≤ container.offsetHeight)
    (hb : ImageCropper.boxInside container st.cropBox) :
    ImageCropper.boxInside container (ImageCropper.handleMouseMove container p st).cropBox ∧
    (ImageCropper.handleMouseMove container p st).image = st.image := by
  unfold ImageCropper.handleMouseMove
  split
  · exact ⟨hb, rfl⟩
  · obtain ⟨h1, h2, h3, h4, h5, h6⟩ := hb
    have cx0 : 0 ≤ max 0 (min p.x container.offsetWidth) := le_max_left _ _
    have cy0 : 0 ≤ max 0 (min p.y container.offsetHeight) := le_max_left _ _
    have cx1 : max 0 (min p.x container.offsetWidth) ≤ container.offsetWidth :=
      max_le hW (min_le_right _ _)
    have cy1 : max 0 (min p.y container.offsetHeight) ≤ container.offsetHeight :=
      max_le hH (min_le_right _ _)
    refine ⟨⟨abs_nonneg _, abs_nonneg _, le_min h3 cx0, ?_, le_min h5 cy0, ?_⟩, rfl⟩
    · show min st.cropBox.x (max 0 (min p.x container.offsetWidth))
        + |max 0 (min p.x container.offsetWidth) - st.cropBox.x| ≤ container.offsetWidth
      rw [min_add_abs_sub]
      exact max_le (by linarith) cx1
    · show min st.cropBox.y (max 0 (min p.y container.offsetHeight))
        + |max 0 (min p.y container.offsetHeight) - st.cropBox.y| ≤ container.offsetHeight
      rw [min_add_abs_sub]
      exact max_le (by linarith) cy1

theorem cropper_pointerMoves_inside (container : ImageCropper.Container) (moves : List Point)
    (hW : 0 ≤ container.offsetWidth) (hH : 0 ≤ container.offsetHeight) :
    ∀ st : ImageCropper.CropperState, ImageCropper.boxInside container st.cropBox →
      ImageCropper.boxInside container (ImageCropper.pointerMoves container moves st).cropBox ∧
      (ImageCropper.pointerMoves container moves st).image = st.image := by
  induction moves with
  | nil => intro st hb; exact ⟨hb, rfl⟩
  | cons p rest ih =>
    intro st hb
    obtain ⟨h1, h2⟩ := cropper_handleMouseMove_inside container p st hW hH hb
    obtain ⟨h3, h4⟩ := ih (ImageCropper.handleMouseMove container p st) h1
    exact ⟨h3, h4.trans h2⟩

/-- C23: `handleWidthChange` gives a display width in `[0, 2000]` for every
input, and `handleHeightChange` gives a display height in `[0, 2000]` for every
input that parses as an integer; but for an input that does not parse
(`parseInt` is `NaN`) `handleHeightChange` stores `NaN` as the height and as
the derived width, which is not in `[0, 2000]`. -/
theorem C23_height_field_stores_NaN :
    (∀ (input : Option ℤ) (st : ImageCropper.CropperState),
      ∃ w, (ImageCropper.handleWidthChange input st).imageSize.width = some w ∧
        0 ≤ w ∧ w ≤ 2000) ∧
    (∀ (v : ℤ) (st : ImageCropper.CropperState),
      ∃ h, (ImageCropper.handleHeightChange (some v) st).imageSize.height = some h ∧
        0 ≤ h ∧ h ≤ 2000) ∧
    (∀ st : ImageCropper.CropperState,
      (ImageCropper.handleHeightChange none st).imageSize.height = none ∧
      (ImageCropper.handleHeightChange none st).imageSize.width = none) ∧
    (ImageCropper.handleHeightChange none emptyCropper).imageSize
      = { width := none, height := none, originalWidth := 100, originalHeight := 50 } := by
  refine ⟨?_, ?_, ?_, ?_⟩
  · intro input st
    refine ⟨_, rfl, le_max_left _ _, max_le (by norm_num) (min_le_right _ _)⟩
  · intro v st
    refine ⟨_, rfl, le_max_left _ _, max_le (by norm_num) (min_le_right _ _)⟩
  · intro st
    exact ⟨rfl, rfl⟩
  · rfl

/-- C24: `handleWidthChange` turns an empty or non-numeric input, and the input
0, into the width 1, but it turns every negative input into the width 0, below
the lower bound 1; a width above 2000 becomes 2000. -/
theorem C24_width_field_accepts_zero :
    (ImageCropper.handleWidthChange none emptyCropper).imageSize.width = some 1 ∧
    (ImageCropper.handleWidthChange (some 0) emptyCropper).imageSize.width = some 1 ∧
    (ImageCropper.handleWidthChange (some 2500) emptyCropper).imageSize.width = some 2000 ∧
    (ImageCropper.handleWidthChange (some (-5)) emptyCropper).imageSize.width = some 0 ∧
    (∀ (n : ℕ) (st : ImageCropper.CropperState),
      (ImageCropper.handleWidthChange (some (-((n : ℤ) + 1))) st).imageSize.width = some 0) := by
  refine ⟨?_, ?_, ?_, ?_, ?_⟩
  · simp [ImageCropper.handleWidthChange]
  · simp [ImageCropper.handleWidthChange]
  · simp [ImageCropper.handleWidthChange]
    norm_num
  · simp [ImageCropper.handleWidthChange]
  · intro n st
    have hne : -((n : ℤ) + 1) ≠ 0 := by omega
    have hneg : ((-((n : ℤ) + 1) : ℤ) : ℚ) ≤ 0 := by
      have : (-((n : ℤ) + 1)) ≤ 0 := by omega
      exact_mod_cast this
    simp only [ImageCropper.handleWidthChange, hne, if_false]
    congr 1
    apply max_eq_left
    exact le_trans (min_le_left _ _) hneg

theorem drawingCropper_move (container : ImageCropper.Container) (p : Point)
    (b : ImageCropper.CropBox) :
    ImageCropper.handleMouseMove container p (drawingCropper b)
      = drawingCropper
          { x := min b.x (max 0 (min p.x container.offsetWidth))
            y := min b.y (max 0 (min p.y container.offsetHeight))
            width := |max 0 (min p.x container.offsetWidth) - b.x|
            height := |max 0 (min p.y container.offsetHeight) - b.y| } := by
  simp [ImageCropper.handleMouseMove, drawingCropper]

theorem emptyCropper_down :
    ImageCropper.handleMouseDown ⟨100, 50⟩ ⟨50, 40⟩ emptyCropper
      = drawingCropper { x := 50, y := 40, width := 0, height := 0 } := by
  simp [ImageCropper.handleMouseDown, emptyCropper, drawingCropper]
  norm_num

/-- C27: in the cropper showing `sampleBitmap` in a 100 x 50 container, after
pointer-down at `(50, 40)` and the moves `(30, 20)`, `(40, 30)` the crop box is
`x = 30, y = 20, width = 10, height = 10`, not the rectangle spanned by the
start point and the last sample (`x = 40, y = 30`); with the single move
`(40, 30)` it is that rectangle, so the box depends on the intermediate
sample. -/
theorem C27_crop_box_anchor_drifts :
    (ImageCropper.pointerMoves ⟨100, 50⟩ [⟨30, 20⟩, ⟨40, 30⟩]
        (ImageCropper.handleMouseDown ⟨100, 50⟩ ⟨50, 40⟩ emptyCropper)).cropBox
      = { x := 30, y := 20, width := 10, height := 10 } ∧
    (ImageCropper.pointerMoves ⟨100, 50⟩ [⟨40, 30⟩]
        (ImageCropper.handleMouseDown ⟨100, 50⟩ ⟨50, 40⟩ emptyCropper)).cropBox
      = { x := 40, y := 30, width := 10, height := 10 } ∧
    ImageCropper.clamp ⟨100, 50⟩ ⟨40, 30⟩ = ⟨40, 30⟩ ∧
    (min (50 : ℚ) 40, min (40 : ℚ) 30, |(40 : ℚ) - 50|, |(30 : ℚ) - 40|) = (40, 30, 10, 10) := by
  have e1 : |(30 : ℚ) - 50| = 20 := by rw [abs_of_nonpos (by norm_num)]; norm_num
  have e2 : |(20 : ℚ) - 40| = 20 := by rw [abs_of_nonpos (by norm_num)]; norm_num
  have e3 : |(40 : ℚ) - 30| = 10 := by rw [abs_of_nonneg (by norm_num)]; norm_num
  have e4 : |(30 : ℚ) - 20| = 10 := by rw [abs_of_nonneg (by norm_num)]; norm_num
  have e5 : |(40 : ℚ) - 50| = 10 := by rw [abs_of_nonpos (by norm_num)]; norm_num
  have e6 : |(30 : ℚ) - 40| = 10 := by rw [abs_of_nonpos (by norm_num)]; norm_num
  have m1 : max (0 : ℚ) (min 30 100) = 30 := by norm_num
  have m2 : max (0 : ℚ) (min 20 50) = 20 := by norm_num
  have m3 : max (0 : ℚ) (min 40 100) = 40 := by norm_num
  have m4 : max (0 : ℚ) (min 30 50) = 30 := by norm_num
  refine ⟨?_, ?_, ?_, ?_⟩
  · simp only [ImageCropper.pointerMoves, List.foldl, emptyCropper_down, drawingCropper_move,
      m1, m2, m3, m4, e1, e2, e3, e4]
    simp only [drawingCropper]
    norm_num
  · simp only [ImageCropper.pointerMoves, List.foldl, emptyCropper_down, drawingCropper_move,
      m3, m4, e5, e6]
    simp only [drawingCropper]
    norm_num
  · simp only [ImageCropper.clamp, m3, m4]
  · rw [e5, e6]
    norm_num

/-- C28: in the modal cropper with a container of fixed size `Wc x Hc`, after a
pointer-down inside the container (an image being shown) and any sequence of
pointer-moves, the crop box satisfies `width >= 0`, `height >= 0`, `0 <= x`,
`x + width <= Wc`, `0 <= y` and `y + height <= Hc`; and every source rectangle
that `handleCrop` then computes lies inside the source image
`[0, image.width] x [0, image.height]`. -/
theorem C28_crop_box_inside_container (container : ImageCropper.Container)
    (st : ImageCropper.CropperState) (img : Bitmap) (p0 : Point) (moves : List Point)
    (himg : st.image = some img) (hw : 0 ≤ img.width) (hh : 0 ≤ img.height)
    (hx0 : 0 ≤ p0.x) (hx1 : p0.x ≤ container.offsetWidth)
    (hy0 : 0 ≤ p0.y) (hy1 : p0.y ≤ container.offsetHeight) :
    0 ≤ (ImageCropper.pointerMoves container moves
          (ImageCropper.handleMouseDown container p0 st)).cropBox.width ∧
    0 ≤ (ImageCropper.pointerMoves container moves
          (ImageCropper.handleMouseDown container p0 st)).cropBox.height ∧
    0 ≤ (ImageCropper.pointerMoves container moves
          (ImageCropper.handleMouseDown container p0 st)).cropBox.x ∧
    (ImageCropper.pointerMoves container moves
        (ImageCropper.handleMouseDown container p0 st)).cropBox.x
      + (ImageCropper.pointerMoves container moves
        (ImageCropper.handleMouseDown container p0 st)).cropBox.width
      ≤ container.offsetWidth ∧
    0 ≤ (ImageCropper.pointerMoves container moves
          (ImageCropper.handleMouseDown container p0 st)).cropBox.y ∧
    (ImageCropper.pointerMoves container moves
        (ImageCropper.handleMouseDown container p0 st)).cropBox.y
      + (ImageCropper.pointerMoves container moves
        (ImageCropper.handleMouseDown container p0 st)).cropBox.height
      ≤ container.offsetHeight ∧
    (∀ r : ImageCropper.CropRegion,
      ImageCropper.handleCrop container (ImageCropper.pointerMoves container moves
        (ImageCropper.handleMouseDown container p0 st)) = some r →
      0 ≤ r.cropX ∧ 0 ≤ r.cropWidth ∧ r.cropX + r.cropWidth ≤ img.width ∧
      0 ≤ r.cropY ∧ 0 ≤ r.cropHeight ∧ r.cropY + r.cropHeight ≤ img.height) := by
  have hW : 0 ≤ container.offsetWidth := le_trans hx0 hx1
  have hH : 0 ≤ container.offsetHeight := le_trans hy0 hy1
  have hdown : ImageCropper.handleMouseDown container p0 st
      = { st with isDrawing := true, cropBox := { x := p0.x, y := p0.y, width := 0, height := 0 } } := by
    have hcond : ¬ (p0.x < 0 ∨ p0.y < 0 ∨ p0.x > container.offsetWidth
        ∨ p0.y > container.offsetHeight) := by
      rintro (h | h | h | h)
      · exact absurd hx0 (not_le.2 h)
      · exact absurd hy0 (not_le.2 h)
      · exact absurd hx1 (not_le.2 h)
      · exact absurd hy1 (not_le.2 h)
    simp only [ImageCropper.handleMouseDown, himg, if_neg hcond]
  have hb0 : ImageCropper.boxInside container
      (ImageCropper.handleMouseDown container p0 st).cropBox := by
    rw [hdown]
    exact ⟨le_refl _, le_refl _, hx0, by simpa using hx1, hy0, by simpa using hy1⟩
  obtain ⟨⟨b1, b2, b3, b4, b5, b6⟩, hi⟩ := cropper_pointerMoves_inside container moves hW hH
    (ImageCropper.handleMouseDown container p0 st) hb0
  have hi2 : (ImageCropper.pointerMoves container moves
      (ImageCropper.handleMouseDown container p0 st)).image = some img := by
    rw [hi, hdown]; exact himg
  refine ⟨b1, b2, b3, b4, b5, b6, ?_⟩
  intro r hr
  generalize ImageCropper.pointerMoves container moves
    (ImageCropper.handleMouseDown container p0 st) = t at b1 b2 b3 b4 b5 b6 hi2 hr
  unfold ImageCropper.handleCrop at hr
  rw [hi2] at hr
  dsimp only at hr
  split at hr
  · exact absurd hr (by simp)
  · rename_i hz
    have hwpos : 0 < t.cropBox.width := lt_of_le_of_ne b1 (fun h => hz (Or.inl h.symm))
    have hhpos : 0 < t.cropBox.height := lt_of_le_of_ne b2 (fun h => hz (Or.inr h.symm))
    have hWpos : 0 < container.offsetWidth := by linarith
    have hHpos : 0 < container.offsetHeight := by linarith
    have hsx : 0 ≤ img.width / container.offsetWidth := div_nonneg hw (le_of_lt hWpos)
    have hsy : 0 ≤ img.height / container.offsetHeight := div_nonneg hh (le_of_lt hHpos)
    have hr2 := (Option.some.inj hr).symm
    subst hr2
    refine ⟨mul_nonneg b3 hsx, mul_nonneg b1 hsx, ?_, mul_nonneg b5 hsy, mul_nonneg b2 hsy, ?_⟩
    · show t.cropBox.x * (img.width / container.offsetWidth)
        + t.cropBox.width * (img.width / container.offsetWidth) ≤ img.width
      calc t.cropBox.x * (img.width / container.offsetWidth)
            + t.cropBox.width * (img.width / container.offsetWidth)
          = (t.cropBox.x + t.cropBox.width) * (img.width / container.offsetWidth) := by ring
        _ ≤ container.offsetWidth * (img.width / container.offsetWidth) :=
            mul_le_mul_of_nonneg_right b4 hsx
        _ = img.width := by field_simp
    · show t.cropBox.y * (img.height / container.offsetHeight)
        + t.cropBox.height * (img.height / container.offsetHeight) ≤ img.height
      calc t.cropBox.y * (img.height / container.offsetHeight)
            + t.cropBox.height * (img.height / container.offsetHeight)
          = (t.cropBox.y + t.cropBox.height) * (img.height / container.offsetHeight) := by ring
        _ ≤ container.offsetHeight * (img.height / container.offsetHeight) :=
            mul_le_mul_of_nonneg_right b6 hsy
        _ = img.height := by field_simp

/-- An instance of C28: the selection of C27 in the 100 x 50 container. -/
theorem C28_witness :
    emptyCropper.image = some sampleBitmap ∧
    (ImageCropper.pointerMoves ⟨100, 50⟩ [⟨30, 20⟩, ⟨40, 30⟩]
        (ImageCropper.handleMouseDown ⟨100, 50⟩ ⟨50, 40⟩ emptyCropper)).cropBox.x
      + (ImageCropper.pointerMoves ⟨100, 50⟩ [⟨30, 20⟩, ⟨40, 30⟩]
        (ImageCropper.handleMouseDown ⟨100, 50⟩ ⟨50, 40⟩ emptyCropper)).cropBox.width
      ≤ 100 :=
  ⟨rfl, (C28_crop_box_inside_container ⟨100, 50⟩ emptyCropper sampleBitmap ⟨50, 40⟩
    [⟨30, 20⟩, ⟨40, 30⟩] rfl (by norm_num [sampleBitmap]) (by norm_num [sampleBitmap])
    (by norm_num) (by norm_num) (by norm_num) (by norm_num)).2.2.2.1⟩

theorem imageSelectedState_reachable : Reachable trivialMath imageSelectedState :=
  Reachable.shapeSelected 0 (Reachable.moveClicked
    (Reachable.imageLoaded sampleBitmap Reachable.initial Reachable.initial))

theorem cropToolState_eq :
    cropToolState =
      { initialState with
        tool := Tool.cropImage
        selectedShapeIndex := some 0
        shapes := [insertedImage, pointRect]
        history := [[], [insertedImage], [insertedImage, pointRect]]
        historyStep := 2 } := by
  simp [cropToolState, handleCropToolClick, handleShapeSelect, handleMoveClick, handleMouseUp,
    handleMouseDown, addToHistory, handleImageUpload_onload, initialState, sampleBitmap,
    insertedImage, pointRect]
  norm_num

/-- C25: in `cropToolState`, reached from the initial state with the crop tool
selected (its button is rendered, an image being selected) and the Document
`[image, rectangle]`, a pointer-down appends no shape and sets `isDrawing`, and
the pointer-move that follows changes the rectangle that was already in the
Document: its width and height go from 0 to 90. -/
theorem C25_crop_tool_move_alters_existing_shape :
    Reachable trivialMath cropToolState ∧
    imageToolsVisible (handleShapeSelect 0 (handleMoveClick
      (handleMouseUp (handleMouseDown trivialMath noRandom ⟨10, 10⟩
        (handleImageUpload_onload sampleBitmap initialState initialState))))) = true ∧
    cropToolState.shapes = [insertedImage, pointRect] ∧
    (handleMouseDown trivialMath noRandom ⟨0, 0⟩ cropToolState).shapes
      = [insertedImage, pointRect] ∧
    (handleMouseDown trivialMath noRandom ⟨0, 0⟩ cropToolState).isDrawing = true ∧
    (handleMouseMove trivialMath noRandom ⟨100, 100⟩
        (handleMouseDown trivialMath noRandom ⟨0, 0⟩ cropToolState)).map State.shapes
      = some [insertedImage, { pointRect with width := some 90, height := some 90 }] ∧
    ({ pointRect with width := some 90, height := some 90 } : Shape) ≠ pointRect := by
  have hr : Reachable trivialMath cropToolState :=
    Reachable.cropToolClicked (Reachable.shapeSelected 0 (Reachable.moveClicked
      (Reachable.pointerUp (Reachable.pointerDown noRandom ⟨10, 10⟩
        (Reachable.imageLoaded sampleBitmap Reachable.initial Reachable.initial)))))
  refine ⟨hr, ?_, ?_, ?_, ?_, ?_, ?_⟩
  · simp [imageToolsVisible, handleShapeSelect, handleMoveClick, handleMouseUp,
      handleMouseDown, addToHistory, handleImageUpload_onload, initialState]
  · simp [cropToolState_eq]
  · simp [cropToolState_eq, handleMouseDown]
  · simp [cropToolState_eq, handleMouseDown]
  · simp [cropToolState_eq, handleMouseDown, handleMouseMove, growShape, pointRect,
      initialState]
    norm_num
  · simp [pointRect]

/-- C26: `danglingSelectionState` is reached from the initial state by drawing a
rectangle, selecting it with the move tool and calling `handleUndo`: before the
undo the status bar shows the selected rectangle, after it the Document is
empty while `selectedShapeIndex` is still 0, and the status bar read
`shapes[selectedShapeIndex].type` throws.  `handleLoad` of an empty saved
drawing on `imageSelectedState` leaves the same dangling selection. -/
theorem C26_undo_and_load_leave_dangling_selection :
    Reachable trivialMath danglingSelectionState ∧
    renderStatusBar (handleShapeSelect 0 (handleMoveClick
      (handleMouseUp (handleMouseDown trivialMath noRandom ⟨10, 10⟩ initialState))))
      = some (some (some ShapeType.rect, 0)) ∧
    danglingSelectionState.selectedShapeIndex = some 0 ∧
    danglingSelectionState.shapes = [] ∧
    renderStatusBar danglingSelectionState = none ∧
    Reachable trivialMath (handleLoad pendingDecode (some []) imageSelectedState) ∧
    renderStatusBar imageSelectedState = some (some (some ShapeType.image, 0)) ∧
    (handleLoad pendingDecode (some []) imageSelectedState).selectedShapeIndex = some 0 ∧
    (handleLoad pendingDecode (some []) imageSelectedState).shapes = [] ∧
    renderStatusBar (handleLoad pendingDecode (some []) imageSelectedState) = none := by
  have hr : Reachable trivialMath danglingSelectionState :=
    Reachable.undone (Reachable.shapeSelected 0 (Reachable.moveClicked
      (Reachable.pointerUp (Reachable.pointerDown noRandom ⟨10, 10⟩ Reachable.initial))))
  have hd : danglingSelectionState.selectedShapeIndex = some 0 ∧
      danglingSelectionState.shapes = [] := by
    simp [danglingSelectionState, handleUndo, handleShapeSelect, handleMoveClick,
      handleMouseUp, handleMouseDown, addToHistory, initialState]
  have hl : (handleLoad pendingDecode (some []) imageSelectedState).selectedShapeIndex = some 0 ∧
      (handleLoad pendingDecode (some []) imageSelectedState).shapes = [] := by
    simp [imageSelectedState_eq, handleLoad, setShapesAndCommit, addToHistory, initialState]
  refine ⟨hr, ?_, hd.1, hd.2, ?_, Reachable.loaded pendingDecode (some [])
    imageSelectedState_reachable, ?_, hl.1, hl.2, ?_⟩
  · simp [renderStatusBar, handleShapeSelect, handleMoveClick, handleMouseUp, handleMouseDown,
      addToHistory, initialState, hole]
  · simp [renderStatusBar, hd.1, hd.2]
  · simp [renderStatusBar, imageSelectedState_eq, insertedImage, hole]
  · simp [renderStatusBar, hl.1, hl.2]

/-- C29: in `cropToolModalState`, reached from the initial state with the modal
open on the inserted image, the image satisfies `width = originalWidth * scaleX`
and `height = originalHeight * scaleY` (100 = 100 * 1, 50 = 50 * 1); after the
load callback of `handleCroppedImage` with a 40 x 20 cropped bitmap, the state
is reachable and the image has `width = 100`, `originalWidth = 40`,
`scaleX = 1`, `height = 50`, `originalHeight = 20`, `scaleY = 1`: the relation
no longer holds. -/
theorem C29_modal_crop_breaks_size_relation :
    Reachable trivialMath cropToolModalState ∧
    cropToolModalState.shapes = [insertedImage] ∧
    cropToolModalState.cropImageIndex = some 0 ∧
    (insertedImage.width, insertedImage.originalWidth, insertedImage.scaleX)
      = (some 100, some 100, some 1) ∧
    (insertedImage.height, insertedImage.originalHeight, insertedImage.scaleY)
      = (some 50, some 50, some 1) ∧
    Reachable trivialMath
      (handleCroppedImage_onload croppedBitmap cropToolModalState cropToolModalState) ∧
    (handleCroppedImage_onload croppedBitmap cropToolModalState cropToolModalState).shapes
      = [croppedImageShape] ∧
    (croppedImageShape.width, croppedImageShape.originalWidth, croppedImageShape.scaleX)
      = (some 100, some 40, some 1) ∧
    (croppedImageShape.height, croppedImageShape.originalHeight, croppedImageShape.scaleY)
      = (some 50, some 20, some 1) ∧
    (100 : ℚ) ≠ 40 * 1 ∧ (50 : ℚ) ≠ 20 * 1 := by
  have hr : Reachable trivialMath cropToolModalState :=
    Reachable.cropStarted "data:image/png;base64,AAAA"
      (Reachable.cropToolClicked imageSelectedState_reachable)
  have hs : cropToolModalState =
      { initialState with
        tool := Tool.cropImage
        selectedShapeIndex := some 0
        shapes := [insertedImage]
        history := [[], [insertedImage]]
        historyStep := 1
        cropImageData := some "data:image/png;base64,AAAA"
        cropImageIndex := some 0
        showCropModal := true } := by
    simp [cropToolModalState, startCropping, openCropModal, handleCropToolClick,
      imageSelectedState_eq, insertedImage, initialState]
  refine ⟨hr, by simp [hs], by simp [hs], rfl, rfl, Reachable.cropLoaded croppedBitmap hr hr,
    ?_, rfl, rfl, by norm_num, by norm_num⟩
  rw [hs]
  simp [handleCroppedImage_onload, arrayAssign, insertedImage, croppedImageShape,
    croppedBitmap, hole]

end KonvaApp
